import Mathlib

/-!
# xboxdrv: the uinput translation engine (`src/uinput.cpp`)

A shallow embedding of the event mapping engine of the userspace gamepad
driver: event descriptors, the mapping configuration, the runtime state of
`uInput`, the edge-triggered primitives `send_button` / `send_axis`, the
threshold emulation, the timer-driven relative motion of `update`, and the
device selection of `send_key` / `add_key`.

Conventions of the embedding.

* A C++ `int` is an `Int`.  Arithmetic that can leave the 32-bit range
  (`time += msec`, `next_time += repeat`, `rel.value * axis_state`) is wrapped
  with `int32`.  `abs` (`c_abs`) is exact except at `INT_MIN`, which it returns
  unchanged; the negation of a 16-bit stick reading is exact.
* A call on a virtual device (`LinuxUinput::send`, `add_key`, ...) is recorded
  as a `DevCall`; every operation returns the new engine state together with
  the list of device calls it made, in program order.
* `bool` passed where an `int` is expected is `0` or `1` (`b2i`); an `int`
  passed where a `bool` is expected is `true` iff it is non-zero (`i2b`).
-/

namespace Xboxdrv

/-! ## Constants of `linux/input.h` -/

/-- Event type of a key or button event. -/
abbrev EV_KEY : Int := 1
/-- Event type of a relative motion event. -/
abbrev EV_REL : Int := 2
/-- Event type of an absolute axis event. -/
abbrev EV_ABS : Int := 3
/-- First code of the mouse button window (`0x110`). -/
abbrev BTN_MOUSE : Int := 0x110
/-- Last code of the mouse button window (`0x117`). -/
abbrev BTN_TASK : Int := 0x117

/-- Absolute axis code `ABS_X`. -/
abbrev ABS_X : Int := 0x00
/-- Absolute axis code `ABS_Y`. -/
abbrev ABS_Y : Int := 0x01
/-- Absolute axis code `ABS_Z`. -/
abbrev ABS_Z : Int := 0x02
/-- Absolute axis code `ABS_RX`. -/
abbrev ABS_RX : Int := 0x03
/-- Absolute axis code `ABS_RY`. -/
abbrev ABS_RY : Int := 0x04
/-- Absolute axis code `ABS_GAS`. -/
abbrev ABS_GAS : Int := 0x09
/-- Absolute axis code `ABS_BRAKE`. -/
abbrev ABS_BRAKE : Int := 0x0a
/-- Absolute axis code `ABS_HAT0X`. -/
abbrev ABS_HAT0X : Int := 0x10
/-- Absolute axis code `ABS_HAT0Y`. -/
abbrev ABS_HAT0Y : Int := 0x11
/-- Button code `BTN_0`. -/
abbrev BTN_0 : Int := 0x100
/-- Button code `BTN_1`. -/
abbrev BTN_1 : Int := 0x101
/-- Button code `BTN_2`. -/
abbrev BTN_2 : Int := 0x102
/-- Button code `BTN_3`. -/
abbrev BTN_3 : Int := 0x103
/-- Button code `BTN_4`. -/
abbrev BTN_4 : Int := 0x104
/-- Button code `BTN_BASE`. -/
abbrev BTN_BASE : Int := 0x126
/-- Button code `BTN_BASE2`. -/
abbrev BTN_BASE2 : Int := 0x127
/-- Button code `BTN_BASE3`. -/
abbrev BTN_BASE3 : Int := 0x128
/-- Button code `BTN_BASE4`. -/
abbrev BTN_BASE4 : Int := 0x129
/-- Button code `BTN_A`. -/
abbrev BTN_A : Int := 0x130
/-- Button code `BTN_B`. -/
abbrev BTN_B : Int := 0x131
/-- Button code `BTN_X`. -/
abbrev BTN_X : Int := 0x133
/-- Button code `BTN_Y`. -/
abbrev BTN_Y : Int := 0x134
/-- Button code `BTN_TL`. -/
abbrev BTN_TL : Int := 0x136
/-- Button code `BTN_TR`. -/
abbrev BTN_TR : Int := 0x137
/-- Button code `BTN_TL2`. -/
abbrev BTN_TL2 : Int := 0x138
/-- Button code `BTN_TR2`. -/
abbrev BTN_TR2 : Int := 0x139
/-- Button code `BTN_SELECT`. -/
abbrev BTN_SELECT : Int := 0x13a
/-- Button code `BTN_START`. -/
abbrev BTN_START : Int := 0x13b
/-- Button code `BTN_MODE`. -/
abbrev BTN_MODE : Int := 0x13c
/-- Button code `BTN_THUMBL`. -/
abbrev BTN_THUMBL : Int := 0x13d
/-- Button code `BTN_THUMBR`. -/
abbrev BTN_THUMBR : Int := 0x13e
/-- Relative axis code `REL_X`. -/
abbrev REL_X : Int := 0x00
/-- Relative axis code `REL_Y`. -/
abbrev REL_Y : Int := 0x01

/-! ## Machine integers -/

/-- Two's complement wrap of an integer into the range of a 32-bit `int`. -/
def int32 (x : Int) : Int := (x + 2147483648) % 4294967296 - 2147483648

/-- The C library function `abs` on `int`: the absolute value, except at
`INT_MIN = -2147483648`, whose negation does not fit an `int` and wraps back to
`INT_MIN`. -/
def c_abs (x : Int) : Int :=
  if x = -2147483648 then -2147483648 else if x < 0 then -x else x

/-- Conversion `bool -> int`. -/
def b2i (b : Bool) : Int := if b then 1 else 0

/-- Conversion `int -> bool`. -/
def i2b (x : Int) : Bool := decide (x ≠ 0)

/-! ## Logical controls (`xboxmsg.hpp`) -/

/-- Modelled from the spec: the enum `XboxButton` is declared in `xboxmsg.hpp`,
which is not among the sources; the constructors are the logical button ids
that `uinput.cpp` names.  Distinct enumerators are distinct slots of
`btn_map` and `button_state`. -/
inductive XboxButton
  | XBOX_BTN_START | XBOX_BTN_GUIDE | XBOX_BTN_BACK
  | XBOX_BTN_A | XBOX_BTN_B | XBOX_BTN_X | XBOX_BTN_Y
  | XBOX_BTN_GREEN | XBOX_BTN_RED | XBOX_BTN_YELLOW | XBOX_BTN_BLUE | XBOX_BTN_ORANGE
  | XBOX_BTN_WHITE | XBOX_BTN_BLACK
  | XBOX_BTN_LB | XBOX_BTN_RB
  | XBOX_BTN_LT | XBOX_BTN_RT
  | XBOX_BTN_THUMB_L | XBOX_BTN_THUMB_R
  | XBOX_DPAD_UP | XBOX_DPAD_DOWN | XBOX_DPAD_LEFT | XBOX_DPAD_RIGHT
  deriving DecidableEq, Repr

/-- Modelled from the spec: the enum `XboxAxis` is declared in `xboxmsg.hpp`,
which is not among the sources; the constructors are the logical axis ids that
`uinput.cpp` names.  Distinct enumerators are distinct slots of `axis_map`
and `axis_state`. -/
inductive XboxAxis
  | XBOX_AXIS_X1 | XBOX_AXIS_Y1 | XBOX_AXIS_X2 | XBOX_AXIS_Y2
  | XBOX_AXIS_LT | XBOX_AXIS_RT | XBOX_AXIS_TRIGGER
  | XBOX_AXIS_DPAD_X | XBOX_AXIS_DPAD_Y
  deriving DecidableEq, Repr

/-- Modelled from the spec: the enum `GamepadType` is declared in
`xboxmsg.hpp`; the constructors are the gamepad types that `uinput.cpp`
names. -/
inductive GamepadType
  | GAMEPAD_XBOX | GAMEPAD_XBOX_MAT | GAMEPAD_XBOX360 | GAMEPAD_XBOX360_WIRELESS
  | GAMEPAD_XBOX360_GUITAR
  deriving DecidableEq, Repr

open XboxButton XboxAxis GamepadType

/-! ## Event descriptors and the mapping configuration (`uinput.hpp`) -/

/-- Modelled from the spec: `struct ButtonEvent` of `uinput.hpp`.  The members
of its union are laid out side by side: `rel_repeat` and `rel_value` are
`rel.repeat` and `rel.value`.  The code reads a union member only under the
matching `type`. -/
structure ButtonEvent where
  type : Int
  code : Int
  rel_repeat : Int
  rel_value : Int
  deriving DecidableEq, Repr

/-- Modelled from the spec: `struct AxisEvent` of `uinput.hpp`, its union laid
out side by side: `rel.repeat`, `rel.value`, `key.secondary_code`,
`key.threshold`. -/
structure AxisEvent where
  type : Int
  code : Int
  rel_repeat : Int
  rel_value : Int
  key_secondary_code : Int
  key_threshold : Int
  deriving DecidableEq, Repr

/-- Modelled from the spec: `struct uInputCfg` of `uinput.hpp`: the behaviour
flags and one descriptor per logical button and per logical axis. -/
structure uInputCfg where
  trigger_as_button : Bool
  dpad_as_button : Bool
  trigger_as_zaxis : Bool
  dpad_only : Bool
  force_feedback : Bool
  extra_devices : Bool
  btn_map : XboxButton → ButtonEvent
  axis_map : XboxAxis → AxisEvent

/-- The function `ButtonEvent::create`; `none` when it throws or its assertion
fails.  Union members it does not assign are `0`. -/
def ButtonEvent.create (type code : Int) : Option ButtonEvent :=
  if type = EV_REL then
    some { type := type, code := code, rel_repeat := 100, rel_value := 3 }
  else if type = EV_ABS then
    none
  else if type = EV_KEY then
    some { type := type, code := code, rel_repeat := 0, rel_value := 0 }
  else if type = -1 then
    some { type := type, code := code, rel_repeat := 0, rel_value := 0 }
  else
    none

/-- The function `AxisEvent::create`; `none` when its assertion fails.  Union
members it does not assign are `0`. -/
def AxisEvent.create (type code : Int) : Option AxisEvent :=
  if type = EV_REL then
    some { type := type, code := code, rel_repeat := 10, rel_value := 5,
           key_secondary_code := 0, key_threshold := 0 }
  else if type = EV_ABS then
    some { type := type, code := code, rel_repeat := 0, rel_value := 0,
           key_secondary_code := 0, key_threshold := 0 }
  else if type = EV_KEY then
    some { type := type, code := code, rel_repeat := 0, rel_value := 0,
           key_secondary_code := code, key_threshold := 8000 }
  else if type = -1 then
    some { type := type, code := code, rel_repeat := 0, rel_value := 0,
           key_secondary_code := 0, key_threshold := 0 }
  else
    none

/-- Executes the assignments `map[id] = e` of a list in order, starting from
a filled array; `none` if the creation of a descriptor failed. -/
def assign_all {ι α : Type} [DecidableEq ι] (fill : Option α) (l : List (ι × Option α)) :
    Option (ι → α) :=
  l.foldl
    (fun m p =>
      match m, p.2 with
      | some m, some e => some (Function.update m p.1 e)
      | _, _ => none)
    (fill.map (fun e _ => e))

/-- The constructor `uInputCfg::uInputCfg`; `none` if a `create` fails. -/
def uInputCfg.new : Option uInputCfg :=
  let btn_map := assign_all (ButtonEvent.create (-1) (-1))
    [ (XBOX_BTN_START, ButtonEvent.create EV_KEY BTN_START),
      (XBOX_BTN_GUIDE, ButtonEvent.create EV_KEY BTN_MODE),
      (XBOX_BTN_BACK, ButtonEvent.create EV_KEY BTN_SELECT),
      (XBOX_BTN_A, ButtonEvent.create EV_KEY BTN_A),
      (XBOX_BTN_B, ButtonEvent.create EV_KEY BTN_B),
      (XBOX_BTN_X, ButtonEvent.create EV_KEY BTN_X),
      (XBOX_BTN_Y, ButtonEvent.create EV_KEY BTN_Y),
      (XBOX_BTN_GREEN, ButtonEvent.create EV_KEY BTN_0),
      (XBOX_BTN_RED, ButtonEvent.create EV_KEY BTN_1),
      (XBOX_BTN_YELLOW, ButtonEvent.create EV_KEY BTN_2),
      (XBOX_BTN_BLUE, ButtonEvent.create EV_KEY BTN_3),
      (XBOX_BTN_ORANGE, ButtonEvent.create EV_KEY BTN_4),
      (XBOX_BTN_WHITE, ButtonEvent.create EV_KEY BTN_TL),
      (XBOX_BTN_BLACK, ButtonEvent.create EV_KEY BTN_TR),
      (XBOX_BTN_LB, ButtonEvent.create EV_KEY BTN_TL),
      (XBOX_BTN_RB, ButtonEvent.create EV_KEY BTN_TR),
      (XBOX_BTN_LT, ButtonEvent.create EV_KEY BTN_TL2),
      (XBOX_BTN_RT, ButtonEvent.create EV_KEY BTN_TR2),
      (XBOX_BTN_THUMB_L, ButtonEvent.create EV_KEY BTN_THUMBL),
      (XBOX_BTN_THUMB_R, ButtonEvent.create EV_KEY BTN_THUMBR),
      (XBOX_DPAD_UP, ButtonEvent.create EV_KEY BTN_BASE),
      (XBOX_DPAD_DOWN, ButtonEvent.create EV_KEY BTN_BASE2),
      (XBOX_DPAD_LEFT, ButtonEvent.create EV_KEY BTN_BASE3),
      (XBOX_DPAD_RIGHT, ButtonEvent.create EV_KEY BTN_BASE4) ]
  let axis_map := assign_all (AxisEvent.create (-1) (-1))
    [ (XBOX_AXIS_X1, AxisEvent.create EV_ABS ABS_X),
      (XBOX_AXIS_Y1, AxisEvent.create EV_ABS ABS_Y),
      (XBOX_AXIS_X2, AxisEvent.create EV_ABS ABS_RX),
      (XBOX_AXIS_Y2, AxisEvent.create EV_ABS ABS_RY),
      (XBOX_AXIS_LT, AxisEvent.create EV_ABS ABS_GAS),
      (XBOX_AXIS_RT, AxisEvent.create EV_ABS ABS_BRAKE),
      (XBOX_AXIS_TRIGGER, AxisEvent.create EV_ABS ABS_Z),
      (XBOX_AXIS_DPAD_X, AxisEvent.create EV_ABS ABS_HAT0X),
      (XBOX_AXIS_DPAD_Y, AxisEvent.create EV_ABS ABS_HAT0Y) ]
  match btn_map, axis_map with
  | some btn_map, some axis_map =>
    some { trigger_as_button := false,
           dpad_as_button := false,
           trigger_as_zaxis := false,
           dpad_only := false,
           force_feedback := false,
           extra_devices := true,
           btn_map := btn_map,
           axis_map := axis_map }
  | _, _ => none

/-! ## Parsing of textual descriptors

A `std::string` is a list of characters.  The function `str2event` of the
driver (it resolves a symbolic event name to a type and a code) and
`boost::lexical_cast<int>` are not part of `uinput.cpp`; the parsers take
them as the parameters `str2event` and `lexical_cast`, `none` standing for
"returns false" and for "throws `bad_lexical_cast`". -/

/-- The ways in which `from_string` does not return. -/
inductive ParseError
  | runtime_error (what : List Char)
  | create_failed
  | bad_lexical_cast
  | assertion_failed
  deriving DecidableEq, Repr

/-- Splits a string at every `:`, empty tokens kept. -/
def split_colon : List Char → List (List Char)
  | [] => [[]]
  | c :: cs =>
    if c = ':' then
      [] :: split_colon cs
    else
      match split_colon cs with
      | t :: ts => (c :: t) :: ts
      | [] => [[c]]

/-- The tokens of `boost::tokenizer` with the separator
`char_separator<char>(":", "", keep_empty_tokens)`: the string split at every
`:`, empty tokens kept; the empty string has no token. -/
def tokenize (str : List Char) : List (List Char) :=
  if str = [] then [] else split_colon str

/-- The loop of `ButtonEvent::from_string` from token number `j` on. -/
def ButtonEvent.from_string_loop (str2event : List Char → Option (Int × Int))
    (lexical_cast : List Char → Option Int) (str : List Char) :
    Nat → ButtonEvent → List (List Char) → Except ParseError ButtonEvent
  | _, ev, [] => Except.ok ev
  | j, ev, i :: rest =>
    if j = 0 then
      match str2event i with
      | none =>
        Except.error (ParseError.runtime_error
          ("Couldn't convert '".toList ++ str ++ "' to ButtonEvent".toList))
      | some (type, code) =>
        match ButtonEvent.create type code with
        | none => Except.error ParseError.create_failed
        | some ev1 => ButtonEvent.from_string_loop str2event lexical_cast str (j + 1) ev1 rest
    else if ev.type = EV_REL then
      if j = 1 then
        match lexical_cast i with
        | none => Except.error ParseError.bad_lexical_cast
        | some v =>
          ButtonEvent.from_string_loop str2event lexical_cast str (j + 1)
            { ev with rel_value := v } rest
      else if j = 2 then
        match lexical_cast i with
        | none => Except.error ParseError.bad_lexical_cast
        | some v =>
          ButtonEvent.from_string_loop str2event lexical_cast str (j + 1)
            { ev with rel_repeat := v } rest
      else
        ButtonEvent.from_string_loop str2event lexical_cast str (j + 1) ev rest
    else
      ButtonEvent.from_string_loop str2event lexical_cast str (j + 1) ev rest

/-- The function `ButtonEvent::from_string`.  The argument `ev` is the
indeterminate initial value of its local variable `ev`. -/
def ButtonEvent.from_string (str2event : List Char → Option (Int × Int))
    (lexical_cast : List Char → Option Int) (ev : ButtonEvent) (str : List Char) :
    Except ParseError ButtonEvent :=
  ButtonEvent.from_string_loop str2event lexical_cast str 0 ev (tokenize str)

/-- The loop of `AxisEvent::from_string` from token number `j` on.  For the
secondary code of a key descriptor the result of `str2event` is not tested;
the assertion `type == EV_KEY` that follows fails unless the symbol resolved
to a key. -/
def AxisEvent.from_string_loop (str2event : List Char → Option (Int × Int))
    (lexical_cast : List Char → Option Int) (str : List Char) :
    Nat → AxisEvent → List (List Char) → Except ParseError AxisEvent
  | _, ev, [] => Except.ok ev
  | j, ev, i :: rest =>
    if j = 0 then
      match str2event i with
      | none =>
        Except.error (ParseError.runtime_error
          ("Couldn't convert '".toList ++ str ++ "' to AxisEvent".toList))
      | some (type, code) =>
        match AxisEvent.create type code with
        | none => Except.error ParseError.create_failed
        | some ev1 => AxisEvent.from_string_loop str2event lexical_cast str (j + 1) ev1 rest
    else if ev.type = EV_ABS then
      AxisEvent.from_string_loop str2event lexical_cast str (j + 1) ev rest
    else if ev.type = EV_REL then
      if j = 1 then
        match lexical_cast i with
        | none => Except.error ParseError.bad_lexical_cast
        | some v =>
          AxisEvent.from_string_loop str2event lexical_cast str (j + 1)
            { ev with rel_value := v } rest
      else if j = 2 then
        match lexical_cast i with
        | none => Except.error ParseError.bad_lexical_cast
        | some v =>
          AxisEvent.from_string_loop str2event lexical_cast str (j + 1)
            { ev with rel_repeat := v } rest
      else
        AxisEvent.from_string_loop str2event lexical_cast str (j + 1) ev rest
    else if ev.type = EV_KEY then
      if j = 1 then
        match str2event i with
        | some (type, code) =>
          if type = EV_KEY then
            AxisEvent.from_string_loop str2event lexical_cast str (j + 1)
              { ev with key_secondary_code := code } rest
          else
            Except.error ParseError.assertion_failed
        | none => Except.error ParseError.assertion_failed
      else if j = 2 then
        match lexical_cast i with
        | none => Except.error ParseError.bad_lexical_cast
        | some v =>
          AxisEvent.from_string_loop str2event lexical_cast str (j + 1)
            { ev with key_threshold := v } rest
      else
        AxisEvent.from_string_loop str2event lexical_cast str (j + 1) ev rest
    else
      AxisEvent.from_string_loop str2event lexical_cast str (j + 1) ev rest

/-- The function `AxisEvent::from_string`.  The argument `ev` is the
indeterminate initial value of its local variable `ev`. -/
def AxisEvent.from_string (str2event : List Char → Option (Int × Int))
    (lexical_cast : List Char → Option Int) (ev : AxisEvent) (str : List Char) :
    Except ParseError AxisEvent :=
  AxisEvent.from_string_loop str2event lexical_cast str 0 ev (tokenize str)

/-- The textual form `SYMBOL[:PARAM1[:PARAM2]]` of a list of tokens: the
tokens joined with `:`. -/
def join_colon : List (List Char) → List Char
  | [] => []
  | [t] => t
  | t :: t1 :: ts => t ++ ':' :: join_colon (t1 :: ts)

/-- The value of a non-empty string of decimal digits read after the digits
`acc`. -/
def digits_value : Nat → List Char → Option Nat
  | _, [] => none
  | acc, [c] => if c.isDigit then some (10 * acc + (c.toNat - 48)) else none
  | acc, c :: c1 :: cs =>
    if c.isDigit then digits_value (10 * acc + (c.toNat - 48)) (c1 :: cs) else none

/-- A sample `lexical_cast`: decimal literals with an optional minus sign. -/
def lexical_cast_sample : List Char → Option Int
  | '-' :: ds => (digits_value 0 ds).map (fun n => -(n : Int))
  | ds => (digits_value 0 ds).map (fun n => (n : Int))

/-- A sample `str2event`: a symbol table with six of the names of
`linux/input.h`. -/
def str2event_sample (name : List Char) : Option (Int × Int) :=
  if name = "REL_X".toList then some (EV_REL, REL_X)
  else if name = "REL_Y".toList then some (EV_REL, REL_Y)
  else if name = "KEY_LEFT".toList then some (EV_KEY, 105)
  else if name = "KEY_RIGHT".toList then some (EV_KEY, 106)
  else if name = "BTN_A".toList then some (EV_KEY, BTN_A)
  else if name = "ABS_X".toList then some (EV_ABS, ABS_X)
  else none

/-! ## Virtual devices and the calls made on them -/

/-- Identity of a virtual output device (an object of class `LinuxUinput`). -/
inductive LinuxUinput
  | joystick | mouse | keyboard
  deriving DecidableEq, Repr

/-- One member call on a `LinuxUinput` object. -/
inductive UinputCall
  | send (type code value : Int)
  | add_key (code : Int)
  | add_abs (code min max : Int)
  | add_rel (code : Int)
  | finish
  deriving DecidableEq, Repr

/-- A recorded device call: the device and the call made on it. -/
structure DevCall where
  dev : LinuxUinput
  call : UinputCall
  deriving DecidableEq, Repr

/-! ## Runtime state (`class uInput`) -/

/-- An entry of `rel_axis`: the timer of an axis mapped to relative motion. -/
structure RelAxisState where
  axis : XboxAxis
  time : Int
  next_time : Int
  deriving DecidableEq, Repr

/-- An entry of `rel_button`: the timer of a button mapped to relative motion. -/
structure RelButtonState where
  button : XboxButton
  time : Int
  next_time : Int
  deriving DecidableEq, Repr

/-- Modelled from the spec: the data members of `class uInput` (`uinput.hpp`).
`joystick_uinput_dev` always points to a device; `mouse_uinput_dev` and
`keyboard_uinput_dev` are `true` iff the pointer is not null. -/
structure uInput where
  cfg : uInputCfg
  axis_state : XboxAxis → Int
  button_state : XboxButton → Bool
  rel_axis : List RelAxisState
  rel_button : List RelButtonState
  mouse_uinput_dev : Bool
  keyboard_uinput_dev : Bool

/-! ## Input messages (`xboxmsg.hpp`) -/

/-- Modelled from the spec: `struct Xbox360Msg`, the members read by
`uInput::send`.  Members passed to `send_button` only are `Bool`; the stick
and trigger readings are integers. -/
structure Xbox360Msg where
  thumb_l : Bool
  thumb_r : Bool
  lb : Bool
  rb : Bool
  start : Bool
  guide : Bool
  back : Bool
  a : Bool
  b : Bool
  x : Bool
  y : Bool
  x1 : Int
  y1 : Int
  x2 : Int
  y2 : Int
  lt : Int
  rt : Int
  dpad_up : Bool
  dpad_down : Bool
  dpad_left : Bool
  dpad_right : Bool
  deriving DecidableEq, Repr

/-- Modelled from the spec: `struct XboxMsg`, the members read by
`uInput::send`. -/
structure XboxMsg where
  thumb_l : Bool
  thumb_r : Bool
  white : Bool
  black : Bool
  start : Bool
  back : Bool
  a : Bool
  b : Bool
  x : Bool
  y : Bool
  x1 : Int
  y1 : Int
  x2 : Int
  y2 : Int
  lt : Int
  rt : Int
  dpad_up : Bool
  dpad_down : Bool
  dpad_left : Bool
  dpad_right : Bool
  deriving DecidableEq, Repr

/-- Modelled from the spec: `struct Xbox360GuitarMsg`, the members read by
`uInput::send`. -/
structure Xbox360GuitarMsg where
  dpad_up : Bool
  dpad_down : Bool
  dpad_left : Bool
  dpad_right : Bool
  start : Bool
  guide : Bool
  back : Bool
  green : Bool
  red : Bool
  yellow : Bool
  blue : Bool
  orange : Bool
  whammy : Int
  tilt : Int
  deriving DecidableEq, Repr

/-- Modelled from the spec: `struct XboxGenericMsg`: a type tag and a union of
the three message layouts, laid out side by side. -/
structure XboxGenericMsg where
  type : GamepadType
  xbox : XboxMsg
  xbox360 : Xbox360Msg
  guitar : Xbox360GuitarMsg
  deriving DecidableEq, Repr

namespace uInput

/-! ## Device selection -/

/-- The method `uInput::is_mouse_button`. -/
def is_mouse_button (ev_code : Int) : Bool :=
  decide (ev_code ≥ BTN_MOUSE) && decide (ev_code ≤ BTN_TASK)

/-- The method `uInput::is_keyboard_button`. -/
def is_keyboard_button (ev_code : Int) : Bool :=
  decide (ev_code < 256)

/-- The method `uInput::get_mouse_uinput`. -/
def get_mouse_uinput (u : uInput) : LinuxUinput :=
  if u.mouse_uinput_dev then LinuxUinput.mouse else LinuxUinput.joystick

/-- The method `uInput::get_keyboard_uinput`. -/
def get_keyboard_uinput (u : uInput) : LinuxUinput :=
  if u.keyboard_uinput_dev then LinuxUinput.keyboard else LinuxUinput.joystick

/-- The method `uInput::get_joystick_uinput`. -/
def get_joystick_uinput (_u : uInput) : LinuxUinput :=
  LinuxUinput.joystick

/-- The method `uInput::add_key`: the device call it makes. -/
def add_key (u : uInput) (ev_code : Int) : DevCall :=
  if is_keyboard_button ev_code then
    ⟨get_keyboard_uinput u, UinputCall.add_key ev_code⟩
  else if is_mouse_button ev_code then
    ⟨get_mouse_uinput u, UinputCall.add_key ev_code⟩
  else
    ⟨get_joystick_uinput u, UinputCall.add_key ev_code⟩

/-- The method `uInput::send_key`: the device call it makes. -/
def send_key (u : uInput) (ev_code : Int) (value : Bool) : DevCall :=
  if is_keyboard_button ev_code then
    ⟨get_keyboard_uinput u, UinputCall.send EV_KEY ev_code (b2i value)⟩
  else if is_mouse_button ev_code then
    ⟨get_mouse_uinput u, UinputCall.send EV_KEY ev_code (b2i value)⟩
  else
    ⟨get_joystick_uinput u, UinputCall.send EV_KEY ev_code (b2i value)⟩

/-! ## Edge-triggered primitives -/

/-- The method `uInput::send_button`. -/
def send_button (u : uInput) (code : XboxButton) (value : Bool) : uInput × List DevCall :=
  if u.button_state code != value then
    ({ u with button_state := Function.update u.button_state code value },
     [send_key u (u.cfg.btn_map code).code value])
  else
    (u, [])

/-- The method `uInput::send_axis`. -/
def send_axis (u : uInput) (code : XboxAxis) (value : Int) : uInput × List DevCall :=
  if u.axis_state code ≠ value then
    let old_value := u.axis_state code
    let u1 := { u with axis_state := Function.update u.axis_state code value }
    let event := u.cfg.axis_map code
    if event.type = EV_ABS then
      if event.type = EV_ABS ∨ event.type = EV_KEY then
        (u1, [⟨get_joystick_uinput u, UinputCall.send event.type event.code value⟩])
      else
        (u1, [])
    else if event.type = EV_REL then
      (u1, [])
    else if event.type = EV_KEY then
      if c_abs old_value < event.key_threshold ∧ c_abs value ≥ event.key_threshold then
        if value < 0 then
          (u1, [send_key u event.key_secondary_code false, send_key u event.code true])
        else
          (u1, [send_key u event.code false, send_key u event.key_secondary_code true])
      else if c_abs old_value ≥ event.key_threshold ∧ c_abs value < event.key_threshold then
        (u1, [send_key u event.code false, send_key u event.key_secondary_code false])
      else
        (u1, [])
    else
      (u1, [])
  else
    (u, [])

/-! ## Dispatch of a message -/

/-- One call of `send_button` or `send_axis` made by `uInput::send`. -/
inductive Dispatch
  | button (code : XboxButton) (value : Bool)
  | axis (code : XboxAxis) (value : Int)
  deriving DecidableEq, Repr

/-- Executes one dispatched call. -/
def dispatch (u : uInput) : Dispatch → uInput × List DevCall
  | Dispatch.button code value => send_button u code value
  | Dispatch.axis code value => send_axis u code value

/-- Executes a sequence of dispatched calls in program order. -/
def run (u : uInput) : List Dispatch → uInput × List DevCall
  | [] => (u, [])
  | d :: ds =>
    let r1 := dispatch u d
    let r2 := run r1.1 ds
    (r2.1, r1.2 ++ r2.2)

/-- The calls made by `uInput::send(Xbox360Msg&)`, in program order. -/
def send_Xbox360Msg_calls (cfg : uInputCfg) (msg : Xbox360Msg) : List Dispatch :=
  [ Dispatch.button XBOX_BTN_THUMB_L msg.thumb_l,
    Dispatch.button XBOX_BTN_THUMB_R msg.thumb_r,
    Dispatch.button XBOX_BTN_LB msg.lb,
    Dispatch.button XBOX_BTN_RB msg.rb,
    Dispatch.button XBOX_BTN_START msg.start,
    Dispatch.button XBOX_BTN_GUIDE msg.guide,
    Dispatch.button XBOX_BTN_BACK msg.back,
    Dispatch.button XBOX_BTN_A msg.a,
    Dispatch.button XBOX_BTN_B msg.b,
    Dispatch.button XBOX_BTN_X msg.x,
    Dispatch.button XBOX_BTN_Y msg.y,
    Dispatch.axis XBOX_AXIS_X1 msg.x1,
    Dispatch.axis XBOX_AXIS_Y1 (-msg.y1),
    Dispatch.axis XBOX_AXIS_X2 msg.x2,
    Dispatch.axis XBOX_AXIS_Y2 (-msg.y2) ]
  ++ (if cfg.trigger_as_zaxis then
        [ Dispatch.axis XBOX_AXIS_TRIGGER (msg.rt - msg.lt) ]
      else if cfg.trigger_as_button then
        [ Dispatch.button XBOX_BTN_LT (i2b msg.lt),
          Dispatch.button XBOX_BTN_RT (i2b msg.rt) ]
      else
        [ Dispatch.axis XBOX_AXIS_LT msg.lt,
          Dispatch.axis XBOX_AXIS_RT msg.rt ])
  ++ (if cfg.dpad_as_button && !cfg.dpad_only then
        [ Dispatch.button XBOX_DPAD_UP msg.dpad_up,
          Dispatch.button XBOX_DPAD_DOWN msg.dpad_down,
          Dispatch.button XBOX_DPAD_LEFT msg.dpad_left,
          Dispatch.button XBOX_DPAD_RIGHT msg.dpad_right ]
      else
        let dpad_x := if cfg.dpad_only then XBOX_AXIS_X1 else XBOX_AXIS_DPAD_X
        let dpad_y := if cfg.dpad_only then XBOX_AXIS_Y1 else XBOX_AXIS_DPAD_Y
        [ (if msg.dpad_up then Dispatch.axis dpad_y (-1)
           else if msg.dpad_down then Dispatch.axis dpad_y 1
           else Dispatch.axis dpad_y 0),
          (if msg.dpad_left then Dispatch.axis dpad_x (-1)
           else if msg.dpad_right then Dispatch.axis dpad_x 1
           else Dispatch.axis dpad_x 0) ])

/-- The calls made by `uInput::send(XboxMsg&)`, in program order. -/
def send_XboxMsg_calls (cfg : uInputCfg) (msg : XboxMsg) : List Dispatch :=
  [ Dispatch.button XBOX_BTN_THUMB_L msg.thumb_l,
    Dispatch.button XBOX_BTN_THUMB_R msg.thumb_r,
    Dispatch.button XBOX_BTN_WHITE msg.white,
    Dispatch.button XBOX_BTN_BLACK msg.black,
    Dispatch.button XBOX_BTN_START msg.start,
    Dispatch.button XBOX_BTN_BACK msg.back,
    Dispatch.button XBOX_BTN_A msg.a,
    Dispatch.button XBOX_BTN_B msg.b,
    Dispatch.button XBOX_BTN_X msg.x,
    Dispatch.button XBOX_BTN_Y msg.y,
    Dispatch.axis XBOX_AXIS_X1 msg.x1,
    Dispatch.axis XBOX_AXIS_Y1 msg.y1,
    Dispatch.axis XBOX_AXIS_X2 msg.x2,
    Dispatch.axis XBOX_AXIS_Y2 msg.y2 ]
  ++ (if cfg.trigger_as_zaxis then
        [ Dispatch.axis XBOX_AXIS_TRIGGER (msg.rt - msg.lt) ]
      else if cfg.trigger_as_button then
        [ Dispatch.button XBOX_BTN_LT (i2b msg.lt),
          Dispatch.button XBOX_BTN_RT (i2b msg.rt) ]
      else
        [ Dispatch.axis XBOX_AXIS_LT msg.lt,
          Dispatch.axis XBOX_AXIS_RT msg.rt ])
  ++ (if cfg.dpad_as_button then
        [ Dispatch.button XBOX_DPAD_UP msg.dpad_up,
          Dispatch.button XBOX_DPAD_DOWN msg.dpad_down,
          Dispatch.button XBOX_DPAD_LEFT msg.dpad_left,
          Dispatch.button XBOX_DPAD_RIGHT msg.dpad_right ]
      else
        [ (if msg.dpad_up then Dispatch.axis XBOX_AXIS_DPAD_Y (-1)
           else if msg.dpad_down then Dispatch.axis XBOX_AXIS_DPAD_Y 1
           else Dispatch.axis XBOX_AXIS_DPAD_Y 0),
          (if msg.dpad_left then Dispatch.axis XBOX_AXIS_DPAD_X (-1)
           else if msg.dpad_right then Dispatch.axis XBOX_AXIS_DPAD_X 1
           else Dispatch.axis XBOX_AXIS_DPAD_X 0) ])

/-- The calls made by `uInput::send(Xbox360GuitarMsg&)`, in program order. -/
def send_Xbox360GuitarMsg_calls (msg : Xbox360GuitarMsg) : List Dispatch :=
  [ Dispatch.button XBOX_DPAD_UP msg.dpad_up,
    Dispatch.button XBOX_DPAD_DOWN msg.dpad_down,
    Dispatch.button XBOX_DPAD_LEFT msg.dpad_left,
    Dispatch.button XBOX_DPAD_RIGHT msg.dpad_right,
    Dispatch.button XBOX_BTN_START msg.start,
    Dispatch.button XBOX_BTN_GUIDE msg.guide,
    Dispatch.button XBOX_BTN_BACK msg.back,
    Dispatch.button XBOX_BTN_GREEN msg.green,
    Dispatch.button XBOX_BTN_RED msg.red,
    Dispatch.button XBOX_BTN_YELLOW msg.yellow,
    Dispatch.button XBOX_BTN_BLUE msg.blue,
    Dispatch.button XBOX_BTN_ORANGE msg.orange,
    Dispatch.axis XBOX_AXIS_X1 msg.whammy,
    Dispatch.axis XBOX_AXIS_Y1 msg.tilt ]

/-! ## Capability registration -/

/-- The method `uInput::add_axis`. -/
def add_axis (u : uInput) (code : XboxAxis) (min max : Int) : uInput × List DevCall :=
  let event := u.cfg.axis_map code
  if event.type = EV_ABS then
    (u, [⟨get_joystick_uinput u, UinputCall.add_abs event.code min max⟩])
  else if event.type = EV_REL then
    ({ u with rel_axis := u.rel_axis ++ [⟨code, 0, 0⟩] },
     [⟨get_mouse_uinput u, UinputCall.add_rel event.code⟩])
  else if event.type = EV_KEY then
    (u, add_key u event.code ::
          (if event.code ≠ event.key_secondary_code then
             [add_key u event.key_secondary_code]
           else []))
  else
    (u, [])

/-- The method `uInput::add_button`. -/
def add_button (u : uInput) (code : XboxButton) : uInput × List DevCall :=
  let event := u.cfg.btn_map code
  if event.type = EV_KEY then
    (u, [add_key u event.code])
  else if event.type = EV_REL then
    ({ u with rel_button := u.rel_button ++ [⟨code, 0, 0⟩] },
     [⟨get_mouse_uinput u, UinputCall.add_rel event.code⟩])
  else
    (u, [])

/-- One call of `add_axis` or `add_button` made by a setup method. -/
inductive Registration
  | axis (code : XboxAxis) (min max : Int)
  | button (code : XboxButton)
  deriving DecidableEq, Repr

/-- Executes one registration call. -/
def register (u : uInput) : Registration → uInput × List DevCall
  | Registration.axis code min max => add_axis u code min max
  | Registration.button code => add_button u code

/-- Executes a sequence of registration calls in program order. -/
def run_setup (u : uInput) : List Registration → uInput × List DevCall
  | [] => (u, [])
  | r :: rs =>
    let r1 := register u r
    let r2 := run_setup r1.1 rs
    (r2.1, r1.2 ++ r2.2)

/-- The calls made by `uInput::setup_xbox360_gamepad`, in program order. -/
def setup_xbox360_gamepad_calls (cfg : uInputCfg) (type : GamepadType) : List Registration :=
  [ Registration.axis XBOX_AXIS_X1 (-32768) 32767,
    Registration.axis XBOX_AXIS_Y1 (-32768) 32767 ]
  ++ (if !cfg.dpad_only then
        [ Registration.axis XBOX_AXIS_X2 (-32768) 32767,
          Registration.axis XBOX_AXIS_Y2 (-32768) 32767 ]
      else [])
  ++ (if cfg.trigger_as_button then
        [ Registration.button XBOX_BTN_LT,
          Registration.button XBOX_BTN_RT ]
      else if cfg.trigger_as_zaxis then
        [ Registration.axis XBOX_AXIS_TRIGGER (-255) 255 ]
      else
        [ Registration.axis XBOX_AXIS_LT 0 255,
          Registration.axis XBOX_AXIS_RT 0 255 ])
  ++ (if !cfg.dpad_only then
        if !cfg.dpad_as_button then
          [ Registration.axis XBOX_AXIS_DPAD_X (-1) 1,
            Registration.axis XBOX_AXIS_DPAD_Y (-1) 1 ]
        else
          [ Registration.button XBOX_DPAD_UP,
            Registration.button XBOX_DPAD_DOWN,
            Registration.button XBOX_DPAD_LEFT,
            Registration.button XBOX_DPAD_RIGHT ]
      else [])
  ++ [ Registration.button XBOX_BTN_START,
       Registration.button XBOX_BTN_BACK ]
  ++ (if type = GAMEPAD_XBOX360 ∨ type = GAMEPAD_XBOX360_WIRELESS then
        [ Registration.button XBOX_BTN_GUIDE ]
      else [])
  ++ [ Registration.button XBOX_BTN_A,
       Registration.button XBOX_BTN_B,
       Registration.button XBOX_BTN_X,
       Registration.button XBOX_BTN_Y,
       Registration.button XBOX_BTN_LB,
       Registration.button XBOX_BTN_RB,
       Registration.button XBOX_BTN_THUMB_L,
       Registration.button XBOX_BTN_THUMB_R ]

/-- The calls made by `uInput::setup_xbox360_guitar`, in program order. -/
def setup_xbox360_guitar_calls : List Registration :=
  [ Registration.axis XBOX_AXIS_X1 (-32768) 32767,
    Registration.axis XBOX_AXIS_Y1 (-32768) 32767,
    Registration.button XBOX_DPAD_UP,
    Registration.button XBOX_DPAD_DOWN,
    Registration.button XBOX_DPAD_LEFT,
    Registration.button XBOX_DPAD_RIGHT,
    Registration.button XBOX_BTN_START,
    Registration.button XBOX_BTN_BACK,
    Registration.button XBOX_BTN_GUIDE,
    Registration.button XBOX_BTN_GREEN,
    Registration.button XBOX_BTN_RED,
    Registration.button XBOX_BTN_BLUE,
    Registration.button XBOX_BTN_YELLOW,
    Registration.button XBOX_BTN_ORANGE ]

/-- The method `uInput::setup_xbox360_gamepad`. -/
def setup_xbox360_gamepad (u : uInput) (type : GamepadType) : uInput × List DevCall :=
  run_setup u (setup_xbox360_gamepad_calls u.cfg type)

/-- The method `uInput::setup_xbox360_guitar`. -/
def setup_xbox360_guitar (u : uInput) : uInput × List DevCall :=
  run_setup u setup_xbox360_guitar_calls

/-! ## Relative motion timers -/

/-- Body of the first loop of `uInput::update`: one entry of `rel_axis`. -/
def update_rel_axis (u : uInput) (msec : Int) (i : RelAxisState) :
    RelAxisState × List DevCall :=
  let time := int32 (i.time + msec)
  if time ≥ i.next_time then
    ({ i with
         time := time,
         next_time := int32 (i.next_time + (u.cfg.axis_map i.axis).rel_repeat) },
     [⟨get_mouse_uinput u,
       UinputCall.send EV_REL (u.cfg.axis_map i.axis).code
         (Int.tdiv (int32 ((u.cfg.axis_map i.axis).rel_value * u.axis_state i.axis)) 32767)⟩])
  else
    ({ i with time := time }, [])

/-- Body of the second loop of `uInput::update`: one entry of `rel_button`. -/
def update_rel_button (u : uInput) (msec : Int) (i : RelButtonState) :
    RelButtonState × List DevCall :=
  let time := int32 (i.time + msec)
  if time ≥ i.next_time then
    ({ i with
         time := time,
         next_time := int32 (i.next_time + (u.cfg.btn_map i.button).rel_repeat) },
     [⟨get_mouse_uinput u,
       UinputCall.send EV_REL (u.cfg.btn_map i.button).code
         ((u.cfg.btn_map i.button).rel_value * b2i (u.button_state i.button))⟩])
  else
    ({ i with time := time }, [])

/-- The first loop of `uInput::update`, over `rel_axis`. -/
def update_rel_axis_loop (u : uInput) (msec : Int) :
    List RelAxisState → List RelAxisState × List DevCall
  | [] => ([], [])
  | i :: rest =>
    let r1 := update_rel_axis u msec i
    let r2 := update_rel_axis_loop u msec rest
    (r1.1 :: r2.1, r1.2 ++ r2.2)

/-- The second loop of `uInput::update`, over `rel_button`. -/
def update_rel_button_loop (u : uInput) (msec : Int) :
    List RelButtonState → List RelButtonState × List DevCall
  | [] => ([], [])
  | i :: rest =>
    let r1 := update_rel_button u msec i
    let r2 := update_rel_button_loop u msec rest
    (r1.1 :: r2.1, r1.2 ++ r2.2)

/-- The method `uInput::update`, from the integer `msec` it computes from its
argument (`static_cast<int>(delta*1000)`) on. -/
def update (u : uInput) (msec : Int) : uInput × List DevCall :=
  let ra := update_rel_axis_loop u msec u.rel_axis
  let rb := update_rel_button_loop u msec u.rel_button
  ({ u with rel_axis := ra.1, rel_button := rb.1 }, ra.2 ++ rb.2)

/-- Calls `update` with the same `msec` the given number of times and returns
the final state and the device calls of every call, in order. -/
def update_n (u : uInput) (msec : Int) : Nat → uInput × List (List DevCall)
  | 0 => (u, [])
  | n + 1 =>
    let r1 := update u msec
    let r2 := update_n r1.1 msec n
    (r2.1, r1.2 :: r2.2)

/-- Calls `send_axis` on one axis with each value of a list in turn and returns
the final state and the device calls of every call, in order. -/
def send_axis_seq (u : uInput) (code : XboxAxis) : List Int → uInput × List (List DevCall)
  | [] => (u, [])
  | v :: vs =>
    let r1 := send_axis u code v
    let r2 := send_axis_seq r1.1 code vs
    (r2.1, r1.2 :: r2.2)

/-- The method `uInput::send(Xbox360Msg&)`. -/
def send_Xbox360Msg (u : uInput) (msg : Xbox360Msg) : uInput × List DevCall :=
  run u (send_Xbox360Msg_calls u.cfg msg)

/-- The method `uInput::send(XboxMsg&)`. -/
def send_XboxMsg (u : uInput) (msg : XboxMsg) : uInput × List DevCall :=
  run u (send_XboxMsg_calls u.cfg msg)

/-- The method `uInput::send(Xbox360GuitarMsg&)`. -/
def send_Xbox360GuitarMsg (u : uInput) (msg : Xbox360GuitarMsg) : uInput × List DevCall :=
  run u (send_Xbox360GuitarMsg_calls msg)

/-- The method `uInput::send(XboxGenericMsg&)`. -/
def send (u : uInput) (msg : XboxGenericMsg) : uInput × List DevCall :=
  match msg.type with
  | GAMEPAD_XBOX => send_XboxMsg u msg.xbox
  | GAMEPAD_XBOX_MAT => send_XboxMsg u msg.xbox
  | GAMEPAD_XBOX360 => send_Xbox360Msg u msg.xbox360
  | GAMEPAD_XBOX360_WIRELESS => send_Xbox360Msg u msg.xbox360
  | GAMEPAD_XBOX360_GUITAR => send_Xbox360GuitarMsg u msg.guitar

/-- The constructor `uInput::uInput`.  The block that creates the mouse and
keyboard devices and runs the setup methods is guarded by `if (0)`. -/
def new (type : GamepadType) (config_ : uInputCfg) : uInput × List DevCall :=
  let u0 : uInput :=
    { cfg := config_,
      axis_state := fun _ => 0,
      button_state := fun _ => false,
      rel_axis := [],
      rel_button := [],
      mouse_uinput_dev := false,
      keyboard_uinput_dev := false }
  let c0 : List DevCall :=
    [ ⟨LinuxUinput.joystick, UinputCall.add_key BTN_X⟩,
      ⟨LinuxUinput.joystick, UinputCall.add_abs ABS_X (-1) 1⟩,
      ⟨LinuxUinput.joystick, UinputCall.add_abs ABS_Y (-1) 1⟩,
      ⟨LinuxUinput.joystick, UinputCall.finish⟩ ]
  if false then
    let u1 := { u0 with mouse_uinput_dev := u0.mouse_uinput_dev || config_.extra_devices }
    let u2 := { u1 with keyboard_uinput_dev := u1.keyboard_uinput_dev || config_.extra_devices }
    let r :=
      if type = GAMEPAD_XBOX360 ∨ type = GAMEPAD_XBOX ∨ type = GAMEPAD_XBOX360_WIRELESS then
        setup_xbox360_gamepad u2 type
      else if type = GAMEPAD_XBOX360_GUITAR then
        setup_xbox360_guitar u2
      else
        -- prints a message and exits
        (u2, [])
    (r.1, c0 ++ r.2
          ++ [⟨LinuxUinput.joystick, UinputCall.finish⟩]
          ++ (if r.1.keyboard_uinput_dev then [⟨LinuxUinput.keyboard, UinputCall.finish⟩] else [])
          ++ (if r.1.mouse_uinput_dev then [⟨LinuxUinput.mouse, UinputCall.finish⟩] else []))
  else
    (u0, c0)

/-! ## Which extra devices a configuration needs -/

/-- The indices `0 .. XBOX_BTN_MAX - 1` of `btn_map`: every logical button. -/
def btn_slots : List XboxButton :=
  [ XBOX_BTN_START, XBOX_BTN_GUIDE, XBOX_BTN_BACK,
    XBOX_BTN_A, XBOX_BTN_B, XBOX_BTN_X, XBOX_BTN_Y,
    XBOX_BTN_GREEN, XBOX_BTN_RED, XBOX_BTN_YELLOW, XBOX_BTN_BLUE, XBOX_BTN_ORANGE,
    XBOX_BTN_WHITE, XBOX_BTN_BLACK,
    XBOX_BTN_LB, XBOX_BTN_RB,
    XBOX_BTN_LT, XBOX_BTN_RT,
    XBOX_BTN_THUMB_L, XBOX_BTN_THUMB_R,
    XBOX_DPAD_UP, XBOX_DPAD_DOWN, XBOX_DPAD_LEFT, XBOX_DPAD_RIGHT ]

/-- The indices `0 .. XBOX_AXIS_MAX - 1` of `axis_map`: every logical axis. -/
def axis_slots : List XboxAxis :=
  [ XBOX_AXIS_X1, XBOX_AXIS_Y1, XBOX_AXIS_X2, XBOX_AXIS_Y2,
    XBOX_AXIS_LT, XBOX_AXIS_RT, XBOX_AXIS_TRIGGER,
    XBOX_AXIS_DPAD_X, XBOX_AXIS_DPAD_Y ]

/-- The method `uInput::need_keyboard_device`: each loop returns `true` at
the first slot that satisfies its test. -/
def need_keyboard_device (u : uInput) : Bool :=
  if btn_slots.any (fun i =>
      decide ((u.cfg.btn_map i).type = EV_KEY) && is_keyboard_button (u.cfg.btn_map i).code) then
    true
  else if axis_slots.any (fun i =>
      decide ((u.cfg.axis_map i).type = EV_KEY)
        && (is_keyboard_button (u.cfg.axis_map i).code
            || is_keyboard_button (u.cfg.axis_map i).key_secondary_code)) then
    true
  else
    false

/-- The method `uInput::need_mouse_device`: each loop returns `true` at the
first slot that satisfies one of its tests. -/
def need_mouse_device (u : uInput) : Bool :=
  if btn_slots.any (fun i =>
      if decide ((u.cfg.btn_map i).type = EV_KEY) && is_mouse_button (u.cfg.btn_map i).code then
        true
      else if (u.cfg.btn_map i).type = EV_REL then
        true
      else
        false) then
    true
  else if axis_slots.any (fun i =>
      if decide ((u.cfg.axis_map i).type = EV_KEY)
          && (is_mouse_button (u.cfg.axis_map i).code
              || is_mouse_button (u.cfg.axis_map i).key_secondary_code) then
        true
      else if (u.cfg.axis_map i).type = EV_REL then
        true
      else
        false) then
    true
  else
    false

/-! ## Auxiliary notions of the proofs -/

/-- The engine `u1` has the configuration and the devices of `u`. -/
def Follows (u u1 : uInput) : Prop :=
  u1.cfg = u.cfg ∧ u1.mouse_uinput_dev = u.mouse_uinput_dev
    ∧ u1.keyboard_uinput_dev = u.keyboard_uinput_dev

/-- The stored value of the control a dispatched call addresses is already
the dispatched value. -/
def Dispatch.settled (u : uInput) : Dispatch → Prop
  | Dispatch.button code value => u.button_state code = value
  | Dispatch.axis code value => u.axis_state code = value

/-- A logical control: a logical button or a logical axis. -/
inductive Control
  | button (code : XboxButton)
  | axis (code : XboxAxis)
  deriving DecidableEq, Repr

/-- The logical control a dispatched call addresses. -/
def Dispatch.slot : Dispatch → Control
  | Dispatch.button code _ => Control.button code
  | Dispatch.axis code _ => Control.axis code

/-- Calls of the list that address the same control carry the same value. -/
def Consistent (ds : List Dispatch) : Prop :=
  ∀ d ∈ ds, ∀ d1 ∈ ds, Dispatch.slot d = Dispatch.slot d1 → d = d1

/-- The engine `u1` differs from `u` in its timers at most. -/
def SameControls (u u1 : uInput) : Prop :=
  u1.cfg = u.cfg ∧ u1.axis_state = u.axis_state ∧ u1.button_state = u.button_state
    ∧ u1.mouse_uinput_dev = u.mouse_uinput_dev
    ∧ u1.keyboard_uinput_dev = u.keyboard_uinput_dev

/-- The logical control a registration call addresses. -/
def Registration.slot : Registration → Control
  | Registration.button code => Control.button code
  | Registration.axis code _ _ => Control.axis code

/-- The call carries the neutral value: `false` for a button, `0` for an
axis. -/
def Dispatch.is_neutral : Dispatch → Bool
  | Dispatch.button _ value => !value
  | Dispatch.axis _ value => decide (value = 0)

/-- The logical dpad controls: the four dpad buttons and the two dpad axes. -/
def dpad_controls : List Control :=
  [ Control.button XBOX_DPAD_UP, Control.button XBOX_DPAD_DOWN,
    Control.button XBOX_DPAD_LEFT, Control.button XBOX_DPAD_RIGHT,
    Control.axis XBOX_AXIS_DPAD_X, Control.axis XBOX_AXIS_DPAD_Y ]

end uInput

/-! ## Concrete configurations, engines and messages -/

/-- The configuration built by `uInputCfg::uInputCfg`. -/
def uInputCfg.default : uInputCfg := uInputCfg.new.get (by decide)

/-- A freshly constructed engine for an Xbox360 gamepad with the default
configuration. -/
def uInput.fresh : uInput := (uInput.new GAMEPAD_XBOX360 uInputCfg.default).1

/-- The default configuration with the axis `X1` mapped to the two keys 105
and 106 (`KEY_LEFT`, `KEY_RIGHT`) at the default threshold 8000 of
`AxisEvent::create`. -/
def uInputCfg.x1_as_keys : uInputCfg :=
  { uInputCfg.default with
    axis_map := Function.update uInputCfg.default.axis_map XBOX_AXIS_X1
      { type := EV_KEY, code := 105, rel_repeat := 0, rel_value := 0,
        key_secondary_code := 106, key_threshold := 8000 } }

/-- The default configuration with `dpad_only` set. -/
def uInputCfg.dpad_only_cfg : uInputCfg := { uInputCfg.default with dpad_only := true }

/-- A freshly constructed engine in `dpad_only` mode. -/
def uInput.fresh_dpad_only : uInput := (uInput.new GAMEPAD_XBOX360 uInputCfg.dpad_only_cfg).1

/-- The neutral `Xbox360Msg`: nothing pressed, every reading `0`. -/
def Xbox360Msg.neutral : Xbox360Msg :=
  { thumb_l := false, thumb_r := false, lb := false, rb := false, start := false,
    guide := false, back := false, a := false, b := false, x := false, y := false,
    x1 := 0, y1 := 0, x2 := 0, y2 := 0, lt := 0, rt := 0,
    dpad_up := false, dpad_down := false, dpad_left := false, dpad_right := false }

/-- The neutral `XboxMsg`: nothing pressed, every reading `0`. -/
def XboxMsg.neutral : XboxMsg :=
  { thumb_l := false, thumb_r := false, white := false, black := false, start := false,
    back := false, a := false, b := false, x := false, y := false,
    x1 := 0, y1 := 0, x2 := 0, y2 := 0, lt := 0, rt := 0,
    dpad_up := false, dpad_down := false, dpad_left := false, dpad_right := false }

/-- The neutral `Xbox360GuitarMsg`: nothing pressed, every reading `0`. -/
def Xbox360GuitarMsg.neutral : Xbox360GuitarMsg :=
  { dpad_up := false, dpad_down := false, dpad_left := false, dpad_right := false,
    start := false, guide := false, back := false, green := false, red := false,
    yellow := false, blue := false, orange := false, whammy := 0, tilt := 0 }

/-- An Xbox360 message with the left stick deflected to `x1 = 1000` and
nothing else active. -/
def XboxGenericMsg.stick_right : XboxGenericMsg :=
  { type := GAMEPAD_XBOX360,
    xbox := XboxMsg.neutral,
    xbox360 := { Xbox360Msg.neutral with x1 := 1000 },
    guitar := Xbox360GuitarMsg.neutral }

/-- The default configuration with the axis `X1` mapped to the relative motion
`REL_X` with the defaults of `AxisEvent::create`: step 5, repeat interval 10. -/
def uInputCfg.x1_as_mouse : uInputCfg :=
  { uInputCfg.default with
    axis_map := Function.update uInputCfg.default.axis_map XBOX_AXIS_X1
      { type := EV_REL, code := REL_X, rel_repeat := 10, rel_value := 5,
        key_secondary_code := 0, key_threshold := 0 } }

/-- An engine whose axis `X1` is mapped to `REL_X`, after `add_axis` has
allocated the timer of `X1` and `send_axis` has stored the stick value 16000. -/
def uInput.x1_mouse_held : uInput :=
  (uInput.send_axis
    (uInput.add_axis (uInput.new GAMEPAD_XBOX360 uInputCfg.x1_as_mouse).1
      XBOX_AXIS_X1 (-32768) 32767).1
    XBOX_AXIS_X1 16000).1

/-- The default configuration with the axis `X1` mapped to the relative motion
`REL_X` with step 5 and the repeat interval 1073741824 (the descriptor of the
string `REL_X:5:1073741824`). -/
def uInputCfg.x1_as_slow_mouse : uInputCfg :=
  { uInputCfg.default with
    axis_map := Function.update uInputCfg.default.axis_map XBOX_AXIS_X1
      { type := EV_REL, code := REL_X, rel_repeat := 1073741824, rel_value := 5,
        key_secondary_code := 0, key_threshold := 0 } }

/-- An engine whose axis `X1` is mapped to `REL_X` with the repeat interval
1073741824, after `add_axis` has allocated the timer of `X1` and `send_axis`
has stored the stick value 16000. -/
def uInput.x1_slow_mouse_held : uInput :=
  (uInput.send_axis
    (uInput.add_axis (uInput.new GAMEPAD_XBOX360 uInputCfg.x1_as_slow_mouse).1
      XBOX_AXIS_X1 (-32768) 32767).1
    XBOX_AXIS_X1 16000).1

/-- A freshly constructed engine whose axis `X1` is mapped to two keys. -/
def uInput.fresh_x1_as_keys : uInput := (uInput.new GAMEPAD_XBOX360 uInputCfg.x1_as_keys).1

/-- The default configuration with both `trigger_as_button` and
`trigger_as_zaxis` set. -/
def uInputCfg.both_trigger_modes : uInputCfg :=
  { uInputCfg.default with trigger_as_button := true, trigger_as_zaxis := true }

/-- An Xbox360 message with the right trigger fully pulled and nothing else
active. -/
def Xbox360Msg.rt_pulled : Xbox360Msg := { Xbox360Msg.neutral with rt := 255 }

/-- A classic Xbox message with the right trigger fully pulled and nothing
else active. -/
def XboxMsg.rt_pulled : XboxMsg := { XboxMsg.neutral with rt := 255 }

/-- An engine with the configuration `both_trigger_modes`, in the state
`setup_xbox360_gamepad` leaves it in. -/
def uInput.both_trigger_modes : uInput :=
  (uInput.setup_xbox360_gamepad
    (uInput.new GAMEPAD_XBOX360 uInputCfg.both_trigger_modes).1 GAMEPAD_XBOX360).1

/-- The default configuration with the button `A` mapped to the relative
motion `REL_Y` with the defaults of `ButtonEvent::create`: step 3, repeat
interval 100. -/
def uInputCfg.a_as_mouse : uInputCfg :=
  { uInputCfg.default with
    btn_map := Function.update uInputCfg.default.btn_map XBOX_BTN_A
      { type := EV_REL, code := REL_Y, rel_repeat := 100, rel_value := 3 } }

/-- A freshly constructed engine whose button `A` is mapped to `REL_Y`. -/
def uInput.fresh_a_as_mouse : uInput := (uInput.new GAMEPAD_XBOX360 uInputCfg.a_as_mouse).1

/-- A freshly constructed engine whose axis `X1` is mapped to `REL_X`. -/
def uInput.fresh_x1_as_mouse : uInput := (uInput.new GAMEPAD_XBOX360 uInputCfg.x1_as_mouse).1

/-- A guitar message with the dpad pressed upwards and nothing else active. -/
def XboxGenericMsg.guitar_dpad_up : XboxGenericMsg :=
  { type := GAMEPAD_XBOX360_GUITAR,
    xbox := XboxMsg.neutral,
    xbox360 := Xbox360Msg.neutral,
    guitar := { Xbox360GuitarMsg.neutral with dpad_up := true } }

/-- A classic Xbox message with the dpad pressed upwards and nothing else
active. -/
def XboxGenericMsg.xbox_dpad_up : XboxGenericMsg :=
  { type := GAMEPAD_XBOX,
    xbox := { XboxMsg.neutral with dpad_up := true },
    xbox360 := Xbox360Msg.neutral,
    guitar := Xbox360GuitarMsg.neutral }

/-- An Xbox360 message with the dpad pressed upwards and nothing else
active. -/
def XboxGenericMsg.xbox360_dpad_up : XboxGenericMsg :=
  { type := GAMEPAD_XBOX360,
    xbox := XboxMsg.neutral,
    xbox360 := { Xbox360Msg.neutral with dpad_up := true },
    guitar := Xbox360GuitarMsg.neutral }

/-- An Xbox360 message with the left stick at the reading `y1 = -32768`, the
least value of a 16-bit reading, and nothing else active. -/
def Xbox360Msg.y1_min : Xbox360Msg := { Xbox360Msg.neutral with y1 := -32768 }

/-- The range that `setup_xbox360_gamepad` passes to `add_axis` for each
logical axis it registers. -/
def uInput.registered_range : XboxAxis → Int × Int
  | XBOX_AXIS_X1 => (-32768, 32767)
  | XBOX_AXIS_Y1 => (-32768, 32767)
  | XBOX_AXIS_X2 => (-32768, 32767)
  | XBOX_AXIS_Y2 => (-32768, 32767)
  | XBOX_AXIS_LT => (0, 255)
  | XBOX_AXIS_RT => (0, 255)
  | XBOX_AXIS_TRIGGER => (-255, 255)
  | XBOX_AXIS_DPAD_X => (-1, 1)
  | XBOX_AXIS_DPAD_Y => (-1, 1)

/-- The value of a dispatched call lies within the registered range of its
axis; a call of `send_button` carries no axis value. -/
def uInput.Dispatch.in_range : uInput.Dispatch → Prop
  | uInput.Dispatch.button _ _ => True
  | uInput.Dispatch.axis code value =>
    (uInput.registered_range code).1 ≤ value ∧ value ≤ (uInput.registered_range code).2

namespace uInput

/-! ## Basic facts about the primitives -/

theorem send_button_same (u : uInput) (code : XboxButton) (value : Bool)
    (h : u.button_state code = value) : send_button u code value = (u, []) := by
  simp [send_button, h]

theorem send_axis_same (u : uInput) (code : XboxAxis) (value : Int)
    (h : u.axis_state code = value) : send_axis u code value = (u, []) := by
  simp [send_axis, h]

theorem send_button_fst (u : uInput) (code : XboxButton) (value : Bool) :
    (send_button u code value).1 =
      { u with button_state := Function.update u.button_state code value } := by
  unfold send_button
  split
  · rfl
  · rename_i h
    have h2 : u.button_state code = value := by simpa using h
    simp [← h2]

theorem send_axis_fst (u : uInput) (code : XboxAxis) (value : Int) :
    (send_axis u code value).1 =
      { u with axis_state := Function.update u.axis_state code value } := by
  unfold send_axis
  by_cases h : u.axis_state code = value
  · subst h
    simp
  · simp only [h, ne_eq, not_false_eq_true, if_true]
    repeat' split
    all_goals rfl

theorem send_key_dev (u : uInput) (ev_code : Int) (value : Bool) :
    (send_key u ev_code value).dev =
      (if ev_code < 256 then get_keyboard_uinput u
       else if 0x110 ≤ ev_code ∧ ev_code ≤ 0x117 then get_mouse_uinput u
       else get_joystick_uinput u) := by
  unfold send_key is_keyboard_button is_mouse_button
  by_cases h1 : ev_code < 256
  · simp [h1]
  · by_cases h2 : (0x110 : Int) ≤ ev_code ∧ ev_code ≤ 0x117
    · simp [h1, h2, BTN_MOUSE, BTN_TASK]
    · simp only [h1, h2, decide_False, Bool.false_eq_true, if_false]
      have h3 : (decide (ev_code ≥ BTN_MOUSE) && decide (ev_code ≤ BTN_TASK)) = false := by
        simp only [BTN_MOUSE, BTN_TASK, ge_iff_le, Bool.and_eq_false_imp, decide_eq_true_eq,
          decide_eq_false_iff_not]
        intro h; exact fun h4 => h2 ⟨h, h4⟩
      simp [h3]

theorem add_key_dev (u : uInput) (ev_code : Int) :
    (add_key u ev_code).dev =
      (if ev_code < 256 then get_keyboard_uinput u
       else if 0x110 ≤ ev_code ∧ ev_code ≤ 0x117 then get_mouse_uinput u
       else get_joystick_uinput u) := by
  unfold add_key is_keyboard_button is_mouse_button
  by_cases h1 : ev_code < 256
  · simp [h1]
  · by_cases h2 : (0x110 : Int) ≤ ev_code ∧ ev_code ≤ 0x117
    · simp [h1, h2, BTN_MOUSE, BTN_TASK]
    · simp only [h1, h2, decide_False, Bool.false_eq_true, if_false]
      have h3 : (decide (ev_code ≥ BTN_MOUSE) && decide (ev_code ≤ BTN_TASK)) = false := by
        simp only [BTN_MOUSE, BTN_TASK, ge_iff_le, Bool.and_eq_false_imp, decide_eq_true_eq,
          decide_eq_false_iff_not]
        intro h; exact fun h4 => h2 ⟨h, h4⟩
      simp [h3]

theorem send_key_call (u : uInput) (ev_code : Int) (value : Bool) :
    (send_key u ev_code value).call = UinputCall.send EV_KEY ev_code (b2i value) := by
  unfold send_key
  repeat' split
  all_goals rfl

theorem send_key_congr (u u1 : uInput) (ev_code : Int) (value : Bool)
    (hm : u1.mouse_uinput_dev = u.mouse_uinput_dev)
    (hk : u1.keyboard_uinput_dev = u.keyboard_uinput_dev) :
    send_key u1 ev_code value = send_key u ev_code value := by
  simp [send_key, get_keyboard_uinput, get_mouse_uinput, get_joystick_uinput, hm, hk]

theorem send_axis_key_snd (u : uInput) (code : XboxAxis) (value : Int)
    (h : (u.cfg.axis_map code).type = EV_KEY) :
    (send_axis u code value).2 =
      if u.axis_state code = value then []
      else if c_abs (u.axis_state code) < (u.cfg.axis_map code).key_threshold
              ∧ c_abs value ≥ (u.cfg.axis_map code).key_threshold then
        if value < 0 then
          [send_key u (u.cfg.axis_map code).key_secondary_code false,
           send_key u (u.cfg.axis_map code).code true]
        else
          [send_key u (u.cfg.axis_map code).code false,
           send_key u (u.cfg.axis_map code).key_secondary_code true]
      else if c_abs (u.axis_state code) ≥ (u.cfg.axis_map code).key_threshold
              ∧ c_abs value < (u.cfg.axis_map code).key_threshold then
        [send_key u (u.cfg.axis_map code).code false,
         send_key u (u.cfg.axis_map code).key_secondary_code false]
      else [] := by
  unfold send_axis
  by_cases h0 : u.axis_state code = value
  · simp [h0]
  · simp only [h0, ne_eq, not_false_eq_true, if_true, if_false, h]
    have e1 : ¬ (EV_KEY = EV_ABS) := by decide
    have e2 : ¬ (EV_KEY = EV_REL) := by decide
    simp only [e1, e2, if_false, if_true]
    repeat' split
    all_goals rfl

theorem follows_refl (u : uInput) : Follows u u := ⟨rfl, rfl, rfl⟩

theorem follows_send_axis (u u1 : uInput) (code : XboxAxis) (value : Int)
    (hf : Follows u u1) : Follows u (send_axis u1 code value).1 := by
  rw [send_axis_fst]
  exact hf

theorem send_axis_state_same (u : uInput) (code : XboxAxis) (value : Int) :
    (send_axis u code value).1.axis_state code = value := by
  rw [send_axis_fst]
  simp

/-- On every 32-bit value `c_abs` is the absolute value wrapped to 32 bits. -/
theorem c_abs_eq_int32 (x : Int) (h1 : -2147483648 ≤ x) (h2 : x ≤ 2147483647) :
    c_abs x = int32 (if x < 0 then -x else x) := by
  unfold c_abs int32
  split_ifs <;> omega

theorem c_abs_lt_iff (x T : Int) (hx : x ≠ -2147483648) :
    c_abs x < T ↔ -T < x ∧ x < T := by
  unfold c_abs
  split_ifs <;> omega

theorem c_abs_ge_iff (x T : Int) (hx : x ≠ -2147483648) :
    c_abs x ≥ T ↔ x ≤ -T ∨ T ≤ x := by
  unfold c_abs
  split_ifs <;> omega

/-- Below the threshold in absolute value is below it for `c_abs`, also at
`INT_MIN`. -/
theorem c_abs_lt_of (x T : Int) (h : -T < x ∧ x < T) : c_abs x < T := by
  unfold c_abs
  split_ifs <;> omega

/-- At or above the threshold is at or above it for `c_abs`, also at
`INT_MIN`. -/
theorem c_abs_ge_of_le (x T : Int) (h : T ≤ x) : c_abs x ≥ T := by
  unfold c_abs
  split_ifs <;> omega

/-- The device calls of `send_axis` on a threshold descriptor, in an engine
`u1` that has the configuration and the devices of `u`. -/
theorem thr_step (u u1 : uInput) (code : XboxAxis) (value : Int) (hf : Follows u u1)
    (h : (u.cfg.axis_map code).type = EV_KEY) :
    (send_axis u1 code value).2 =
      if u1.axis_state code = value then []
      else if c_abs (u1.axis_state code) < (u.cfg.axis_map code).key_threshold
              ∧ c_abs value ≥ (u.cfg.axis_map code).key_threshold then
        if value < 0 then
          [send_key u (u.cfg.axis_map code).key_secondary_code false,
           send_key u (u.cfg.axis_map code).code true]
        else
          [send_key u (u.cfg.axis_map code).code false,
           send_key u (u.cfg.axis_map code).key_secondary_code true]
      else if c_abs (u1.axis_state code) ≥ (u.cfg.axis_map code).key_threshold
              ∧ c_abs value < (u.cfg.axis_map code).key_threshold then
        [send_key u (u.cfg.axis_map code).code false,
         send_key u (u.cfg.axis_map code).key_secondary_code false]
      else [] := by
  obtain ⟨hc, hm, hk⟩ := hf
  rw [send_axis_key_snd u1 code value (by rw [hc]; exact h), hc]
  simp only [send_key_congr u u1 _ _ hm hk]

theorem thr_none_same (u1 : uInput) (code : XboxAxis) (value : Int)
    (hv : u1.axis_state code = value) : (send_axis u1 code value).2 = [] := by
  rw [send_axis_same u1 code value hv]

theorem thr_none_below (u u1 : uInput) (code : XboxAxis) (value old T : Int)
    (hf : Follows u u1) (h : (u.cfg.axis_map code).type = EV_KEY)
    (hT : (u.cfg.axis_map code).key_threshold = T) (ho : u1.axis_state code = old)
    (h1 : -T < old ∧ old < T) (h2 : -T < value ∧ value < T) :
    (send_axis u1 code value).2 = [] := by
  rw [thr_step u u1 code value hf h, hT, ho]
  have a1 : ¬ (c_abs value ≥ T) := by have := c_abs_lt_of value T h2; omega
  have a2 : ¬ (c_abs old ≥ T) := by have := c_abs_lt_of old T h1; omega
  simp [a1, a2]

theorem thr_none_above (u u1 : uInput) (code : XboxAxis) (value old T : Int)
    (hf : Follows u u1) (h : (u.cfg.axis_map code).type = EV_KEY)
    (hT : (u.cfg.axis_map code).key_threshold = T) (ho : u1.axis_state code = old)
    (h1 : old ≤ -T ∨ T ≤ old) (h2 : value ≤ -T ∨ T ≤ value)
    (hmo : old ≠ -2147483648) (hmv : value ≠ -2147483648) :
    (send_axis u1 code value).2 = [] := by
  rw [thr_step u u1 code value hf h, hT, ho]
  have a1 : ¬ (c_abs value < T) := by rw [c_abs_lt_iff value T hmv]; omega
  have a2 : ¬ (c_abs old < T) := by rw [c_abs_lt_iff old T hmo]; omega
  simp [a1, a2]

theorem thr_none_ge (u u1 : uInput) (code : XboxAxis) (value old T : Int)
    (hf : Follows u u1) (h : (u.cfg.axis_map code).type = EV_KEY)
    (hT : (u.cfg.axis_map code).key_threshold = T) (ho : u1.axis_state code = old)
    (h1 : c_abs old ≥ T) (h2 : c_abs value ≥ T) :
    (send_axis u1 code value).2 = [] := by
  rw [thr_step u u1 code value hf h, hT, ho]
  have a1 : ¬ (c_abs value < T) := by omega
  have a2 : ¬ (c_abs old < T) := by omega
  simp [a1, a2]

theorem thr_enter_neg (u u1 : uInput) (code : XboxAxis) (value old T : Int)
    (hf : Follows u u1) (h : (u.cfg.axis_map code).type = EV_KEY)
    (hT : (u.cfg.axis_map code).key_threshold = T) (ho : u1.axis_state code = old)
    (h1 : -T < old ∧ old < T) (h2 : value ≤ -T) (hmv : value ≠ -2147483648) :
    (send_axis u1 code value).2 =
      [send_key u (u.cfg.axis_map code).key_secondary_code false,
       send_key u (u.cfg.axis_map code).code true] := by
  rw [thr_step u u1 code value hf h, hT, ho]
  have a0 : ¬ (old = value) := by omega
  have a1 : c_abs old < T ∧ c_abs value ≥ T :=
    ⟨c_abs_lt_of old T h1, by rw [c_abs_ge_iff value T hmv]; omega⟩
  have a2 : value < 0 := by omega
  simp only [a0, a1, a2, and_self, if_true, if_false]

theorem thr_enter_pos (u u1 : uInput) (code : XboxAxis) (value old T : Int)
    (hf : Follows u u1) (h : (u.cfg.axis_map code).type = EV_KEY)
    (hT : (u.cfg.axis_map code).key_threshold = T) (ho : u1.axis_state code = old)
    (h1 : -T < old ∧ old < T) (h2 : T ≤ value) :
    (send_axis u1 code value).2 =
      [send_key u (u.cfg.axis_map code).code false,
       send_key u (u.cfg.axis_map code).key_secondary_code true] := by
  rw [thr_step u u1 code value hf h, hT, ho]
  have a0 : ¬ (old = value) := by omega
  have a1 : c_abs old < T ∧ c_abs value ≥ T :=
    ⟨c_abs_lt_of old T h1, by rw [c_abs_ge_iff value T (by omega)]; omega⟩
  have a2 : ¬ (value < 0) := by omega
  simp only [a0, a1, a2, and_self, if_true, if_false]

theorem thr_exit (u u1 : uInput) (code : XboxAxis) (value old T : Int)
    (hf : Follows u u1) (h : (u.cfg.axis_map code).type = EV_KEY)
    (hT : (u.cfg.axis_map code).key_threshold = T) (ho : u1.axis_state code = old)
    (h1 : old ≤ -T ∨ T ≤ old) (h2 : -T < value ∧ value < T)
    (hmo : old ≠ -2147483648) :
    (send_axis u1 code value).2 =
      [send_key u (u.cfg.axis_map code).code false,
       send_key u (u.cfg.axis_map code).key_secondary_code false] := by
  rw [thr_step u u1 code value hf h, hT, ho]
  have a0 : ¬ (old = value) := by omega
  have a1 : ¬ (c_abs old < T) := by rw [c_abs_lt_iff old T hmo]; omega
  have a2 : c_abs old ≥ T ∧ c_abs value < T :=
    ⟨by rw [c_abs_ge_iff old T hmo]; omega, c_abs_lt_of value T h2⟩
  simp only [a0, a1, a2, and_self, false_and, if_true, if_false]

/-! ## Edge triggering of the primitives -/

/-- C2: `send_button` with the stored button value and `send_axis` with the
stored axis value make no device call and return the engine state unchanged;
hence a `send_axis` (or `send_button`) repeated with the same value makes no
device call and changes nothing the second time. -/
theorem edge_trigger_primitives (u : uInput) (b : XboxButton) (a : XboxAxis)
    (v : Bool) (x : Int) :
    send_button u b (u.button_state b) = (u, [])
    ∧ send_axis u a (u.axis_state a) = (u, [])
    ∧ send_axis (send_axis u a x).1 a x = ((send_axis u a x).1, [])
    ∧ send_button (send_button u b v).1 b v = ((send_button u b v).1, []) := by
  refine ⟨send_button_same u b _ rfl, send_axis_same u a _ rfl, ?_, ?_⟩
  · apply send_axis_same
    rw [send_axis_fst]
    simp
  · apply send_button_same
    rw [send_button_fst]
    simp

/-! ## The threshold state machine -/

/-- C3: on an axis mapped to a threshold descriptor with threshold `T >= 1`
(any primary and secondary code), starting from the stored value `0`, the
values `0, T-1, T, T+5, T-1, -T-5, 0` fed to `send_axis` give, call by call:
nothing; nothing; primary released then secondary pressed; nothing; both
released; secondary released then primary pressed; both released.  The
sequence must not contain `INT_MIN`, which is the case for every threshold but
`2147483643`, in particular for `1 <= T <= 32767`. -/
theorem threshold_sequence (u : uInput) (id : XboxAxis) (T : Int)
    (htype : (u.cfg.axis_map id).type = EV_KEY)
    (hthr : (u.cfg.axis_map id).key_threshold = T)
    (hT : 1 ≤ T)
    (hmin : T ≠ 2147483643)
    (h0 : u.axis_state id = 0) :
    (send_axis_seq u id [0, T - 1, T, T + 5, T - 1, -T - 5, 0]).2 =
      [ [],
        [],
        [send_key u (u.cfg.axis_map id).code false,
         send_key u (u.cfg.axis_map id).key_secondary_code true],
        [],
        [send_key u (u.cfg.axis_map id).code false,
         send_key u (u.cfg.axis_map id).key_secondary_code false],
        [send_key u (u.cfg.axis_map id).key_secondary_code false,
         send_key u (u.cfg.axis_map id).code true],
        [send_key u (u.cfg.axis_map id).code false,
         send_key u (u.cfg.axis_map id).key_secondary_code false] ] := by
  have f0 := follows_refl u
  have e1 := thr_none_same u id 0 h0
  have f1 := follows_send_axis u u id 0 f0
  have a1 := send_axis_state_same u id 0
  have e2 := thr_none_below u _ id (T - 1) 0 T f1 htype hthr a1 (by omega) (by omega)
  have f2 := follows_send_axis u _ id (T - 1) f1
  have a2 := send_axis_state_same (send_axis u id 0).1 id (T - 1)
  have e3 := thr_enter_pos u _ id T (T - 1) T f2 htype hthr a2 (by omega) (by omega)
  have f3 := follows_send_axis u _ id T f2
  have a3 := send_axis_state_same (send_axis (send_axis u id 0).1 id (T - 1)).1 id T
  have e4 := thr_none_above u _ id (T + 5) T T f3 htype hthr a3 (by omega) (by omega)
    (by omega) (by omega)
  have f4 := follows_send_axis u _ id (T + 5) f3
  have a4 := send_axis_state_same
    (send_axis (send_axis (send_axis u id 0).1 id (T - 1)).1 id T).1 id (T + 5)
  have e5 := thr_exit u _ id (T - 1) (T + 5) T f4 htype hthr a4 (by omega) (by omega)
    (by omega)
  have f5 := follows_send_axis u _ id (T - 1) f4
  have a5 := send_axis_state_same
    (send_axis (send_axis (send_axis (send_axis u id 0).1 id (T - 1)).1 id T).1 id (T + 5)).1
    id (T - 1)
  have e6 := thr_enter_neg u _ id (-T - 5) (T - 1) T f5 htype hthr a5 (by omega) (by omega)
    (by omega)
  have f6 := follows_send_axis u _ id (-T - 5) f5
  have a6 := send_axis_state_same
    (send_axis (send_axis (send_axis (send_axis (send_axis u id 0).1 id (T - 1)).1 id T).1
      id (T + 5)).1 id (T - 1)).1 id (-T - 5)
  have e7 := thr_exit u _ id 0 (-T - 5) T f6 htype hthr a6 (by omega) (by omega)
    (by omega)
  simp only [send_axis_seq, e1, e2, e3, e4, e5, e6, e7]

/-- Witness of C3: the axis `X1` mapped to two keys with
threshold 8000 on a fresh engine. -/
theorem threshold_sequence_witness :
    (send_axis_seq fresh_x1_as_keys XBOX_AXIS_X1
        [0, 8000 - 1, 8000, 8000 + 5, 8000 - 1, -8000 - 5, 0]).2 =
      [ [],
        [],
        [send_key fresh_x1_as_keys (fresh_x1_as_keys.cfg.axis_map XBOX_AXIS_X1).code false,
         send_key fresh_x1_as_keys
           (fresh_x1_as_keys.cfg.axis_map XBOX_AXIS_X1).key_secondary_code true],
        [],
        [send_key fresh_x1_as_keys (fresh_x1_as_keys.cfg.axis_map XBOX_AXIS_X1).code false,
         send_key fresh_x1_as_keys
           (fresh_x1_as_keys.cfg.axis_map XBOX_AXIS_X1).key_secondary_code false],
        [send_key fresh_x1_as_keys
           (fresh_x1_as_keys.cfg.axis_map XBOX_AXIS_X1).key_secondary_code false,
         send_key fresh_x1_as_keys (fresh_x1_as_keys.cfg.axis_map XBOX_AXIS_X1).code true],
        [send_key fresh_x1_as_keys (fresh_x1_as_keys.cfg.axis_map XBOX_AXIS_X1).code false,
         send_key fresh_x1_as_keys
           (fresh_x1_as_keys.cfg.axis_map XBOX_AXIS_X1).key_secondary_code false] ] :=
  threshold_sequence fresh_x1_as_keys XBOX_AXIS_X1 8000 (by decide) (by decide) (by decide)
    (by decide) (by decide)

/-- C4, as stated, fails: with `X1` mapped to the keys 105 and 106 at the
threshold 8000 and the value 0 stored, the new value `INT_MIN = -2147483648` is
`<= -8000`, but `abs` returns it unchanged, the test `abs(value) >= threshold`
fails and `send_axis` makes no device call. -/
theorem threshold_entry_counterexample :
    (fresh_x1_as_keys.cfg.axis_map XBOX_AXIS_X1).type = EV_KEY
    ∧ (fresh_x1_as_keys.cfg.axis_map XBOX_AXIS_X1).key_threshold = 8000
    ∧ |fresh_x1_as_keys.axis_state XBOX_AXIS_X1| < 8000
    ∧ (-2147483648 : Int) ≤ -8000
    ∧ (send_axis fresh_x1_as_keys XBOX_AXIS_X1 (-2147483648)).2 = []
    ∧ (send_axis fresh_x1_as_keys XBOX_AXIS_X1 (-2147483648)).2 ≠
        [send_key fresh_x1_as_keys
           (fresh_x1_as_keys.cfg.axis_map XBOX_AXIS_X1).key_secondary_code false,
         send_key fresh_x1_as_keys (fresh_x1_as_keys.cfg.axis_map XBOX_AXIS_X1).code true] := by
  decide

/-- C4, amended: on a threshold descriptor with threshold `T`, from a stored
value with `|old| < T`, a new value `<= -T` other than `INT_MIN` makes exactly
the two device calls secondary released, primary pressed, and a new value
`>= T` exactly primary released, secondary pressed; each call is the one
`send_key` makes for its code. -/
theorem threshold_entry (u : uInput) (id : XboxAxis) (new T : Int)
    (htype : (u.cfg.axis_map id).type = EV_KEY)
    (hthr : (u.cfg.axis_map id).key_threshold = T)
    (hold : |u.axis_state id| < T) :
    (new ≤ -T → new ≠ -2147483648 → (send_axis u id new).2 =
        [send_key u (u.cfg.axis_map id).key_secondary_code false,
         send_key u (u.cfg.axis_map id).code true])
    ∧ (new ≥ T → (send_axis u id new).2 =
        [send_key u (u.cfg.axis_map id).code false,
         send_key u (u.cfg.axis_map id).key_secondary_code true]) := by
  have hb := abs_lt.mp hold
  constructor
  · intro hn hm
    exact thr_enter_neg u u id new _ T (follows_refl u) htype hthr rfl hb hn hm
  · intro hn
    exact thr_enter_pos u u id new _ T (follows_refl u) htype hthr rfl hb hn

/-- Witness of C4 as amended: on a fresh engine with `X1` mapped to the
keys 105 and 106 at threshold 8000, the value -8000 releases 106 and presses
105, and the value 8000 releases 105 and presses 106, on the keyboard route
(here the joystick device, no keyboard device being provisioned). -/
theorem threshold_entry_witness :
    (send_axis fresh_x1_as_keys XBOX_AXIS_X1 (-8000)).2 =
        [⟨LinuxUinput.joystick, UinputCall.send EV_KEY 106 0⟩,
         ⟨LinuxUinput.joystick, UinputCall.send EV_KEY 105 1⟩]
    ∧ (send_axis fresh_x1_as_keys XBOX_AXIS_X1 8000).2 =
        [⟨LinuxUinput.joystick, UinputCall.send EV_KEY 105 0⟩,
         ⟨LinuxUinput.joystick, UinputCall.send EV_KEY 106 1⟩] :=
  have h := threshold_entry fresh_x1_as_keys XBOX_AXIS_X1
  ⟨((h (-8000) 8000 (by decide) (by decide) (by decide)).1 (by decide)
      (by decide)).trans (by decide),
   ((h 8000 8000 (by decide) (by decide) (by decide)).2 (by decide)).trans (by decide)⟩

/-- C5, as stated, fails: with `X1` mapped to the keys 105 and 106 at the
threshold 8000 and the value `INT_MIN = -2147483648` stored by an earlier
`send_axis`, `|old| >= 8000`, but `abs` returns `INT_MIN` unchanged, the test
`abs(old_value) >= threshold` fails and the new value 0 makes no device call:
neither key is released. -/
theorem threshold_exit_counterexample :
    ((send_axis fresh_x1_as_keys XBOX_AXIS_X1 (-2147483648)).1.cfg.axis_map
        XBOX_AXIS_X1).type = EV_KEY
    ∧ ((send_axis fresh_x1_as_keys XBOX_AXIS_X1 (-2147483648)).1.cfg.axis_map
        XBOX_AXIS_X1).key_threshold = 8000
    ∧ (send_axis fresh_x1_as_keys XBOX_AXIS_X1 (-2147483648)).1.axis_state XBOX_AXIS_X1
        = -2147483648
    ∧ |(send_axis fresh_x1_as_keys XBOX_AXIS_X1 (-2147483648)).1.axis_state XBOX_AXIS_X1|
        ≥ 8000
    ∧ |(0 : Int)| < 8000
    ∧ (send_axis (send_axis fresh_x1_as_keys XBOX_AXIS_X1 (-2147483648)).1
        XBOX_AXIS_X1 0).2 = []
    ∧ (send_axis (send_axis fresh_x1_as_keys XBOX_AXIS_X1 (-2147483648)).1
        XBOX_AXIS_X1 0).2 ≠
        [send_key fresh_x1_as_keys (fresh_x1_as_keys.cfg.axis_map XBOX_AXIS_X1).code false,
         send_key fresh_x1_as_keys
           (fresh_x1_as_keys.cfg.axis_map XBOX_AXIS_X1).key_secondary_code false] := by
  decide

/-- C5, amended: on a threshold descriptor with threshold `T`, from a stored
value other than `INT_MIN` with `|old| >= T` (either zone), a new value with
`|new| < T` makes exactly the two device calls primary released, secondary
released. -/
theorem threshold_exit (u : uInput) (id : XboxAxis) (new T : Int)
    (htype : (u.cfg.axis_map id).type = EV_KEY)
    (hthr : (u.cfg.axis_map id).key_threshold = T)
    (hold : |u.axis_state id| ≥ T)
    (hmin : u.axis_state id ≠ -2147483648)
    (hnew : |new| < T) :
    (send_axis u id new).2 =
      [send_key u (u.cfg.axis_map id).code false,
       send_key u (u.cfg.axis_map id).key_secondary_code false] := by
  have hb := abs_lt.mp hnew
  have ha : u.axis_state id ≤ -T ∨ T ≤ u.axis_state id := by
    rcases le_abs'.mp hold with h | h
    · exact Or.inl h
    · exact Or.inr h
  exact thr_exit u u id new _ T (follows_refl u) htype hthr rfl ha hb hmin

/-- Witness of C5 as amended: after the value -9000 was stored for `X1`
(threshold 8000), the value 10 releases both keys. -/
theorem threshold_exit_witness :
    (send_axis (send_axis fresh_x1_as_keys XBOX_AXIS_X1 (-9000)).1 XBOX_AXIS_X1 10).2 =
      [⟨LinuxUinput.joystick, UinputCall.send EV_KEY 105 0⟩,
       ⟨LinuxUinput.joystick, UinputCall.send EV_KEY 106 0⟩] :=
  (threshold_exit (send_axis fresh_x1_as_keys XBOX_AXIS_X1 (-9000)).1 XBOX_AXIS_X1 10 8000
    (by decide) (by decide) (by decide) (by decide) (by decide)).trans (by decide)

/-! ## Device selection -/

/-- C8: a key event for a code in the mouse button range goes to the joystick
device when no mouse device exists and to the mouse device when it exists; a
key event for a code in the keyboard range goes to the joystick device when no
keyboard device exists and to the keyboard device when it exists; the same
holds for the event `send_button` emits for a button whose descriptor carries
such a code. -/
theorem fallback_routing (u : uInput) (code : Int) (value : Bool) (id : XboxButton) :
    (is_mouse_button code = true → u.mouse_uinput_dev = false →
      send_key u code value = ⟨LinuxUinput.joystick, UinputCall.send EV_KEY code (b2i value)⟩)
    ∧ (is_mouse_button code = true → u.mouse_uinput_dev = true →
      send_key u code value = ⟨LinuxUinput.mouse, UinputCall.send EV_KEY code (b2i value)⟩)
    ∧ (is_keyboard_button code = true → u.keyboard_uinput_dev = false →
      send_key u code value = ⟨LinuxUinput.joystick, UinputCall.send EV_KEY code (b2i value)⟩)
    ∧ (is_keyboard_button code = true → u.keyboard_uinput_dev = true →
      send_key u code value = ⟨LinuxUinput.keyboard, UinputCall.send EV_KEY code (b2i value)⟩)
    ∧ ((u.cfg.btn_map id).code = code → u.button_state id ≠ value →
      (send_button u id value).2 = [send_key u code value]) := by
  have hmk : is_mouse_button code = true → is_keyboard_button code = false := by
    unfold is_mouse_button is_keyboard_button
    simp only [BTN_MOUSE, BTN_TASK, Bool.and_eq_true, decide_eq_true_eq, decide_eq_false_iff_not]
    omega
  refine ⟨?_, ?_, ?_, ?_, ?_⟩
  · intro h1 h2
    simp [send_key, hmk h1, h1, get_mouse_uinput, h2]
  · intro h1 h2
    simp [send_key, hmk h1, h1, get_mouse_uinput, h2]
  · intro h1 h2
    simp [send_key, h1, get_keyboard_uinput, h2]
  · intro h1 h2
    simp [send_key, h1, get_keyboard_uinput, h2]
  · intro h1 h2
    simp [send_button, h1, h2]

/-- Witness of C8: on a fresh engine, which has neither a
mouse nor a keyboard device, pressing a button mapped to the mouse button
code `0x110` emits the key event on the joystick device. -/
theorem fallback_routing_witness :
    send_key fresh 0x110 true = ⟨LinuxUinput.joystick, UinputCall.send EV_KEY 0x110 1⟩ :=
  (fallback_routing fresh 0x110 true XBOX_BTN_A).1 (by decide) (by decide)

/-- C9: for every code, `send_key` and `add_key` use the keyboard route if
`code < 256`, else the mouse route if `0x110 <= code <= 0x117`, else the
joystick; `is_keyboard_button` and `is_mouse_button` are never both true; and
`send_key` and `add_key` choose the same device. -/
theorem code_classification (u : uInput) (code : Int) (value : Bool) :
    (send_key u code value).dev =
        (if code < 256 then get_keyboard_uinput u
         else if 0x110 ≤ code ∧ code ≤ 0x117 then get_mouse_uinput u
         else get_joystick_uinput u)
    ∧ (add_key u code).dev =
        (if code < 256 then get_keyboard_uinput u
         else if 0x110 ≤ code ∧ code ≤ 0x117 then get_mouse_uinput u
         else get_joystick_uinput u)
    ∧ (is_keyboard_button code = (decide (code < 256))
        ∧ is_mouse_button code = (decide (0x110 ≤ code ∧ code ≤ 0x117)))
    ∧ ¬ (is_keyboard_button code = true ∧ is_mouse_button code = true)
    ∧ (send_key u code value).dev = (add_key u code).dev := by
  refine ⟨send_key_dev u code value, add_key_dev u code, ⟨rfl, ?_⟩, ?_, ?_⟩
  · simp [is_mouse_button, BTN_MOUSE, BTN_TASK]
  · unfold is_mouse_button is_keyboard_button
    simp only [BTN_MOUSE, BTN_TASK, Bool.and_eq_true, decide_eq_true_eq]
    omega
  · rw [send_key_dev, add_key_dev]

/-! ## Edge triggering of `send` -/

theorem dispatch_of_settled (u : uInput) (d : Dispatch) (h : Dispatch.settled u d) :
    dispatch u d = (u, []) := by
  cases d with
  | button code value => exact send_button_same u code value h
  | axis code value => exact send_axis_same u code value h

theorem run_of_settled (u : uInput) (ds : List Dispatch)
    (h : ∀ d ∈ ds, Dispatch.settled u d) : run u ds = (u, []) := by
  induction ds with
  | nil => rfl
  | cons d ds ih =>
    have h1 := dispatch_of_settled u d (h d (List.mem_cons_self d ds))
    have h2 := ih (fun d1 hd => h d1 (List.mem_cons_of_mem d hd))
    simp [run, h1, h2]

theorem settled_dispatch_self (u : uInput) (d : Dispatch) :
    Dispatch.settled (dispatch u d).1 d := by
  cases d with
  | button code value => simp [Dispatch.settled, dispatch, send_button_fst]
  | axis code value => simp [Dispatch.settled, dispatch, send_axis_fst]

theorem settled_dispatch_of_compatible (u : uInput) (d d1 : Dispatch)
    (hc : Dispatch.slot d = Dispatch.slot d1 → d = d1) (h : Dispatch.settled u d) :
    Dispatch.settled (dispatch u d1).1 d := by
  by_cases e : Dispatch.slot d = Dispatch.slot d1
  · rw [hc e]
    exact settled_dispatch_self u d1
  · cases d with
    | button c v =>
      cases d1 with
      | button c1 v1 =>
        have e1 : c ≠ c1 := fun hcc => e (by simp [Dispatch.slot, hcc])
        simp only [Dispatch.settled, dispatch, send_button_fst] at *
        simp [Function.update_noteq e1, h]
      | axis c1 v1 =>
        simp only [Dispatch.settled, dispatch, send_axis_fst] at *
        exact h
    | axis c v =>
      cases d1 with
      | button c1 v1 =>
        simp only [Dispatch.settled, dispatch, send_button_fst] at *
        exact h
      | axis c1 v1 =>
        have e1 : c ≠ c1 := fun hcc => e (by simp [Dispatch.slot, hcc])
        simp only [Dispatch.settled, dispatch, send_axis_fst] at *
        simp [Function.update_noteq e1, h]

theorem settled_run (u : uInput) (d : Dispatch) (ds : List Dispatch)
    (hc : ∀ d1 ∈ ds, Dispatch.slot d = Dispatch.slot d1 → d = d1)
    (h : Dispatch.settled u d) :
    Dispatch.settled (run u ds).1 d := by
  induction ds generalizing u with
  | nil => exact h
  | cons d1 ds ih =>
    simp only [run]
    apply ih
    · intro d2 hd2
      exact hc d2 (List.mem_cons_of_mem d1 hd2)
    · exact settled_dispatch_of_compatible u d d1 (hc d1 (List.mem_cons_self d1 ds)) h

theorem settled_after_run (u : uInput) (ds : List Dispatch) (hp : Consistent ds) :
    ∀ d ∈ ds, Dispatch.settled (run u ds).1 d := by
  induction ds generalizing u with
  | nil => intro d hd; cases hd
  | cons d1 ds ih =>
    intro d hd
    simp only [run]
    rcases List.mem_cons.mp hd with e | hmem
    · subst e
      exact settled_run _ d ds
        (fun d2 h2 => hp d (List.mem_cons_self d ds) d2 (List.mem_cons_of_mem d h2))
        (settled_dispatch_self u d)
    · exact ih _
        (fun a ha b hb => hp a (List.mem_cons_of_mem d1 ha) b (List.mem_cons_of_mem d1 hb))
        d hmem

theorem run_twice (u : uInput) (ds : List Dispatch) (hp : Consistent ds) :
    run (run u ds).1 ds = ((run u ds).1, []) :=
  run_of_settled _ ds (settled_after_run u ds hp)

theorem dispatch_cfg (u : uInput) (d : Dispatch) : (dispatch u d).1.cfg = u.cfg := by
  cases d with
  | button code value => simp [dispatch, send_button_fst]
  | axis code value => simp [dispatch, send_axis_fst]

theorem run_cfg (u : uInput) (ds : List Dispatch) : (run u ds).1.cfg = u.cfg := by
  induction ds generalizing u with
  | nil => rfl
  | cons d ds ih => simp [run, ih, dispatch_cfg]

theorem consistent_of_subset (l l1 : List Dispatch) (hsub : ∀ d ∈ l, d ∈ l1)
    (hn : (l1.map Dispatch.slot).Nodup) : Consistent l :=
  fun d hd d1 hd1 e => List.inj_on_of_nodup_map hn (hsub d hd) (hsub d1 hd1) e

theorem consistent_of_nodup (l : List Dispatch) (hn : (l.map Dispatch.slot).Nodup) :
    Consistent l :=
  consistent_of_subset l l (fun _ h => h) hn

theorem slot_ite (c : Prop) [Decidable c] (a b : Dispatch) :
    Dispatch.slot (if c then a else b) = if c then Dispatch.slot a else Dispatch.slot b := by
  split <;> rfl

theorem send_XboxMsg_calls_consistent (cfg : uInputCfg) (msg : XboxMsg) :
    Consistent (send_XboxMsg_calls cfg msg) := by
  apply consistent_of_nodup
  unfold send_XboxMsg_calls
  cases cfg.trigger_as_zaxis <;> cases cfg.trigger_as_button <;> cases cfg.dpad_as_button <;>
    simp only [Bool.false_eq_true, if_true, if_false, List.map_append, List.map_cons,
      List.map_nil, slot_ite] <;>
    simp only [Dispatch.slot, ite_self] <;>
    decide

theorem send_Xbox360GuitarMsg_calls_consistent (msg : Xbox360GuitarMsg) :
    Consistent (send_Xbox360GuitarMsg_calls msg) := by
  apply consistent_of_nodup
  unfold send_Xbox360GuitarMsg_calls
  simp only [List.map_cons, List.map_nil, Dispatch.slot]
  decide

theorem send_Xbox360Msg_calls_consistent (cfg : uInputCfg) (msg : Xbox360Msg)
    (h : cfg.dpad_only = false) : Consistent (send_Xbox360Msg_calls cfg msg) := by
  apply consistent_of_nodup
  unfold send_Xbox360Msg_calls
  rw [h]
  cases cfg.trigger_as_zaxis <;> cases cfg.trigger_as_button <;> cases cfg.dpad_as_button <;>
    simp only [Bool.false_eq_true, if_true, if_false, List.map_append, List.map_cons,
      List.map_nil, slot_ite, Bool.not_false, Bool.and_true, Bool.and_false] <;>
    simp only [Dispatch.slot, ite_self] <;>
    decide

theorem send_Xbox360Msg_calls_consistent_dpad_only (cfg : uInputCfg) (msg : Xbox360Msg)
    (h : cfg.dpad_only = true)
    (hx : msg.x1 = if msg.dpad_left then -1 else if msg.dpad_right then 1 else 0)
    (hy : -msg.y1 = if msg.dpad_up then -1 else if msg.dpad_down then 1 else 0) :
    Consistent (send_Xbox360Msg_calls cfg msg) := by
  apply consistent_of_subset _
    ([ Dispatch.button XBOX_BTN_THUMB_L msg.thumb_l,
       Dispatch.button XBOX_BTN_THUMB_R msg.thumb_r,
       Dispatch.button XBOX_BTN_LB msg.lb,
       Dispatch.button XBOX_BTN_RB msg.rb,
       Dispatch.button XBOX_BTN_START msg.start,
       Dispatch.button XBOX_BTN_GUIDE msg.guide,
       Dispatch.button XBOX_BTN_BACK msg.back,
       Dispatch.button XBOX_BTN_A msg.a,
       Dispatch.button XBOX_BTN_B msg.b,
       Dispatch.button XBOX_BTN_X msg.x,
       Dispatch.button XBOX_BTN_Y msg.y,
       Dispatch.axis XBOX_AXIS_X1 msg.x1,
       Dispatch.axis XBOX_AXIS_Y1 (-msg.y1),
       Dispatch.axis XBOX_AXIS_X2 msg.x2,
       Dispatch.axis XBOX_AXIS_Y2 (-msg.y2) ]
     ++ (if cfg.trigger_as_zaxis then
           [ Dispatch.axis XBOX_AXIS_TRIGGER (msg.rt - msg.lt) ]
         else if cfg.trigger_as_button then
           [ Dispatch.button XBOX_BTN_LT (i2b msg.lt),
             Dispatch.button XBOX_BTN_RT (i2b msg.rt) ]
         else
           [ Dispatch.axis XBOX_AXIS_LT msg.lt,
             Dispatch.axis XBOX_AXIS_RT msg.rt ]))
  · intro d hd
    unfold send_Xbox360Msg_calls at hd
    rw [h, hx, hy] at hd
    rw [hx, hy]
    simp only [Bool.not_true, Bool.and_false, Bool.false_eq_true, if_false, if_true] at hd
    rcases List.mem_append.mp hd with h1 | h2
    · exact h1
    · apply List.mem_append_left
      cases hu : msg.dpad_up <;> cases hd : msg.dpad_down <;> cases hl : msg.dpad_left <;>
        cases hr : msg.dpad_right <;>
        simp only [hu, hd, hl, hr, Bool.false_eq_true, if_true, if_false] at h2 ⊢ <;>
        (rcases List.mem_cons.mp h2 with e | e2
         · subst e; simp
         · rcases List.mem_cons.mp e2 with e | e3
           · subst e; simp
           · cases e3)
  · cases cfg.trigger_as_zaxis <;> cases cfg.trigger_as_button <;>
      simp only [Bool.false_eq_true, if_true, if_false, List.map_append, List.map_cons,
        List.map_nil] <;>
      simp only [Dispatch.slot] <;>
      decide


/-- C1: the edge triggering of `send` is broken in `dpad_only` mode, where
`send(Xbox360Msg&)` dispatches the stick reading and then the dpad value to the
same axis `X1`: with the stick at `x1 = 1000` and the dpad released, the second
`send` of the same message emits the two events again instead of none. -/
theorem send_twice_counterexample :
    (send (send fresh_dpad_only XboxGenericMsg.stick_right).1 XboxGenericMsg.stick_right).2 =
        [⟨LinuxUinput.joystick, UinputCall.send EV_ABS ABS_X 1000⟩,
         ⟨LinuxUinput.joystick, UinputCall.send EV_ABS ABS_X 0⟩]
    ∧ (send (send fresh_dpad_only XboxGenericMsg.stick_right).1 XboxGenericMsg.stick_right).2
        ≠ [] := by
  decide

/-- Outside the double dispatch of `dpad_only` mode `send` is edge-triggered:
for every configuration, engine state and message of any variant, a second
`send` of the same message makes no device call and leaves the state
unchanged, provided that `dpad_only` is unset, or the message is not an
Xbox360 message, or its stick readings `x1` and `-y1` equal the values the
dpad reroute dispatches to `X1` and `Y1`. -/
theorem send_twice_silent (u : uInput) (msg : XboxGenericMsg)
    (h : u.cfg.dpad_only = true →
         (msg.type = GAMEPAD_XBOX360 ∨ msg.type = GAMEPAD_XBOX360_WIRELESS) →
         (msg.xbox360.x1 =
            (if msg.xbox360.dpad_left then -1 else if msg.xbox360.dpad_right then 1 else 0)
          ∧ -msg.xbox360.y1 =
            (if msg.xbox360.dpad_up then -1 else if msg.xbox360.dpad_down then 1 else 0))) :
    send (send u msg).1 msg = ((send u msg).1, []) := by
  have h360 : (msg.type = GAMEPAD_XBOX360 ∨ msg.type = GAMEPAD_XBOX360_WIRELESS) →
      send_Xbox360Msg (send_Xbox360Msg u msg.xbox360).1 msg.xbox360
        = ((send_Xbox360Msg u msg.xbox360).1, []) := by
    intro ht
    unfold send_Xbox360Msg
    rw [run_cfg]
    apply run_twice
    cases hd : u.cfg.dpad_only
    · exact send_Xbox360Msg_calls_consistent u.cfg msg.xbox360 hd
    · exact send_Xbox360Msg_calls_consistent_dpad_only u.cfg msg.xbox360 hd
        (h hd ht).1 (h hd ht).2
  have hx : send_XboxMsg (send_XboxMsg u msg.xbox).1 msg.xbox
      = ((send_XboxMsg u msg.xbox).1, []) := by
    unfold send_XboxMsg
    rw [run_cfg]
    exact run_twice u _ (send_XboxMsg_calls_consistent u.cfg msg.xbox)
  have hg : send_Xbox360GuitarMsg (send_Xbox360GuitarMsg u msg.guitar).1 msg.guitar
      = ((send_Xbox360GuitarMsg u msg.guitar).1, []) := by
    unfold send_Xbox360GuitarMsg
    exact run_twice u _ (send_Xbox360GuitarMsg_calls_consistent msg.guitar)
  unfold send
  cases ht : msg.type
  · exact hx
  · exact hx
  · exact h360 (Or.inl ht)
  · exact h360 (Or.inr ht)
  · exact hg

/-- On a fresh engine with the default configuration (`dpad_only` unset) the
second `send` of the message with the stick at `x1 = 1000` makes no device
call. -/
theorem send_twice_silent_witness :
    (send (send fresh XboxGenericMsg.stick_right).1 XboxGenericMsg.stick_right).2 = [] :=
  congrArg Prod.snd (send_twice_silent fresh XboxGenericMsg.stick_right (by decide))

/-! ## Relative motion timers -/

theorem int32_of_range (x : Int) (h1 : -2147483648 ≤ x) (h2 : x ≤ 2147483647) :
    int32 x = x := by
  unfold int32
  omega

theorem update_rel_axis_loop_fst (u : uInput) (msec : Int) (l : List RelAxisState) :
    (update_rel_axis_loop u msec l).1 = l.map (fun i => (update_rel_axis u msec i).1) := by
  induction l with
  | nil => rfl
  | cons i rest ih => simp [update_rel_axis_loop, ih]

theorem update_rel_button_loop_fst (u : uInput) (msec : Int) (l : List RelButtonState) :
    (update_rel_button_loop u msec l).1 = l.map (fun i => (update_rel_button u msec i).1) := by
  induction l with
  | nil => rfl
  | cons i rest ih => simp [update_rel_button_loop, ih]

theorem sameControls_update (u u1 : uInput) (msec : Int) (h : SameControls u u1) :
    SameControls u (update u1 msec).1 := h

theorem sameControls_update_n (u u1 : uInput) (msec : Int) (n : Nat) (h : SameControls u u1) :
    SameControls u (update_n u1 msec n).1 := by
  induction n generalizing u1 with
  | zero => exact h
  | succ n ih => exact ih _ (sameControls_update u u1 msec h)

theorem update_rel_axis_congr (u u1 : uInput) (msec : Int) (i : RelAxisState)
    (h : SameControls u u1) : update_rel_axis u1 msec i = update_rel_axis u msec i := by
  obtain ⟨h1, h2, _, h4, _⟩ := h
  simp [update_rel_axis, get_mouse_uinput, h1, h2, h4]

theorem update_rel_button_congr (u u1 : uInput) (msec : Int) (i : RelButtonState)
    (h : SameControls u u1) : update_rel_button u1 msec i = update_rel_button u msec i := by
  obtain ⟨h1, _, h3, h4, _⟩ := h
  simp [update_rel_button, get_mouse_uinput, h1, h3, h4]

/-- One step of a timer that fired at each of its first `j` steps of `R`
milliseconds. -/
theorem update_rel_axis_steady (u : uInput) (a : XboxAxis) (R : Int) (j : Nat)
    (hR : 0 < R) (hrep : (u.cfg.axis_map a).rel_repeat = R)
    (hrange : ((j : Int) + 1) * R ≤ 2147483647) :
    update_rel_axis u R ⟨a, j * R, j * R⟩ =
      (⟨a, ((j : Int) + 1) * R, ((j : Int) + 1) * R⟩,
       [⟨get_mouse_uinput u,
         UinputCall.send EV_REL (u.cfg.axis_map a).code
           (Int.tdiv (int32 ((u.cfg.axis_map a).rel_value * u.axis_state a)) 32767)⟩]) := by
  have hj : (0 : Int) ≤ (j : Int) * R := mul_nonneg (Int.ofNat_nonneg j) (le_of_lt hR)
  have hs : ((j : Int) + 1) * R = (j : Int) * R + R := by ring
  rw [hs] at hrange ⊢
  have e1 : int32 ((j : Int) * R + R) = (j : Int) * R + R :=
    int32_of_range _ (by omega) hrange
  unfold update_rel_axis
  simp only [e1, hrep]
  have e2 : (j : Int) * R + R ≥ (j : Int) * R := by omega
  simp only [e2, if_true]

theorem update_rel_button_steady (u : uInput) (b : XboxButton) (R : Int) (j : Nat)
    (hR : 0 < R) (hrep : (u.cfg.btn_map b).rel_repeat = R)
    (hrange : ((j : Int) + 1) * R ≤ 2147483647) :
    update_rel_button u R ⟨b, j * R, j * R⟩ =
      (⟨b, ((j : Int) + 1) * R, ((j : Int) + 1) * R⟩,
       [⟨get_mouse_uinput u,
         UinputCall.send EV_REL (u.cfg.btn_map b).code
           ((u.cfg.btn_map b).rel_value * b2i (u.button_state b))⟩]) := by
  have hj : (0 : Int) ≤ (j : Int) * R := mul_nonneg (Int.ofNat_nonneg j) (le_of_lt hR)
  have hs : ((j : Int) + 1) * R = (j : Int) * R + R := by ring
  rw [hs] at hrange ⊢
  have e1 : int32 ((j : Int) * R + R) = (j : Int) * R + R :=
    int32_of_range _ (by omega) hrange
  unfold update_rel_button
  simp only [e1, hrep]
  have e2 : (j : Int) * R + R ≥ (j : Int) * R := by omega
  simp only [e2, if_true]

theorem range_mono (R : Int) (m n : Nat) (hR : 0 < R) (hmn : m ≤ n)
    (h : (n : Int) * R ≤ 2147483647) : (m : Int) * R ≤ 2147483647 := by
  have : (m : Int) * R ≤ (n : Int) * R :=
    mul_le_mul_of_nonneg_right (Int.ofNat_le.mpr hmn) (le_of_lt hR)
  omega

/-- The timer at position `k`, steady at step `m`, is steady at step `m + j`
after `j` more calls of `update`. -/
theorem update_n_rel_axis_at (u u1 : uInput) (a : XboxAxis) (R : Int) (k : Nat)
    (hR : 0 < R) (hrep : (u.cfg.axis_map a).rel_repeat = R) (j m : Nat)
    (hs : SameControls u u1)
    (hk : u1.rel_axis[k]? = some ⟨a, m * R, m * R⟩)
    (hrange : ((m + j : Nat) : Int) * R ≤ 2147483647) :
    (update_n u1 R j).1.rel_axis[k]? = some ⟨a, ((m + j : Nat) : Int) * R, ((m + j : Nat) : Int) * R⟩ := by
  induction j generalizing u1 m with
  | zero => simpa using hk
  | succ j ih =>
    simp only [update_n]
    have hr1 : ((m : Int) + 1) * R ≤ 2147483647 := by
      have := range_mono R (m + 1) (m + (j + 1)) hR (by omega) hrange
      simpa using this
    have h1 : (update u1 R).1.rel_axis[k]? = some ⟨a, ((m + 1 : Nat) : Int) * R, ((m + 1 : Nat) : Int) * R⟩ := by
      simp only [update, update_rel_axis_loop_fst, List.getElem?_map, hk, Option.map_some']
      rw [update_rel_axis_congr u u1 R _ hs, update_rel_axis_steady u a R m hR hrep hr1]
      simp
    have := ih (update u1 R).1 (m + 1) (sameControls_update u u1 R hs) h1
      (by rw [show m + 1 + j = m + (j + 1) by omega]; exact hrange)
    rw [show m + 1 + j = m + (j + 1) by omega] at this
    exact this

theorem update_n_rel_button_at (u u1 : uInput) (b : XboxButton) (R : Int) (k : Nat)
    (hR : 0 < R) (hrep : (u.cfg.btn_map b).rel_repeat = R) (j m : Nat)
    (hs : SameControls u u1)
    (hk : u1.rel_button[k]? = some ⟨b, m * R, m * R⟩)
    (hrange : ((m + j : Nat) : Int) * R ≤ 2147483647) :
    (update_n u1 R j).1.rel_button[k]? = some ⟨b, ((m + j : Nat) : Int) * R, ((m + j : Nat) : Int) * R⟩ := by
  induction j generalizing u1 m with
  | zero => simpa using hk
  | succ j ih =>
    simp only [update_n]
    have hr1 : ((m : Int) + 1) * R ≤ 2147483647 := by
      have := range_mono R (m + 1) (m + (j + 1)) hR (by omega) hrange
      simpa using this
    have h1 : (update u1 R).1.rel_button[k]? = some ⟨b, ((m + 1 : Nat) : Int) * R, ((m + 1 : Nat) : Int) * R⟩ := by
      simp only [update, update_rel_button_loop_fst, List.getElem?_map, hk, Option.map_some']
      rw [update_rel_button_congr u u1 R _ hs, update_rel_button_steady u b R m hR hrep hr1]
      simp
    have := ih (update u1 R).1 (m + 1) (sameControls_update u u1 R hs) h1
      (by rw [show m + 1 + j = m + (j + 1) by omega]; exact hrange)
    rw [show m + 1 + j = m + (j + 1) by omega] at this
    exact this

/-- An engine whose only timer is an axis timer steady at step `m` emits
exactly one event at each of the next `n` calls of `update`. -/
theorem update_n_single_axis (u u1 : uInput) (a : XboxAxis) (R : Int)
    (hR : 0 < R) (hrep : (u.cfg.axis_map a).rel_repeat = R) (n m : Nat)
    (hs : SameControls u u1)
    (hra : u1.rel_axis = [⟨a, m * R, m * R⟩]) (hrb : u1.rel_button = [])
    (hrange : ((m + n : Nat) : Int) * R ≤ 2147483647) :
    (update_n u1 R n).2 =
      List.replicate n
        [⟨get_mouse_uinput u,
          UinputCall.send EV_REL (u.cfg.axis_map a).code
            (Int.tdiv (int32 ((u.cfg.axis_map a).rel_value * u.axis_state a)) 32767)⟩] := by
  induction n generalizing u1 m with
  | zero => rfl
  | succ n ih =>
    have hr1 : ((m : Int) + 1) * R ≤ 2147483647 := by
      have := range_mono R (m + 1) (m + (n + 1)) hR (by omega) hrange
      simpa using this
    have hst := update_rel_axis_steady u a R m hR hrep hr1
    have hup : update u1 R =
        ({ u1 with rel_axis := [⟨a, ((m + 1 : Nat) : Int) * R, ((m + 1 : Nat) : Int) * R⟩],
                   rel_button := [] },
         [⟨get_mouse_uinput u,
           UinputCall.send EV_REL (u.cfg.axis_map a).code
             (Int.tdiv (int32 ((u.cfg.axis_map a).rel_value * u.axis_state a)) 32767)⟩]) := by
      simp only [update, hra, hrb, update_rel_axis_loop, update_rel_button_loop,
        update_rel_axis_congr u u1 R _ hs, hst]
      simp
    simp only [update_n, hup, List.replicate_succ]
    congr 1
    exact ih _ (m + 1) hs rfl rfl
      (by rw [show m + 1 + n = m + (n + 1) by omega]; exact hrange)

/-- An engine whose only timer is a button timer steady at step `m` emits
exactly one event at each of the next `n` calls of `update`. -/
theorem update_n_single_button (u u1 : uInput) (b : XboxButton) (R : Int)
    (hR : 0 < R) (hrep : (u.cfg.btn_map b).rel_repeat = R) (n m : Nat)
    (hs : SameControls u u1)
    (hra : u1.rel_axis = []) (hrb : u1.rel_button = [⟨b, m * R, m * R⟩])
    (hrange : ((m + n : Nat) : Int) * R ≤ 2147483647) :
    (update_n u1 R n).2 =
      List.replicate n
        [⟨get_mouse_uinput u,
          UinputCall.send EV_REL (u.cfg.btn_map b).code
            ((u.cfg.btn_map b).rel_value * b2i (u.button_state b))⟩] := by
  induction n generalizing u1 m with
  | zero => rfl
  | succ n ih =>
    have hr1 : ((m : Int) + 1) * R ≤ 2147483647 := by
      have := range_mono R (m + 1) (m + (n + 1)) hR (by omega) hrange
      simpa using this
    have hst := update_rel_button_steady u b R m hR hrep hr1
    have hup : update u1 R =
        ({ u1 with rel_axis := [],
                   rel_button := [⟨b, ((m + 1 : Nat) : Int) * R, ((m + 1 : Nat) : Int) * R⟩] },
         [⟨get_mouse_uinput u,
           UinputCall.send EV_REL (u.cfg.btn_map b).code
             ((u.cfg.btn_map b).rel_value * b2i (u.button_state b))⟩]) := by
      simp only [update, hra, hrb, update_rel_axis_loop, update_rel_button_loop,
        update_rel_button_congr u u1 R _ hs, hst]
      simp
    simp only [update_n, hup, List.replicate_succ]
    congr 1
    exact ih _ (m + 1) hs rfl rfl
      (by rw [show m + 1 + n = m + (n + 1) by omega]; exact hrange)

theorem sameControls_refl (u : uInput) : SameControls u u := ⟨rfl, rfl, rfl, rfl, rfl⟩

/-- The device calls of the loop over `rel_axis` split at the timer at position
`k`: the calls for the timers before it, those of the loop body on it, those
for the timers after it. -/
theorem update_rel_axis_loop_at (u : uInput) (msec : Int) (l : List RelAxisState) (k : Nat)
    (i : RelAxisState) (hk : l[k]? = some i) :
    (update_rel_axis_loop u msec l).2 =
      (update_rel_axis_loop u msec (l.take k)).2 ++ (update_rel_axis u msec i).2
        ++ (update_rel_axis_loop u msec (l.drop (k + 1))).2 := by
  induction l generalizing k with
  | nil => simp at hk
  | cons x xs ih =>
    cases k with
    | zero =>
      simp only [List.getElem?_cons_zero, Option.some.injEq] at hk
      subst hk
      simp [update_rel_axis_loop]
    | succ k =>
      simp only [List.getElem?_cons_succ] at hk
      simp [update_rel_axis_loop, ih k hk, List.append_assoc]

theorem update_rel_button_loop_at (u : uInput) (msec : Int) (l : List RelButtonState) (k : Nat)
    (i : RelButtonState) (hk : l[k]? = some i) :
    (update_rel_button_loop u msec l).2 =
      (update_rel_button_loop u msec (l.take k)).2 ++ (update_rel_button u msec i).2
        ++ (update_rel_button_loop u msec (l.drop (k + 1))).2 := by
  induction l generalizing k with
  | nil => simp at hk
  | cons x xs ih =>
    cases k with
    | zero =>
      simp only [List.getElem?_cons_zero, Option.some.injEq] at hk
      subst hk
      simp [update_rel_button_loop]
    | succ k =>
      simp only [List.getElem?_cons_succ] at hk
      simp [update_rel_button_loop, ih k hk, List.append_assoc]

theorem update_n_snd_length (u : uInput) (msec : Int) (n : Nat) :
    (update_n u msec n).2.length = n := by
  induction n generalizing u with
  | zero => rfl
  | succ n ih => simp [update_n, ih]

/-- The device calls `update_n` lists at position `j` are those of `update` on
the state the first `j` calls left. -/
theorem update_n_snd_getElem (u : uInput) (msec : Int) (n j : Nat) (hj : j < n) :
    (update_n u msec n).2[j]? = some (update (update_n u msec j).1 msec).2 := by
  induction n generalizing u j with
  | zero => omega
  | succ n ih =>
    cases j with
    | zero => simp [update_n]
    | succ j =>
      simp only [update_n, List.getElem?_cons_succ]
      exact ih (update u msec).1 j (by omega)

/-- C6, as stated, fails: with `X1` mapped to `REL_X` at the repeat interval
`R = 1073741824`, its freshly allocated timer the only one of the engine and
the stick held at 16000, two calls of `update` with `msec = R` emit one event
in all: at the second call `time` wraps to `-2147483648`, which is below
`next_time = 1073741824`. -/
theorem rel_motion_event_count_counterexample :
    (x1_slow_mouse_held.cfg.axis_map XBOX_AXIS_X1).type = EV_REL
    ∧ (x1_slow_mouse_held.cfg.axis_map XBOX_AXIS_X1).rel_repeat = 1073741824
    ∧ x1_slow_mouse_held.rel_axis = [⟨XBOX_AXIS_X1, 0, 0⟩]
    ∧ x1_slow_mouse_held.rel_button = []
    ∧ (update_n x1_slow_mouse_held 1073741824 2).2 =
        [ [⟨LinuxUinput.joystick, UinputCall.send EV_REL REL_X 2⟩], [] ]
    ∧ (update_n x1_slow_mouse_held 1073741824 2).1.rel_axis =
        [⟨XBOX_AXIS_X1, -2147483648, 1073741824⟩] := by
  decide

/-- C6, amended: let a timer be freshly allocated (`time = 0`,
`next_time = 0`) for a control whose descriptor has the repeat interval
`R > 0`, and let `update` be called `N` times with `msec = R`, where
`N * R <= 2147483647` (the elapsed time fits an `int`).  Then, whatever other
timers the engine holds, the device calls of each of the `N` calls of `update`
are the calls for the timers before this one, then exactly one relative motion
event for this timer, then the calls for the timers after it; before each call
the timer has `time = next_time = j * R`.  When it is the only timer of the
engine, the device calls of the `N` calls of `update` are `N` times that one
event.  This holds for axis timers and for button timers. -/
theorem rel_motion_event_count (u : uInput) (R : Int) (N : Nat)
    (hR : 0 < R) (hrange : (N : Int) * R ≤ 2147483647) :
    (update_n u R N).2.length = N
    ∧ (∀ (a : XboxAxis) (k : Nat), (u.cfg.axis_map a).rel_repeat = R →
        u.rel_axis[k]? = some ⟨a, 0, 0⟩ → ∀ j : Nat, j < N →
        (update_n u R j).1.rel_axis[k]? = some ⟨a, j * R, j * R⟩
        ∧ (update_n u R N).2[j]? = some
            ((update_rel_axis_loop (update_n u R j).1 R
                ((update_n u R j).1.rel_axis.take k)).2
              ++ [⟨get_mouse_uinput u,
                   UinputCall.send EV_REL (u.cfg.axis_map a).code
                     (Int.tdiv (int32 ((u.cfg.axis_map a).rel_value * u.axis_state a))
                       32767)⟩]
              ++ (update_rel_axis_loop (update_n u R j).1 R
                    ((update_n u R j).1.rel_axis.drop (k + 1))).2
              ++ (update_rel_button_loop (update_n u R j).1 R
                    (update_n u R j).1.rel_button).2))
    ∧ (∀ (b : XboxButton) (k : Nat), (u.cfg.btn_map b).rel_repeat = R →
        u.rel_button[k]? = some ⟨b, 0, 0⟩ → ∀ j : Nat, j < N →
        (update_n u R j).1.rel_button[k]? = some ⟨b, j * R, j * R⟩
        ∧ (update_n u R N).2[j]? = some
            ((update_rel_axis_loop (update_n u R j).1 R (update_n u R j).1.rel_axis).2
              ++ (update_rel_button_loop (update_n u R j).1 R
                    ((update_n u R j).1.rel_button.take k)).2
              ++ [⟨get_mouse_uinput u,
                   UinputCall.send EV_REL (u.cfg.btn_map b).code
                     ((u.cfg.btn_map b).rel_value * b2i (u.button_state b))⟩]
              ++ (update_rel_button_loop (update_n u R j).1 R
                    ((update_n u R j).1.rel_button.drop (k + 1))).2))
    ∧ (∀ a : XboxAxis, (u.cfg.axis_map a).rel_repeat = R →
        u.rel_axis = [⟨a, 0, 0⟩] → u.rel_button = [] →
        (update_n u R N).2 =
          List.replicate N
            [⟨get_mouse_uinput u,
              UinputCall.send EV_REL (u.cfg.axis_map a).code
                (Int.tdiv (int32 ((u.cfg.axis_map a).rel_value * u.axis_state a)) 32767)⟩])
    ∧ (∀ b : XboxButton, (u.cfg.btn_map b).rel_repeat = R →
        u.rel_axis = [] → u.rel_button = [⟨b, 0, 0⟩] →
        (update_n u R N).2 =
          List.replicate N
            [⟨get_mouse_uinput u,
              UinputCall.send EV_REL (u.cfg.btn_map b).code
                ((u.cfg.btn_map b).rel_value * b2i (u.button_state b))⟩]) := by
  refine ⟨update_n_snd_length u R N, ?_, ?_, ?_, ?_⟩
  · intro a k hrep hk j hj
    have hr1 : ((j : Int) + 1) * R ≤ 2147483647 := by
      have := range_mono R (j + 1) N hR (by omega) hrange
      simpa using this
    have hr0 : (((0 + j : Nat)) : Int) * R ≤ 2147483647 := by
      have := range_mono R j N hR (by omega) hrange
      simpa using this
    have h1 := update_n_rel_axis_at u u a R k hR hrep j 0 (sameControls_refl u)
      (by simpa using hk) hr0
    have h2 : (update_n u R j).1.rel_axis[k]? = some ⟨a, j * R, j * R⟩ := by simpa using h1
    refine ⟨h2, ?_⟩
    rw [update_n_snd_getElem u R N j hj]
    have hupd : (update (update_n u R j).1 R).2 =
        (update_rel_axis_loop (update_n u R j).1 R (update_n u R j).1.rel_axis).2
          ++ (update_rel_button_loop (update_n u R j).1 R
                (update_n u R j).1.rel_button).2 := rfl
    rw [hupd, update_rel_axis_loop_at _ R _ k _ h2,
      update_rel_axis_congr u _ R _ (sameControls_update_n u u R j (sameControls_refl u)),
      update_rel_axis_steady u a R j hR hrep hr1]
  · intro b k hrep hk j hj
    have hr1 : ((j : Int) + 1) * R ≤ 2147483647 := by
      have := range_mono R (j + 1) N hR (by omega) hrange
      simpa using this
    have hr0 : (((0 + j : Nat)) : Int) * R ≤ 2147483647 := by
      have := range_mono R j N hR (by omega) hrange
      simpa using this
    have h1 := update_n_rel_button_at u u b R k hR hrep j 0 (sameControls_refl u)
      (by simpa using hk) hr0
    have h2 : (update_n u R j).1.rel_button[k]? = some ⟨b, j * R, j * R⟩ := by simpa using h1
    refine ⟨h2, ?_⟩
    rw [update_n_snd_getElem u R N j hj]
    have hupd : (update (update_n u R j).1 R).2 =
        (update_rel_axis_loop (update_n u R j).1 R (update_n u R j).1.rel_axis).2
          ++ (update_rel_button_loop (update_n u R j).1 R
                (update_n u R j).1.rel_button).2 := rfl
    rw [hupd, update_rel_button_loop_at _ R _ k _ h2,
      update_rel_button_congr u _ R _ (sameControls_update_n u u R j (sameControls_refl u)),
      update_rel_button_steady u b R j hR hrep hr1]
    simp only [List.append_assoc]
  · intro a hrep hra hrb
    exact update_n_single_axis u u a R hR hrep N 0 (sameControls_refl u)
      (by simpa using hra) hrb (by simpa using hrange)
  · intro b hrep hra hrb
    exact update_n_single_button u u b R hR hrep N 0 (sameControls_refl u)
      hra (by simpa using hrb) (by simpa using hrange)

/-- Witness of C6 as amended: the axis `X1` mapped to `REL_X` with the repeat
interval 10, its timer allocated by `add_axis`, the stick held at 16000: three
calls of `update` with `msec = 10` emit one event each. -/
theorem rel_motion_event_count_witness :
    (update_n x1_mouse_held 10 3).2 =
      [ [⟨LinuxUinput.joystick, UinputCall.send EV_REL REL_X 2⟩],
        [⟨LinuxUinput.joystick, UinputCall.send EV_REL REL_X 2⟩],
        [⟨LinuxUinput.joystick, UinputCall.send EV_REL REL_X 2⟩] ] :=
  ((rel_motion_event_count x1_mouse_held 10 3 (by decide) (by decide)).2.2.2.1 XBOX_AXIS_X1
    (by decide) (by decide) (by decide)).trans (by decide)

theorem update_rel_axis_loop_snd (u : uInput) (msec : Int) (l : List RelAxisState) :
    (update_rel_axis_loop u msec l).2 =
      (l.filter (fun i => decide (int32 (i.time + msec) ≥ i.next_time))).map
        (fun i => ⟨get_mouse_uinput u,
          UinputCall.send EV_REL (u.cfg.axis_map i.axis).code
            (Int.tdiv (int32 ((u.cfg.axis_map i.axis).rel_value * u.axis_state i.axis))
              32767)⟩) := by
  induction l with
  | nil => rfl
  | cons i rest ih =>
    by_cases h : int32 (i.time + msec) ≥ i.next_time
    · simp [update_rel_axis_loop, update_rel_axis, ih, h, List.filter_cons]
    · simp [update_rel_axis_loop, update_rel_axis, ih, h, List.filter_cons]

theorem update_rel_button_loop_snd (u : uInput) (msec : Int) (l : List RelButtonState) :
    (update_rel_button_loop u msec l).2 =
      (l.filter (fun i => decide (int32 (i.time + msec) ≥ i.next_time))).map
        (fun i => ⟨get_mouse_uinput u,
          UinputCall.send EV_REL (u.cfg.btn_map i.button).code
            ((u.cfg.btn_map i.button).rel_value * b2i (u.button_state i.button))⟩) := by
  induction l with
  | nil => rfl
  | cons i rest ih =>
    by_cases h : int32 (i.time + msec) ≥ i.next_time
    · simp [update_rel_button_loop, update_rel_button, ih, h, List.filter_cons]
    · simp [update_rel_button_loop, update_rel_button, ih, h, List.filter_cons]

/-- C7, as stated, fails: with the step 5 and the stick held at 16000 the
event `update` emits carries `5 * 16000 / 32767 = 2`, not
`5 * sign(16000) = 5`. -/
theorem rel_motion_magnitude_counterexample :
    (update x1_mouse_held 10).2 = [⟨LinuxUinput.joystick, UinputCall.send EV_REL REL_X 2⟩]
    ∧ (x1_mouse_held.cfg.axis_map XBOX_AXIS_X1).rel_value
        * Int.sign (x1_mouse_held.axis_state XBOX_AXIS_X1) = 5
    ∧ (update x1_mouse_held 10).2 ≠
        [⟨LinuxUinput.joystick,
          UinputCall.send EV_REL REL_X
            ((x1_mouse_held.cfg.axis_map XBOX_AXIS_X1).rel_value
              * Int.sign (x1_mouse_held.axis_state XBOX_AXIS_X1))⟩] := by
  decide

/-- C7, amended: the device calls of one `update` are, for every axis timer
that fires, in order, one relative motion event with the value
`(step * V) / 32767`, the product of the descriptor's `rel.value` and the
current `axis_state` taken in 32-bit `int` and the quotient truncated toward
zero, followed, for every button timer that fires, by one relative motion
event with the value `step * b`, where `b` is `1` if the button's current
state is pressed and `0` otherwise. -/
theorem rel_motion_magnitude (u : uInput) (msec : Int) :
    (update u msec).2 =
      (u.rel_axis.filter (fun i => decide (int32 (i.time + msec) ≥ i.next_time))).map
        (fun i => ⟨get_mouse_uinput u,
          UinputCall.send EV_REL (u.cfg.axis_map i.axis).code
            (Int.tdiv (int32 ((u.cfg.axis_map i.axis).rel_value * u.axis_state i.axis))
              32767)⟩)
      ++ (u.rel_button.filter (fun i => decide (int32 (i.time + msec) ≥ i.next_time))).map
        (fun i => ⟨get_mouse_uinput u,
          UinputCall.send EV_REL (u.cfg.btn_map i.button).code
            ((u.cfg.btn_map i.button).rel_value
              * (if u.button_state i.button then 1 else 0))⟩) := by
  have hb : ∀ b : Bool, b2i b = if b then 1 else 0 := fun b => rfl
  have h : (update u msec).2 =
      (update_rel_axis_loop u msec u.rel_axis).2
        ++ (update_rel_button_loop u msec u.rel_button).2 := rfl
  rw [h, update_rel_axis_loop_snd u msec u.rel_axis,
    update_rel_button_loop_snd u msec u.rel_button]
  simp only [hb]

/-! ## Trigger modes -/

/-- C10 fails on the code: with both `trigger_as_button` and
`trigger_as_zaxis` set, `setup_xbox360_gamepad` gives precedence to
`trigger_as_button` and registers the buttons `LT` and `RT` (the keys
`BTN_TL2`, `BTN_TR2`) and not the axis `TRIGGER`, whereas `send(Xbox360Msg&)`
and `send(XboxMsg&)` give precedence to `trigger_as_zaxis` and dispatch the
trigger readings to the axis `TRIGGER` and not to the buttons: pulling the
right trigger emits an `ABS_Z` event, a capability that was never
registered. -/
theorem trigger_precedence_mismatch :
    (Control.button XBOX_BTN_LT ∈
        (setup_xbox360_gamepad_calls uInputCfg.both_trigger_modes GAMEPAD_XBOX360).map
          Registration.slot
      ∧ Control.button XBOX_BTN_RT ∈
        (setup_xbox360_gamepad_calls uInputCfg.both_trigger_modes GAMEPAD_XBOX360).map
          Registration.slot
      ∧ Control.axis XBOX_AXIS_TRIGGER ∉
        (setup_xbox360_gamepad_calls uInputCfg.both_trigger_modes GAMEPAD_XBOX360).map
          Registration.slot)
    ∧ (Control.axis XBOX_AXIS_TRIGGER ∈
        (send_Xbox360Msg_calls uInputCfg.both_trigger_modes Xbox360Msg.rt_pulled).map
          Dispatch.slot
      ∧ Control.button XBOX_BTN_LT ∉
        (send_Xbox360Msg_calls uInputCfg.both_trigger_modes Xbox360Msg.rt_pulled).map
          Dispatch.slot
      ∧ Control.button XBOX_BTN_RT ∉
        (send_Xbox360Msg_calls uInputCfg.both_trigger_modes Xbox360Msg.rt_pulled).map
          Dispatch.slot)
    ∧ (Control.axis XBOX_AXIS_TRIGGER ∈
        (send_XboxMsg_calls uInputCfg.both_trigger_modes XboxMsg.rt_pulled).map Dispatch.slot
      ∧ Control.button XBOX_BTN_LT ∉
        (send_XboxMsg_calls uInputCfg.both_trigger_modes XboxMsg.rt_pulled).map Dispatch.slot
      ∧ Control.button XBOX_BTN_RT ∉
        (send_XboxMsg_calls uInputCfg.both_trigger_modes XboxMsg.rt_pulled).map Dispatch.slot)
    ∧ (send_Xbox360Msg both_trigger_modes Xbox360Msg.rt_pulled).2 =
        [⟨LinuxUinput.joystick, UinputCall.send EV_ABS ABS_Z 255⟩]
    ∧ (setup_xbox360_gamepad
          (new GAMEPAD_XBOX360 uInputCfg.both_trigger_modes).1 GAMEPAD_XBOX360).2.filter
        (fun c => match c.call with
          | UinputCall.add_abs _ _ _ => true
          | _ => false) =
        [⟨LinuxUinput.joystick, UinputCall.add_abs ABS_X (-32768) 32767⟩,
         ⟨LinuxUinput.joystick, UinputCall.add_abs ABS_Y (-32768) 32767⟩,
         ⟨LinuxUinput.joystick, UinputCall.add_abs ABS_RX (-32768) 32767⟩,
         ⟨LinuxUinput.joystick, UinputCall.add_abs ABS_RY (-32768) 32767⟩,
         ⟨LinuxUinput.joystick, UinputCall.add_abs ABS_HAT0X (-1) 1⟩,
         ⟨LinuxUinput.joystick, UinputCall.add_abs ABS_HAT0Y (-1) 1⟩] := by
  refine ⟨by decide, by decide, by decide, by decide, by decide⟩

/-! ## Dispatch by descriptor class -/

/-- C11 fails on the code: `send_button` does not look at the descriptor's
type.  For the button `A` mapped to the relative motion `REL_Y` (code 1), a
press stores the new state and at once emits a key event with the code 1
(`KEY_ESC`) through `send_key`, on the keyboard route. -/
theorem send_button_rel_emits_key :
    (fresh_a_as_mouse.cfg.btn_map XBOX_BTN_A).type = EV_REL
    ∧ (send_button fresh_a_as_mouse XBOX_BTN_A true).2 =
        [⟨LinuxUinput.joystick, UinputCall.send EV_KEY REL_Y 1⟩]
    ∧ (send_button fresh_a_as_mouse XBOX_BTN_A true).1.button_state XBOX_BTN_A = true := by
  decide

/-- C12: for an axis whose descriptor is an absolute axis and a value that
differs from the stored one, `send_axis` stores the value and makes exactly
one device call: an `EV_ABS` event on the joystick device with the
descriptor's code and the value as passed. -/
theorem abs_axis_dispatch (u : uInput) (id : XboxAxis) (value : Int)
    (htype : (u.cfg.axis_map id).type = EV_ABS)
    (hne : u.axis_state id ≠ value) :
    send_axis u id value =
      ({ u with axis_state := Function.update u.axis_state id value },
       [⟨LinuxUinput.joystick, UinputCall.send EV_ABS (u.cfg.axis_map id).code value⟩])
    ∧ (send_axis u id value).1.axis_state id = value := by
  refine ⟨?_, send_axis_state_same u id value⟩
  unfold send_axis
  simp only [hne, ne_eq, not_false_eq_true, if_true, htype, true_or, get_joystick_uinput]

/-- Witness of C12: on a fresh engine with the default configuration the value
1000 for `X1` emits `ABS_X 1000` on the joystick device. -/
theorem abs_axis_dispatch_witness :
    (send_axis fresh XBOX_AXIS_X1 1000).2 =
      [⟨LinuxUinput.joystick, UinputCall.send EV_ABS ABS_X 1000⟩] :=
  (congrArg Prod.snd (abs_axis_dispatch fresh XBOX_AXIS_X1 1000 (by decide) (by decide)).1).trans
    (by decide)

/-- C13: for an axis whose descriptor is a relative motion and every value,
`send_axis` makes no device call; it stores the value in `axis_state[id]` and
changes nothing else: every other axis state, every button state, both timer
lists, the configuration and the devices stay as they are. -/
theorem rel_axis_no_immediate_event (u : uInput) (id : XboxAxis) (value : Int)
    (htype : (u.cfg.axis_map id).type = EV_REL) :
    send_axis u id value =
      ({ u with axis_state := Function.update u.axis_state id value }, [])
    ∧ (send_axis u id value).2 = []
    ∧ (send_axis u id value).1.axis_state id = value
    ∧ (∀ a : XboxAxis, a ≠ id → (send_axis u id value).1.axis_state a = u.axis_state a)
    ∧ (send_axis u id value).1.button_state = u.button_state
    ∧ (send_axis u id value).1.rel_axis = u.rel_axis
    ∧ (send_axis u id value).1.rel_button = u.rel_button := by
  have h2 : (send_axis u id value).2 = [] := by
    unfold send_axis
    by_cases h : u.axis_state id = value
    · simp [h]
    · have e1 : ¬ (EV_REL = EV_ABS) := by decide
      simp only [h, ne_eq, not_false_eq_true, if_true, htype, e1, if_false]
  have h1 := send_axis_fst u id value
  refine ⟨Prod.ext h1 h2, h2, send_axis_state_same u id value, ?_, ?_, ?_, ?_⟩
  · intro a ha
    rw [h1]
    exact Function.update_noteq ha value u.axis_state
  · rw [h1]
  · rw [h1]
  · rw [h1]

/-- Witness of C13: on a fresh engine whose axis `X1` is mapped to `REL_X`
the value 16000 makes no device call. -/
theorem rel_axis_no_immediate_event_witness :
    (send_axis fresh_x1_as_mouse XBOX_AXIS_X1 16000).2 = [] :=
  (rel_axis_no_immediate_event fresh_x1_as_mouse XBOX_AXIS_X1 16000 (by decide)).2.1

/-! ## Descriptor defaults -/

/-- C14: for every code `c`, `AxisEvent::create(EV_KEY, c)` returns a
descriptor with the secondary code `c` and the threshold 8000,
`AxisEvent::create(EV_REL, c)` one with the step 5 and the repeat interval 10,
`ButtonEvent::create(EV_REL, c)` one with the step 3 and the repeat interval
100; every descriptor either `create` returns has the type and the code it
was given; and `create(-1, -1)` returns the unset descriptor. -/
theorem create_defaults (c type code : Int) :
    (∃ ev, AxisEvent.create EV_KEY c = some ev
        ∧ ev.type = EV_KEY ∧ ev.code = c
        ∧ ev.key_secondary_code = c ∧ ev.key_threshold = 8000)
    ∧ (∃ ev, AxisEvent.create EV_REL c = some ev
        ∧ ev.type = EV_REL ∧ ev.code = c ∧ ev.rel_value = 5 ∧ ev.rel_repeat = 10)
    ∧ (∃ ev, ButtonEvent.create EV_REL c = some ev
        ∧ ev.type = EV_REL ∧ ev.code = c ∧ ev.rel_value = 3 ∧ ev.rel_repeat = 100)
    ∧ (∀ ev, ButtonEvent.create type code = some ev → ev.type = type ∧ ev.code = code)
    ∧ (∀ ev, AxisEvent.create type code = some ev → ev.type = type ∧ ev.code = code)
    ∧ (∃ ev, ButtonEvent.create (-1) (-1) = some ev ∧ ev.type = -1 ∧ ev.code = -1)
    ∧ (∃ ev, AxisEvent.create (-1) (-1) = some ev ∧ ev.type = -1 ∧ ev.code = -1) := by
  refine ⟨⟨_, rfl, rfl, rfl, rfl, rfl⟩, ⟨_, rfl, rfl, rfl, rfl, rfl⟩, ⟨_, rfl, rfl, rfl, rfl, rfl⟩,
    ?_, ?_, ⟨_, rfl, rfl, rfl⟩, ⟨_, rfl, rfl, rfl⟩⟩
  · intro ev h
    unfold ButtonEvent.create at h
    split at h
    · cases h; exact ⟨rfl, rfl⟩
    · split at h
      · cases h
      · split at h
        · cases h; exact ⟨rfl, rfl⟩
        · split at h
          · cases h; exact ⟨rfl, rfl⟩
          · cases h
  · intro ev h
    unfold AxisEvent.create at h
    split at h
    · cases h; exact ⟨rfl, rfl⟩
    · split at h
      · cases h; exact ⟨rfl, rfl⟩
      · split at h
        · cases h; exact ⟨rfl, rfl⟩
        · split at h
          · cases h; exact ⟨rfl, rfl⟩
          · cases h

/-- Witness of C14: the descriptor the default configuration holds for the
axis `X1` was returned by `AxisEvent::create(EV_ABS, ABS_X)` and has that type
and that code. -/
theorem create_defaults_witness :
    (uInputCfg.default.axis_map XBOX_AXIS_X1).type = EV_ABS
    ∧ (uInputCfg.default.axis_map XBOX_AXIS_X1).code = ABS_X :=
  (create_defaults 0 EV_ABS ABS_X).2.2.2.2.1 (uInputCfg.default.axis_map XBOX_AXIS_X1)
    (by decide)

/-! ## Timer allocation at registration -/

theorem mem_btn_slots (b : XboxButton) : b ∈ btn_slots := by
  cases b <;> decide

theorem mem_axis_slots (a : XboxAxis) : a ∈ axis_slots := by
  cases a <;> decide

theorem is_keyboard_button_iff (c : Int) : is_keyboard_button c = true ↔ c < 256 := by
  simp [is_keyboard_button]

theorem is_mouse_button_iff (c : Int) : is_mouse_button c = true ↔ 0x110 ≤ c ∧ c ≤ 0x117 := by
  simp [is_mouse_button, BTN_MOUSE, BTN_TASK]

/-- C17: `need_keyboard_device` returns `true` exactly when some button
descriptor is a key with a code below 256 or some axis descriptor is a key
pair whose primary or secondary code is below 256; `need_mouse_device`
returns `true` exactly when some button or axis descriptor is a relative
motion, or some button descriptor is a key with a code in `0x110 .. 0x117`,
or some axis descriptor is a key pair whose primary or secondary code is in
that window.  A configuration whose descriptors all have the type -1 makes
both scans `false`. -/
theorem device_need_scans (u : uInput) :
    (need_keyboard_device u = true ↔
        (∃ b, (u.cfg.btn_map b).type = EV_KEY ∧ (u.cfg.btn_map b).code < 256)
        ∨ (∃ a, (u.cfg.axis_map a).type = EV_KEY
            ∧ ((u.cfg.axis_map a).code < 256 ∨ (u.cfg.axis_map a).key_secondary_code < 256)))
    ∧ (need_mouse_device u = true ↔
        (∃ b, (u.cfg.btn_map b).type = EV_REL)
        ∨ (∃ a, (u.cfg.axis_map a).type = EV_REL)
        ∨ (∃ b, (u.cfg.btn_map b).type = EV_KEY
            ∧ 0x110 ≤ (u.cfg.btn_map b).code ∧ (u.cfg.btn_map b).code ≤ 0x117)
        ∨ (∃ a, (u.cfg.axis_map a).type = EV_KEY
            ∧ ((0x110 ≤ (u.cfg.axis_map a).code ∧ (u.cfg.axis_map a).code ≤ 0x117)
              ∨ (0x110 ≤ (u.cfg.axis_map a).key_secondary_code
                  ∧ (u.cfg.axis_map a).key_secondary_code ≤ 0x117))))
    ∧ ((∀ b, (u.cfg.btn_map b).type = -1) → (∀ a, (u.cfg.axis_map a).type = -1) →
        need_keyboard_device u = false ∧ need_mouse_device u = false) := by
  have hk : need_keyboard_device u = true ↔
      (∃ b, (u.cfg.btn_map b).type = EV_KEY ∧ (u.cfg.btn_map b).code < 256)
      ∨ (∃ a, (u.cfg.axis_map a).type = EV_KEY
          ∧ ((u.cfg.axis_map a).code < 256 ∨ (u.cfg.axis_map a).key_secondary_code < 256)) := by
    unfold need_keyboard_device
    constructor
    · intro h
      split at h
      · rename_i h1
        obtain ⟨b, _, hb⟩ := List.any_eq_true.mp h1
        simp only [Bool.and_eq_true, decide_eq_true_eq, is_keyboard_button_iff] at hb
        exact Or.inl ⟨b, hb⟩
      · split at h
        · rename_i h2
          obtain ⟨a, _, ha⟩ := List.any_eq_true.mp h2
          simp only [Bool.and_eq_true, Bool.or_eq_true, decide_eq_true_eq,
            is_keyboard_button_iff] at ha
          exact Or.inr ⟨a, ha⟩
        · cases h
    · intro h
      rcases h with ⟨b, hb⟩ | ⟨a, ha⟩
      · have h1 : btn_slots.any (fun i =>
            decide ((u.cfg.btn_map i).type = EV_KEY)
              && is_keyboard_button (u.cfg.btn_map i).code) = true :=
          List.any_eq_true.mpr ⟨b, mem_btn_slots b, by
            simp only [Bool.and_eq_true, decide_eq_true_eq, is_keyboard_button_iff]
            exact hb⟩
        simp only [h1, if_true]
      · have h2 : axis_slots.any (fun i =>
            decide ((u.cfg.axis_map i).type = EV_KEY)
              && (is_keyboard_button (u.cfg.axis_map i).code
                  || is_keyboard_button (u.cfg.axis_map i).key_secondary_code)) = true :=
          List.any_eq_true.mpr ⟨a, mem_axis_slots a, by
            simp only [Bool.and_eq_true, Bool.or_eq_true, decide_eq_true_eq,
              is_keyboard_button_iff]
            exact ha⟩
        simp only [h2, if_true, ite_self]
  have hm : need_mouse_device u = true ↔
      (∃ b, (u.cfg.btn_map b).type = EV_REL)
      ∨ (∃ a, (u.cfg.axis_map a).type = EV_REL)
      ∨ (∃ b, (u.cfg.btn_map b).type = EV_KEY
          ∧ 0x110 ≤ (u.cfg.btn_map b).code ∧ (u.cfg.btn_map b).code ≤ 0x117)
      ∨ (∃ a, (u.cfg.axis_map a).type = EV_KEY
          ∧ ((0x110 ≤ (u.cfg.axis_map a).code ∧ (u.cfg.axis_map a).code ≤ 0x117)
            ∨ (0x110 ≤ (u.cfg.axis_map a).key_secondary_code
                ∧ (u.cfg.axis_map a).key_secondary_code ≤ 0x117))) := by
    have hbtn : ∀ i : XboxButton,
        (if decide ((u.cfg.btn_map i).type = EV_KEY) && is_mouse_button (u.cfg.btn_map i).code
          then true else if (u.cfg.btn_map i).type = EV_REL then true else false) = true ↔
        ((u.cfg.btn_map i).type = EV_KEY
          ∧ 0x110 ≤ (u.cfg.btn_map i).code ∧ (u.cfg.btn_map i).code ≤ 0x117)
        ∨ (u.cfg.btn_map i).type = EV_REL := by
      intro i
      rw [← is_mouse_button_iff]
      by_cases h1 : (u.cfg.btn_map i).type = EV_KEY
      · by_cases h2 : is_mouse_button (u.cfg.btn_map i).code = true
        · simp [h1, h2]
        · simp [h1, h2]
      · by_cases h3 : (u.cfg.btn_map i).type = EV_REL
        · simp [h1, h3]
        · simp [h1, h3]
    have haxis : ∀ i : XboxAxis,
        (if decide ((u.cfg.axis_map i).type = EV_KEY)
            && (is_mouse_button (u.cfg.axis_map i).code
                || is_mouse_button (u.cfg.axis_map i).key_secondary_code)
          then true else if (u.cfg.axis_map i).type = EV_REL then true else false) = true ↔
        ((u.cfg.axis_map i).type = EV_KEY
          ∧ ((0x110 ≤ (u.cfg.axis_map i).code ∧ (u.cfg.axis_map i).code ≤ 0x117)
            ∨ (0x110 ≤ (u.cfg.axis_map i).key_secondary_code
                ∧ (u.cfg.axis_map i).key_secondary_code ≤ 0x117)))
        ∨ (u.cfg.axis_map i).type = EV_REL := by
      intro i
      rw [← is_mouse_button_iff, ← is_mouse_button_iff]
      by_cases h1 : (u.cfg.axis_map i).type = EV_KEY
      · by_cases h2 : is_mouse_button (u.cfg.axis_map i).code = true
        · simp [h1, h2]
        · by_cases h3 : is_mouse_button (u.cfg.axis_map i).key_secondary_code = true
          · simp [h1, h2, h3]
          · simp [h1, h2, h3]
      · by_cases h3 : (u.cfg.axis_map i).type = EV_REL
        · simp [h1, h3]
        · simp [h1, h3]
    unfold need_mouse_device
    constructor
    · intro h
      split at h
      · rename_i h1
        obtain ⟨b, _, hb⟩ := List.any_eq_true.mp h1
        rcases (hbtn b).mp hb with hb1 | hb2
        · exact Or.inr (Or.inr (Or.inl ⟨b, hb1⟩))
        · exact Or.inl ⟨b, hb2⟩
      · split at h
        · rename_i h2
          obtain ⟨a, _, ha⟩ := List.any_eq_true.mp h2
          rcases (haxis a).mp ha with ha1 | ha2
          · exact Or.inr (Or.inr (Or.inr ⟨a, ha1⟩))
          · exact Or.inr (Or.inl ⟨a, ha2⟩)
        · cases h
    · intro h
      have hb : ∀ b, (((u.cfg.btn_map b).type = EV_KEY
            ∧ 0x110 ≤ (u.cfg.btn_map b).code ∧ (u.cfg.btn_map b).code ≤ 0x117)
            ∨ (u.cfg.btn_map b).type = EV_REL) →
          btn_slots.any (fun i =>
            if decide ((u.cfg.btn_map i).type = EV_KEY) && is_mouse_button (u.cfg.btn_map i).code
            then true else if (u.cfg.btn_map i).type = EV_REL then true else false) = true :=
        fun b hh => List.any_eq_true.mpr ⟨b, mem_btn_slots b, (hbtn b).mpr hh⟩
      have ha : ∀ a, (((u.cfg.axis_map a).type = EV_KEY
            ∧ ((0x110 ≤ (u.cfg.axis_map a).code ∧ (u.cfg.axis_map a).code ≤ 0x117)
              ∨ (0x110 ≤ (u.cfg.axis_map a).key_secondary_code
                  ∧ (u.cfg.axis_map a).key_secondary_code ≤ 0x117)))
            ∨ (u.cfg.axis_map a).type = EV_REL) →
          axis_slots.any (fun i =>
            if decide ((u.cfg.axis_map i).type = EV_KEY)
                && (is_mouse_button (u.cfg.axis_map i).code
                    || is_mouse_button (u.cfg.axis_map i).key_secondary_code)
            then true else if (u.cfg.axis_map i).type = EV_REL then true else false) = true :=
        fun a hh => List.any_eq_true.mpr ⟨a, mem_axis_slots a, (haxis a).mpr hh⟩
      rcases h with ⟨b, h1⟩ | ⟨a, h2⟩ | ⟨b, h3⟩ | ⟨a, h4⟩
      · simp only [hb b (Or.inr h1), if_true]
      · simp only [ha a (Or.inr h2), if_true, ite_self]
      · simp only [hb b (Or.inl h3), if_true]
      · simp only [ha a (Or.inl h4), if_true, ite_self]
  refine ⟨hk, hm, ?_⟩
  intro hbu hau
  have n1 : ¬ ((-1 : Int) = EV_KEY) := by decide
  have n2 : ¬ ((-1 : Int) = EV_REL) := by decide
  constructor
  · rw [← Bool.not_eq_true, hk]
    rintro (⟨b, h1, _⟩ | ⟨a, h1, _⟩)
    · rw [hbu b] at h1; exact n1 h1
    · rw [hau a] at h1; exact n1 h1
  · rw [← Bool.not_eq_true, hm]
    rintro (⟨b, h1⟩ | ⟨a, h1⟩ | ⟨b, h1, _⟩ | ⟨a, h1, _⟩)
    · rw [hbu b] at h1; exact n2 h1
    · rw [hau a] at h1; exact n2 h1
    · rw [hbu b] at h1; exact n1 h1
    · rw [hau a] at h1; exact n1 h1

/-- Witness of C17: the engine whose axis `X1` is mapped to the keys 105 and
106 needs a keyboard device, and no mouse device. -/
theorem device_need_scans_witness :
    need_keyboard_device fresh_x1_as_keys = true
    ∧ need_mouse_device fresh_x1_as_keys = false :=
  ⟨(device_need_scans fresh_x1_as_keys).1.mpr
      (Or.inr ⟨XBOX_AXIS_X1, by decide, Or.inl (by decide)⟩),
   by decide⟩

/-! ## Construction -/

/-- C18 fails on the code: the block of the constructor that runs
`setup_xbox360_gamepad` is guarded by `if (0)`.  Constructing the engine for
an Xbox360 gamepad with the default configuration makes four device calls
only: the key `BTN_X`, the axes `ABS_X` and `ABS_Y` with the range `-1 .. 1`,
and `finish`.  The stick range `-32768 .. 32767` and the keys `BTN_A` and
`BTN_START` are not registered, although `setup_xbox360_gamepad` run on the
constructed engine would register them. -/
theorem constructor_skips_setup :
    (new GAMEPAD_XBOX360 uInputCfg.default).2 =
        [ ⟨LinuxUinput.joystick, UinputCall.add_key BTN_X⟩,
          ⟨LinuxUinput.joystick, UinputCall.add_abs ABS_X (-1) 1⟩,
          ⟨LinuxUinput.joystick, UinputCall.add_abs ABS_Y (-1) 1⟩,
          ⟨LinuxUinput.joystick, UinputCall.finish⟩ ]
    ∧ (⟨LinuxUinput.joystick, UinputCall.add_abs ABS_X (-32768) 32767⟩ : DevCall)
        ∉ (new GAMEPAD_XBOX360 uInputCfg.default).2
    ∧ (⟨LinuxUinput.joystick, UinputCall.add_abs ABS_Y (-32768) 32767⟩ : DevCall)
        ∉ (new GAMEPAD_XBOX360 uInputCfg.default).2
    ∧ (⟨LinuxUinput.joystick, UinputCall.add_key BTN_A⟩ : DevCall)
        ∉ (new GAMEPAD_XBOX360 uInputCfg.default).2
    ∧ (⟨LinuxUinput.joystick, UinputCall.add_key BTN_START⟩ : DevCall)
        ∉ (new GAMEPAD_XBOX360 uInputCfg.default).2
    ∧ (⟨LinuxUinput.joystick, UinputCall.add_abs ABS_X (-32768) 32767⟩ : DevCall)
        ∈ (setup_xbox360_gamepad (new GAMEPAD_XBOX360 uInputCfg.default).1 GAMEPAD_XBOX360).2
    ∧ (⟨LinuxUinput.joystick, UinputCall.add_key BTN_A⟩ : DevCall)
        ∈ (setup_xbox360_gamepad (new GAMEPAD_XBOX360 uInputCfg.default).1 GAMEPAD_XBOX360).2
    ∧ (⟨LinuxUinput.joystick, UinputCall.add_key BTN_START⟩ : DevCall)
        ∈ (setup_xbox360_gamepad (new GAMEPAD_XBOX360 uInputCfg.default).1
            GAMEPAD_XBOX360).2 := by
  decide

/-! ## The dpad in `dpad_only` mode -/

theorem dispatch_button_state_other (u : uInput) (d : Dispatch) (b : XboxButton)
    (h : Dispatch.slot d ≠ Control.button b) :
    (dispatch u d).1.button_state b = u.button_state b := by
  cases d with
  | button c v =>
    have hc : b ≠ c := fun e => h (by simp [Dispatch.slot, e])
    simp [dispatch, send_button_fst, Function.update_noteq hc]
  | axis c v => simp [dispatch, send_axis_fst]

theorem dispatch_axis_state_other (u : uInput) (d : Dispatch) (a : XboxAxis)
    (h : Dispatch.slot d ≠ Control.axis a) :
    (dispatch u d).1.axis_state a = u.axis_state a := by
  cases d with
  | button c v => simp [dispatch, send_button_fst]
  | axis c v =>
    have hc : a ≠ c := fun e => h (by simp [Dispatch.slot, e])
    simp [dispatch, send_axis_fst, Function.update_noteq hc]

theorem run_button_state_other (u : uInput) (ds : List Dispatch) (b : XboxButton)
    (h : ∀ d ∈ ds, Dispatch.slot d ≠ Control.button b) :
    (run u ds).1.button_state b = u.button_state b := by
  induction ds generalizing u with
  | nil => rfl
  | cons d ds ih =>
    simp only [run]
    rw [ih _ (fun d1 h1 => h d1 (List.mem_cons_of_mem d h1))]
    exact dispatch_button_state_other u d b (h d (List.mem_cons_self d ds))

theorem run_axis_state_other (u : uInput) (ds : List Dispatch) (a : XboxAxis)
    (h : ∀ d ∈ ds, Dispatch.slot d ≠ Control.axis a) :
    (run u ds).1.axis_state a = u.axis_state a := by
  induction ds generalizing u with
  | nil => rfl
  | cons d ds ih =>
    simp only [run]
    rw [ih _ (fun d1 h1 => h d1 (List.mem_cons_of_mem d h1))]
    exact dispatch_axis_state_other u d a (h d (List.mem_cons_self d ds))

/-- In `dpad_only` mode no call of `send(Xbox360Msg&)` addresses a dpad
control. -/
theorem send_Xbox360Msg_calls_no_dpad (cfg : uInputCfg) (msg : Xbox360Msg)
    (h : cfg.dpad_only = true) :
    ∀ c ∈ dpad_controls, c ∉ (send_Xbox360Msg_calls cfg msg).map Dispatch.slot := by
  unfold send_Xbox360Msg_calls
  rw [h]
  cases cfg.trigger_as_zaxis <;> cases cfg.trigger_as_button <;>
    simp only [Bool.false_eq_true, if_true, if_false, List.map_append, List.map_cons,
      List.map_nil, slot_ite, Bool.not_true, Bool.and_false] <;>
    simp only [Dispatch.slot, ite_self] <;>
    decide

/-- C19, as stated, fails: with `dpad_only` set, a guitar message with the
dpad pressed upwards is dispatched to the button `DPAD_UP` (it presses
`BTN_BASE`), and a classic Xbox message with the dpad pressed upwards is
dispatched to the axis `DPAD_Y` (it emits `ABS_HAT0Y -1`). -/
theorem dpad_only_counterexample :
    fresh_dpad_only.cfg.dpad_only = true
    ∧ (send fresh_dpad_only XboxGenericMsg.guitar_dpad_up).2 =
        [⟨LinuxUinput.joystick, UinputCall.send EV_KEY BTN_BASE 1⟩]
    ∧ (send fresh_dpad_only XboxGenericMsg.guitar_dpad_up).1.button_state XBOX_DPAD_UP = true
    ∧ fresh_dpad_only.button_state XBOX_DPAD_UP = false
    ∧ (send fresh_dpad_only XboxGenericMsg.xbox_dpad_up).2 =
        [⟨LinuxUinput.joystick, UinputCall.send EV_ABS ABS_HAT0Y (-1)⟩]
    ∧ (send fresh_dpad_only XboxGenericMsg.xbox_dpad_up).1.axis_state XBOX_AXIS_DPAD_Y = -1
    ∧ fresh_dpad_only.axis_state XBOX_AXIS_DPAD_Y = 0 := by
  decide

/-- C19, amended: for every configuration with `dpad_only` set, every engine
state and every Xbox360 message (wired or wireless), no call that `send`
makes addresses a logical dpad control, so no event is emitted through their
descriptors, and `button_state` of `DPAD_UP`, `DPAD_DOWN`, `DPAD_LEFT`,
`DPAD_RIGHT` and `axis_state` of `DPAD_X`, `DPAD_Y` are unchanged.  A guitar
message always dispatches its dpad to the four dpad buttons. -/
theorem dpad_only_suppresses_dpad (u : uInput) (msg : XboxGenericMsg)
    (g : Xbox360GuitarMsg)
    (hd : u.cfg.dpad_only = true)
    (ht : msg.type = GAMEPAD_XBOX360 ∨ msg.type = GAMEPAD_XBOX360_WIRELESS) :
    send u msg = run u (send_Xbox360Msg_calls u.cfg msg.xbox360)
    ∧ (∀ d ∈ send_Xbox360Msg_calls u.cfg msg.xbox360, Dispatch.slot d ∉ dpad_controls)
    ∧ (send u msg).1.button_state XBOX_DPAD_UP = u.button_state XBOX_DPAD_UP
    ∧ (send u msg).1.button_state XBOX_DPAD_DOWN = u.button_state XBOX_DPAD_DOWN
    ∧ (send u msg).1.button_state XBOX_DPAD_LEFT = u.button_state XBOX_DPAD_LEFT
    ∧ (send u msg).1.button_state XBOX_DPAD_RIGHT = u.button_state XBOX_DPAD_RIGHT
    ∧ (send u msg).1.axis_state XBOX_AXIS_DPAD_X = u.axis_state XBOX_AXIS_DPAD_X
    ∧ (send u msg).1.axis_state XBOX_AXIS_DPAD_Y = u.axis_state XBOX_AXIS_DPAD_Y
    ∧ (Dispatch.button XBOX_DPAD_UP g.dpad_up ∈ send_Xbox360GuitarMsg_calls g
        ∧ Dispatch.button XBOX_DPAD_DOWN g.dpad_down ∈ send_Xbox360GuitarMsg_calls g
        ∧ Dispatch.button XBOX_DPAD_LEFT g.dpad_left ∈ send_Xbox360GuitarMsg_calls g
        ∧ Dispatch.button XBOX_DPAD_RIGHT g.dpad_right ∈ send_Xbox360GuitarMsg_calls g) := by
  have hsend : send u msg = run u (send_Xbox360Msg_calls u.cfg msg.xbox360) := by
    unfold send
    rcases ht with ht | ht <;> rw [ht] <;> rfl
  have hno := send_Xbox360Msg_calls_no_dpad u.cfg msg.xbox360 hd
  have hslot : ∀ d ∈ send_Xbox360Msg_calls u.cfg msg.xbox360, ∀ c ∈ dpad_controls,
      Dispatch.slot d ≠ c := by
    intro d hdm c hc e
    exact hno c hc (e ▸ List.mem_map_of_mem Dispatch.slot hdm)
  refine ⟨hsend, fun d hdm hin => hslot d hdm _ hin rfl, ?_, ?_, ?_, ?_, ?_, ?_, ?_⟩
  · rw [hsend]
    exact run_button_state_other u _ _ (fun d hdm => hslot d hdm _ (by decide))
  · rw [hsend]
    exact run_button_state_other u _ _ (fun d hdm => hslot d hdm _ (by decide))
  · rw [hsend]
    exact run_button_state_other u _ _ (fun d hdm => hslot d hdm _ (by decide))
  · rw [hsend]
    exact run_button_state_other u _ _ (fun d hdm => hslot d hdm _ (by decide))
  · rw [hsend]
    exact run_axis_state_other u _ _ (fun d hdm => hslot d hdm _ (by decide))
  · rw [hsend]
    exact run_axis_state_other u _ _ (fun d hdm => hslot d hdm _ (by decide))
  · simp [send_Xbox360GuitarMsg_calls]

/-- Witness of C19 as amended: in `dpad_only` mode an Xbox360 message with the
dpad pressed upwards leaves the button `DPAD_UP` and the axis `DPAD_Y` as
they were; the dpad moves the axis `Y1` instead. -/
theorem dpad_only_suppresses_dpad_witness :
    (send fresh_dpad_only XboxGenericMsg.xbox360_dpad_up).1.button_state XBOX_DPAD_UP
        = fresh_dpad_only.button_state XBOX_DPAD_UP
    ∧ (send fresh_dpad_only XboxGenericMsg.xbox360_dpad_up).1.axis_state XBOX_AXIS_DPAD_Y
        = fresh_dpad_only.axis_state XBOX_AXIS_DPAD_Y
    ∧ (send fresh_dpad_only XboxGenericMsg.xbox360_dpad_up).2 =
        [⟨LinuxUinput.joystick, UinputCall.send EV_ABS ABS_Y (-1)⟩] :=
  have h := dpad_only_suppresses_dpad fresh_dpad_only XboxGenericMsg.xbox360_dpad_up
    Xbox360GuitarMsg.neutral (by decide) (by decide)
  ⟨h.2.2.1, h.2.2.2.2.2.2.2.1, by decide⟩

/-! ## Stick axes -/

theorem run_append (u : uInput) (l1 l2 : List Dispatch) :
    run u (l1 ++ l2) = ((run (run u l1).1 l2).1, (run u l1).2 ++ (run (run u l1).1 l2).2) := by
  induction l1 generalizing u with
  | nil => simp [run]
  | cons d ds ih => simp [run, ih, List.append_assoc]

/-- The value of a call is the stored one after the run when no later call
addresses the same control. -/
theorem settled_of_last (u : uInput) (pre post : List Dispatch) (d : Dispatch)
    (h : ∀ d1 ∈ post, Dispatch.slot d ≠ Dispatch.slot d1) :
    Dispatch.settled (run u (pre ++ d :: post)).1 d := by
  rw [run_append]
  simp only [run]
  exact settled_run _ d post (fun d1 h1 e => absurd e (h d1 h1)) (settled_dispatch_self _ d)

/-- C21: for every configuration with `dpad_only` unset, every engine state
and every Xbox360 message, after `send(Xbox360Msg&)` the stored stick values
are `x1` for `X1`, `-y1` for `Y1`, `x2` for `X2` and `-y2` for `Y2`. -/
theorem stick_sign_convention (u : uInput) (msg : Xbox360Msg)
    (hd : u.cfg.dpad_only = false) :
    (send_Xbox360Msg u msg).1.axis_state XBOX_AXIS_X1 = msg.x1
    ∧ (send_Xbox360Msg u msg).1.axis_state XBOX_AXIS_Y1 = -msg.y1
    ∧ (send_Xbox360Msg u msg).1.axis_state XBOX_AXIS_X2 = msg.x2
    ∧ (send_Xbox360Msg u msg).1.axis_state XBOX_AXIS_Y2 = -msg.y2 := by
  have hc := send_Xbox360Msg_calls_consistent u.cfg msg hd
  have hs := settled_after_run u (send_Xbox360Msg_calls u.cfg msg) hc
  unfold send_Xbox360Msg
  refine ⟨?_, ?_, ?_, ?_⟩
  · exact hs (Dispatch.axis XBOX_AXIS_X1 msg.x1) (by simp [send_Xbox360Msg_calls])
  · exact hs (Dispatch.axis XBOX_AXIS_Y1 (-msg.y1)) (by simp [send_Xbox360Msg_calls])
  · exact hs (Dispatch.axis XBOX_AXIS_X2 msg.x2) (by simp [send_Xbox360Msg_calls])
  · exact hs (Dispatch.axis XBOX_AXIS_Y2 (-msg.y2)) (by simp [send_Xbox360Msg_calls])

/-- Witness of C21: on a fresh engine with the default configuration, the
message with `x1 = 1000` and `y1 = 2000` stores 1000 for `X1` and -2000 for
`Y1`. -/
theorem stick_sign_convention_witness :
    (send_Xbox360Msg fresh { Xbox360Msg.neutral with x1 := 1000, y1 := 2000 }).1.axis_state
        XBOX_AXIS_X1 = 1000
    ∧ (send_Xbox360Msg fresh { Xbox360Msg.neutral with x1 := 1000, y1 := 2000 }).1.axis_state
        XBOX_AXIS_Y1 = -2000 :=
  have h := stick_sign_convention fresh { Xbox360Msg.neutral with x1 := 1000, y1 := 2000 }
    (by decide)
  ⟨h.1, h.2.1⟩

theorem settled_ite_axis (u : uInput) (a : XboxAxis) (c1 c2 : Bool) (x y z : Int)
    (h : Dispatch.settled u
      (if c1 then Dispatch.axis a x else if c2 then Dispatch.axis a y else Dispatch.axis a z)) :
    u.axis_state a = if c1 then x else if c2 then y else z := by
  cases c1 <;> cases c2 <;> exact h

/-- C22: for every configuration with `dpad_only` set, every engine state and
every Xbox360 message, after `send(Xbox360Msg&)` the stored value of `X1` is
-1 if `dpad_left`, else 1 if `dpad_right`, else 0, and the stored value of
`Y1` is -1 if `dpad_up`, else 1 if `dpad_down`, else 0, whatever the stick
readings `x1` and `y1` of the message are. -/
theorem dpad_only_overrides_stick (u : uInput) (msg : Xbox360Msg)
    (hd : u.cfg.dpad_only = true) :
    (send_Xbox360Msg u msg).1.axis_state XBOX_AXIS_X1 =
        (if msg.dpad_left then -1 else if msg.dpad_right then 1 else 0)
    ∧ (send_Xbox360Msg u msg).1.axis_state XBOX_AXIS_Y1 =
        (if msg.dpad_up then -1 else if msg.dpad_down then 1 else 0) := by
  have hcalls : ∃ pre : List Dispatch, send_Xbox360Msg_calls u.cfg msg =
      pre ++
        [ (if msg.dpad_up then Dispatch.axis XBOX_AXIS_Y1 (-1)
           else if msg.dpad_down then Dispatch.axis XBOX_AXIS_Y1 1
           else Dispatch.axis XBOX_AXIS_Y1 0),
          (if msg.dpad_left then Dispatch.axis XBOX_AXIS_X1 (-1)
           else if msg.dpad_right then Dispatch.axis XBOX_AXIS_X1 1
           else Dispatch.axis XBOX_AXIS_X1 0) ] := by
    refine ⟨[ Dispatch.button XBOX_BTN_THUMB_L msg.thumb_l,
              Dispatch.button XBOX_BTN_THUMB_R msg.thumb_r,
              Dispatch.button XBOX_BTN_LB msg.lb,
              Dispatch.button XBOX_BTN_RB msg.rb,
              Dispatch.button XBOX_BTN_START msg.start,
              Dispatch.button XBOX_BTN_GUIDE msg.guide,
              Dispatch.button XBOX_BTN_BACK msg.back,
              Dispatch.button XBOX_BTN_A msg.a,
              Dispatch.button XBOX_BTN_B msg.b,
              Dispatch.button XBOX_BTN_X msg.x,
              Dispatch.button XBOX_BTN_Y msg.y,
              Dispatch.axis XBOX_AXIS_X1 msg.x1,
              Dispatch.axis XBOX_AXIS_Y1 (-msg.y1),
              Dispatch.axis XBOX_AXIS_X2 msg.x2,
              Dispatch.axis XBOX_AXIS_Y2 (-msg.y2) ]
            ++ (if u.cfg.trigger_as_zaxis then
                  [ Dispatch.axis XBOX_AXIS_TRIGGER (msg.rt - msg.lt) ]
                else if u.cfg.trigger_as_button then
                  [ Dispatch.button XBOX_BTN_LT (i2b msg.lt),
                    Dispatch.button XBOX_BTN_RT (i2b msg.rt) ]
                else
                  [ Dispatch.axis XBOX_AXIS_LT msg.lt,
                    Dispatch.axis XBOX_AXIS_RT msg.rt ]), ?_⟩
    unfold send_Xbox360Msg_calls
    rw [hd]
    simp only [Bool.not_true, Bool.and_false, Bool.false_eq_true, if_false, if_true]
  obtain ⟨pre, hpre⟩ := hcalls
  unfold send_Xbox360Msg
  rw [hpre]
  constructor
  · have h := settled_of_last u
      (pre ++ [ (if msg.dpad_up then Dispatch.axis XBOX_AXIS_Y1 (-1)
                 else if msg.dpad_down then Dispatch.axis XBOX_AXIS_Y1 1
                 else Dispatch.axis XBOX_AXIS_Y1 0) ]) []
      (if msg.dpad_left then Dispatch.axis XBOX_AXIS_X1 (-1)
       else if msg.dpad_right then Dispatch.axis XBOX_AXIS_X1 1
       else Dispatch.axis XBOX_AXIS_X1 0)
      (fun d1 h1 => by cases h1)
    rw [List.append_assoc] at h
    exact settled_ite_axis _ _ _ _ _ _ _ h
  · have h := settled_of_last u pre
      [ (if msg.dpad_left then Dispatch.axis XBOX_AXIS_X1 (-1)
         else if msg.dpad_right then Dispatch.axis XBOX_AXIS_X1 1
         else Dispatch.axis XBOX_AXIS_X1 0) ]
      (if msg.dpad_up then Dispatch.axis XBOX_AXIS_Y1 (-1)
       else if msg.dpad_down then Dispatch.axis XBOX_AXIS_Y1 1
       else Dispatch.axis XBOX_AXIS_Y1 0)
      (fun d1 h1 => by
        rw [List.mem_singleton] at h1
        rw [h1, slot_ite, slot_ite, slot_ite, slot_ite]
        simp only [Dispatch.slot, ite_self]
        decide)
    exact settled_ite_axis _ _ _ _ _ _ _ h

/-- Witness of C22: in `dpad_only` mode the message with the stick at
`x1 = 1000` and the dpad released stores 0 for `X1`. -/
theorem dpad_only_overrides_stick_witness :
    (send_Xbox360Msg fresh_dpad_only { Xbox360Msg.neutral with x1 := 1000 }).1.axis_state
        XBOX_AXIS_X1 = 0 :=
  (dpad_only_overrides_stick fresh_dpad_only { Xbox360Msg.neutral with x1 := 1000 }
    (by decide)).1

/-! ## Registered ranges -/

theorem in_range_ite (c : Prop) [Decidable c] (a b : Dispatch)
    (ha : Dispatch.in_range a) (hb : Dispatch.in_range b) :
    Dispatch.in_range (if c then a else b) := by
  split
  · exact ha
  · exact hb

/-- With `dpad_only` unset, every value `send(Xbox360Msg&)` passes to
`send_axis` lies within the registered range of its axis, provided the stick
readings lie in `-32768 .. 32767`, the trigger readings in `0 .. 255`, and the
vertical readings `y1` and `y2` are not `-32768`. -/
theorem stick_values_in_range (cfg : uInputCfg) (msg : Xbox360Msg)
    (hd : cfg.dpad_only = false)
    (hx1 : -32768 ≤ msg.x1 ∧ msg.x1 ≤ 32767) (hy1 : -32767 ≤ msg.y1 ∧ msg.y1 ≤ 32767)
    (hx2 : -32768 ≤ msg.x2 ∧ msg.x2 ≤ 32767) (hy2 : -32767 ≤ msg.y2 ∧ msg.y2 ≤ 32767)
    (hlt : 0 ≤ msg.lt ∧ msg.lt ≤ 255) (hrt : 0 ≤ msg.rt ∧ msg.rt ≤ 255) :
    ∀ d ∈ send_Xbox360Msg_calls cfg msg, Dispatch.in_range d := by
  have hdy : Dispatch.in_range
      (if msg.dpad_up then Dispatch.axis XBOX_AXIS_DPAD_Y (-1)
       else if msg.dpad_down then Dispatch.axis XBOX_AXIS_DPAD_Y 1
       else Dispatch.axis XBOX_AXIS_DPAD_Y 0) := by
    apply in_range_ite
    · simp [Dispatch.in_range, registered_range]
    · apply in_range_ite <;> simp [Dispatch.in_range, registered_range]
  have hdx : Dispatch.in_range
      (if msg.dpad_left then Dispatch.axis XBOX_AXIS_DPAD_X (-1)
       else if msg.dpad_right then Dispatch.axis XBOX_AXIS_DPAD_X 1
       else Dispatch.axis XBOX_AXIS_DPAD_X 0) := by
    apply in_range_ite
    · simp [Dispatch.in_range, registered_range]
    · apply in_range_ite <;> simp [Dispatch.in_range, registered_range]
  unfold send_Xbox360Msg_calls
  rw [hd]
  simp only [List.forall_mem_append, List.forall_mem_cons, List.not_mem_nil, false_imp_iff,
    implies_true, and_true, Bool.false_eq_true, if_false]
  refine ⟨⟨?_, ?_⟩, ?_⟩
  · simp only [Dispatch.in_range, registered_range, true_and]
    omega
  · cases cfg.trigger_as_zaxis <;> cases cfg.trigger_as_button <;>
      simp only [Bool.false_eq_true, if_false, if_true, List.forall_mem_cons, List.not_mem_nil,
        false_imp_iff, implies_true, and_true, Dispatch.in_range, registered_range] <;>
      omega
  · cases cfg.dpad_as_button
    · simp only [Bool.false_and, Bool.false_eq_true, if_false, List.forall_mem_cons,
        List.not_mem_nil, false_imp_iff, implies_true, and_true]
      exact ⟨hdy, hdx⟩
    · simp [Dispatch.in_range]

/-- C23 fails on the code: `send(Xbox360Msg&)` negates the vertical stick
readings without clamping.  With the default configuration (`dpad_only`
unset), the reading `y1 = -32768`, which lies in `-32768 .. 32767`, is passed
to `send_axis` as 32768 for the axis `Y1`, and emitted as `ABS_Y 32768`,
although `setup_xbox360_gamepad` registers the range `-32768 .. 32767` for
`Y1`. -/
theorem stick_value_out_of_range :
    uInputCfg.default.dpad_only = false
    ∧ (-32768 ≤ Xbox360Msg.y1_min.y1 ∧ Xbox360Msg.y1_min.y1 ≤ 32767)
    ∧ Dispatch.axis XBOX_AXIS_Y1 32768
        ∈ send_Xbox360Msg_calls uInputCfg.default Xbox360Msg.y1_min
    ∧ Registration.axis XBOX_AXIS_Y1 (-32768) 32767
        ∈ setup_xbox360_gamepad_calls uInputCfg.default GAMEPAD_XBOX360
    ∧ registered_range XBOX_AXIS_Y1 = (-32768, 32767)
    ∧ ¬ Dispatch.in_range (Dispatch.axis XBOX_AXIS_Y1 32768)
    ∧ (send_Xbox360Msg fresh Xbox360Msg.y1_min).2 =
        [⟨LinuxUinput.joystick, UinputCall.send EV_ABS ABS_Y 32768⟩] := by
  refine ⟨by decide, by decide, by decide, by decide, rfl, ?_, by decide⟩
  simp [Dispatch.in_range, registered_range]

/-! ## No event without a crossing -/

/-- C24, as stated, fails: with `X1` mapped to the keys 105 and 106 at the
threshold 8000 and the value -2147483647 stored by an earlier `send_axis`
(which pressed the key 105), the new value `INT_MIN = -2147483648` has
`|old| >= 8000` and `|new| >= 8000`, but `abs` returns `INT_MIN` unchanged,
the test `abs(value) < threshold` succeeds and both keys are released. -/
theorem no_event_without_crossing_counterexample :
    ((send_axis fresh_x1_as_keys XBOX_AXIS_X1 (-2147483647)).1.cfg.axis_map
        XBOX_AXIS_X1).type = EV_KEY
    ∧ ((send_axis fresh_x1_as_keys XBOX_AXIS_X1 (-2147483647)).1.cfg.axis_map
        XBOX_AXIS_X1).key_threshold = 8000
    ∧ (send_axis fresh_x1_as_keys XBOX_AXIS_X1 (-2147483647)).1.axis_state XBOX_AXIS_X1
        = -2147483647
    ∧ |(send_axis fresh_x1_as_keys XBOX_AXIS_X1 (-2147483647)).1.axis_state XBOX_AXIS_X1|
        ≥ 8000
    ∧ |(-2147483648 : Int)| ≥ 8000
    ∧ (send_axis (send_axis fresh_x1_as_keys XBOX_AXIS_X1 (-2147483647)).1
        XBOX_AXIS_X1 (-2147483648)).2 =
        [⟨LinuxUinput.joystick, UinputCall.send EV_KEY 105 0⟩,
         ⟨LinuxUinput.joystick, UinputCall.send EV_KEY 106 0⟩]
    ∧ (send_axis (send_axis fresh_x1_as_keys XBOX_AXIS_X1 (-2147483647)).1
        XBOX_AXIS_X1 (-2147483648)).2 ≠ [] := by
  decide

/-- C24, amended: on a threshold descriptor with threshold `T`, a change of
value that stays below the threshold (`|old| < T` and `|new| < T`) makes no
device call, and so does one that stays at or above it (`|old| >= T` and
`|new| >= T`) when neither value is `INT_MIN`; in particular a change from a
value `>= T` straight to a value `<= -T` other than `INT_MIN`, or from a value
`<= -T` other than `INT_MIN` straight to a value `>= T`, makes none: no key is
released and none is pressed. -/
theorem no_event_without_crossing (u : uInput) (id : XboxAxis) (new T : Int)
    (htype : (u.cfg.axis_map id).type = EV_KEY)
    (hthr : (u.cfg.axis_map id).key_threshold = T) :
    (|u.axis_state id| < T ∧ |new| < T → (send_axis u id new).2 = [])
    ∧ (|u.axis_state id| ≥ T ∧ |new| ≥ T →
        u.axis_state id ≠ -2147483648 → new ≠ -2147483648 →
        (send_axis u id new).2 = [])
    ∧ (T ≤ u.axis_state id ∧ new ≤ -T → new ≠ -2147483648 →
        (send_axis u id new).2 = [])
    ∧ (u.axis_state id ≤ -T ∧ T ≤ new → u.axis_state id ≠ -2147483648 →
        (send_axis u id new).2 = []) := by
  have hge : c_abs (u.axis_state id) ≥ T → c_abs new ≥ T → (send_axis u id new).2 = [] :=
    fun h1 h2 => thr_none_ge u u id new _ T (follows_refl u) htype hthr rfl h1 h2
  refine ⟨?_, ?_, ?_, ?_⟩
  · rintro ⟨h1, h2⟩
    exact thr_none_below u u id new _ T (follows_refl u) htype hthr rfl
      (abs_lt.mp h1) (abs_lt.mp h2)
  · rintro ⟨h1, h2⟩ m1 m2
    apply hge
    · rw [c_abs_ge_iff _ T m1]
      rcases le_abs'.mp h1 with h | h
      · exact Or.inl h
      · exact Or.inr h
    · rw [c_abs_ge_iff _ T m2]
      rcases le_abs'.mp h2 with h | h
      · exact Or.inl h
      · exact Or.inr h
  · rintro ⟨h1, h2⟩ m2
    exact hge (c_abs_ge_of_le _ T h1) (by rw [c_abs_ge_iff _ T m2]; exact Or.inl h2)
  · rintro ⟨h1, h2⟩ m1
    exact hge (by rw [c_abs_ge_iff _ T m1]; exact Or.inl h1) (c_abs_ge_of_le _ T h2)

/-- Witness of C24 as amended: with `X1` mapped to the keys 105 and 106 at the
threshold 8000 and the value 9000 stored, the value -9000 makes no device
call. -/
theorem no_event_without_crossing_witness :
    (send_axis (send_axis fresh_x1_as_keys XBOX_AXIS_X1 9000).1 XBOX_AXIS_X1 (-9000)).2 = [] :=
  (no_event_without_crossing (send_axis fresh_x1_as_keys XBOX_AXIS_X1 9000).1 XBOX_AXIS_X1
    (-9000) 8000 (by decide) (by decide)).2.2.1 ⟨by decide, by decide⟩ (by decide)

/-- Every range `setup_xbox360_gamepad` passes to `add_axis` is the one
`registered_range` lists. -/
theorem setup_ranges (cfg : uInputCfg) (type : GamepadType) :
    (setup_xbox360_gamepad_calls cfg type).all
      (fun r => match r with
        | Registration.axis a min max => decide (registered_range a = (min, max))
        | Registration.button _ => true) = true := by
  unfold setup_xbox360_gamepad_calls
  cases cfg.dpad_only <;> cases cfg.trigger_as_button <;> cases cfg.trigger_as_zaxis <;>
    cases cfg.dpad_as_button <;> cases type <;> decide

/-! ## One call of `update` -/

theorem update_rel_axis_loop_snd_length (u : uInput) (msec : Int) (l : List RelAxisState) :
    (update_rel_axis_loop u msec l).2.length ≤ l.length := by
  rw [update_rel_axis_loop_snd, List.length_map]
  exact List.length_filter_le _ l

theorem update_rel_button_loop_snd_length (u : uInput) (msec : Int) (l : List RelButtonState) :
    (update_rel_button_loop u msec l).2.length ≤ l.length := by
  rw [update_rel_button_loop_snd, List.length_map]
  exact List.length_filter_le _ l

/-- C25: one call of `update` leaves the configuration, `axis_state`,
`button_state` and the number of timers of both lists as they are, and makes
at most one device call per timer, whatever `msec` is.  The timer at any
position of `rel_axis` or `rel_button` becomes the result of the loop body
run on it: its control is unchanged; its `time` is `time + msec` (in 32-bit
`int`, hence exactly that sum when the sum is within the range of `int`); if
the new `time` is at least `next_time` the timer fires exactly one event and
`next_time` grows by the descriptor's repeat interval (exactly, when that sum
is within the range of `int`); otherwise it fires none and `next_time` is
unchanged. -/
theorem update_step_invariant (u : uInput) (msec : Int) :
    ((update u msec).1.cfg = u.cfg
      ∧ (update u msec).1.axis_state = u.axis_state
      ∧ (update u msec).1.button_state = u.button_state
      ∧ (update u msec).1.rel_axis.length = u.rel_axis.length
      ∧ (update u msec).1.rel_button.length = u.rel_button.length
      ∧ (update u msec).2.length ≤ u.rel_axis.length + u.rel_button.length)
    ∧ (∀ (k : Nat) (i : RelAxisState), u.rel_axis[k]? = some i →
        (update u msec).1.rel_axis[k]? = some (update_rel_axis u msec i).1
        ∧ (update_rel_axis u msec i).1.axis = i.axis
        ∧ (update_rel_axis u msec i).1.time = int32 (i.time + msec)
        ∧ (-2147483648 ≤ i.time + msec → i.time + msec ≤ 2147483647 →
            (update_rel_axis u msec i).1.time = i.time + msec)
        ∧ (update_rel_axis u msec i).2.length ≤ 1
        ∧ ((update_rel_axis u msec i).1.time ≥ i.next_time →
            (update_rel_axis u msec i).2.length = 1
            ∧ (update_rel_axis u msec i).1.next_time
                = int32 (i.next_time + (u.cfg.axis_map i.axis).rel_repeat)
            ∧ (-2147483648 ≤ i.next_time + (u.cfg.axis_map i.axis).rel_repeat →
                i.next_time + (u.cfg.axis_map i.axis).rel_repeat ≤ 2147483647 →
                (update_rel_axis u msec i).1.next_time
                  = i.next_time + (u.cfg.axis_map i.axis).rel_repeat))
        ∧ ((update_rel_axis u msec i).1.time < i.next_time →
            (update_rel_axis u msec i).2 = []
            ∧ (update_rel_axis u msec i).1.next_time = i.next_time))
    ∧ (∀ (k : Nat) (i : RelButtonState), u.rel_button[k]? = some i →
        (update u msec).1.rel_button[k]? = some (update_rel_button u msec i).1
        ∧ (update_rel_button u msec i).1.button = i.button
        ∧ (update_rel_button u msec i).1.time = int32 (i.time + msec)
        ∧ (-2147483648 ≤ i.time + msec → i.time + msec ≤ 2147483647 →
            (update_rel_button u msec i).1.time = i.time + msec)
        ∧ (update_rel_button u msec i).2.length ≤ 1
        ∧ ((update_rel_button u msec i).1.time ≥ i.next_time →
            (update_rel_button u msec i).2.length = 1
            ∧ (update_rel_button u msec i).1.next_time
                = int32 (i.next_time + (u.cfg.btn_map i.button).rel_repeat)
            ∧ (-2147483648 ≤ i.next_time + (u.cfg.btn_map i.button).rel_repeat →
                i.next_time + (u.cfg.btn_map i.button).rel_repeat ≤ 2147483647 →
                (update_rel_button u msec i).1.next_time
                  = i.next_time + (u.cfg.btn_map i.button).rel_repeat))
        ∧ ((update_rel_button u msec i).1.time < i.next_time →
            (update_rel_button u msec i).2 = []
            ∧ (update_rel_button u msec i).1.next_time = i.next_time)) := by
  have hfst : (update u msec).1 =
      { u with rel_axis := (update_rel_axis_loop u msec u.rel_axis).1,
               rel_button := (update_rel_button_loop u msec u.rel_button).1 } := rfl
  have hsnd : (update u msec).2 =
      (update_rel_axis_loop u msec u.rel_axis).2
        ++ (update_rel_button_loop u msec u.rel_button).2 := rfl
  refine ⟨⟨rfl, rfl, rfl, ?_, ?_, ?_⟩, ?_, ?_⟩
  · rw [hfst]
    simp [update_rel_axis_loop_fst]
  · rw [hfst]
    simp [update_rel_button_loop_fst]
  · rw [hsnd, List.length_append]
    have h1 := update_rel_axis_loop_snd_length u msec u.rel_axis
    have h2 := update_rel_button_loop_snd_length u msec u.rel_button
    omega
  · intro k i hk
    have hpos : (update u msec).1.rel_axis[k]? = some (update_rel_axis u msec i).1 := by
      rw [hfst]
      simp only [update_rel_axis_loop_fst, List.getElem?_map, hk, Option.map_some']
    refine ⟨hpos, ?_⟩
    by_cases hf : int32 (i.time + msec) ≥ i.next_time
    · have hb : update_rel_axis u msec i =
          ({ i with
               time := int32 (i.time + msec),
               next_time := int32 (i.next_time + (u.cfg.axis_map i.axis).rel_repeat) },
           [⟨get_mouse_uinput u,
             UinputCall.send EV_REL (u.cfg.axis_map i.axis).code
               (Int.tdiv (int32 ((u.cfg.axis_map i.axis).rel_value * u.axis_state i.axis))
                 32767)⟩]) := by
        simp only [update_rel_axis, hf, if_true]
      rw [hb]
      refine ⟨rfl, rfl, fun h1 h2 => int32_of_range _ h1 h2, by simp, ?_, ?_⟩
      · intro _
        exact ⟨rfl, rfl, fun h1 h2 => int32_of_range _ h1 h2⟩
      · intro hlt
        exact absurd hf (not_le.mpr hlt)
    · have hb : update_rel_axis u msec i = ({ i with time := int32 (i.time + msec) }, []) := by
        simp only [update_rel_axis, hf, if_false]
      rw [hb]
      refine ⟨rfl, rfl, fun h1 h2 => int32_of_range _ h1 h2, by simp, ?_, ?_⟩
      · intro hge
        exact absurd hge hf
      · intro _
        exact ⟨rfl, rfl⟩
  · intro k i hk
    have hpos : (update u msec).1.rel_button[k]? = some (update_rel_button u msec i).1 := by
      rw [hfst]
      simp only [update_rel_button_loop_fst, List.getElem?_map, hk, Option.map_some']
    refine ⟨hpos, ?_⟩
    by_cases hf : int32 (i.time + msec) ≥ i.next_time
    · have hb : update_rel_button u msec i =
          ({ i with
               time := int32 (i.time + msec),
               next_time := int32 (i.next_time + (u.cfg.btn_map i.button).rel_repeat) },
           [⟨get_mouse_uinput u,
             UinputCall.send EV_REL (u.cfg.btn_map i.button).code
               ((u.cfg.btn_map i.button).rel_value * b2i (u.button_state i.button))⟩]) := by
        simp only [update_rel_button, hf, if_true]
      rw [hb]
      refine ⟨rfl, rfl, fun h1 h2 => int32_of_range _ h1 h2, by simp, ?_, ?_⟩
      · intro _
        exact ⟨rfl, rfl, fun h1 h2 => int32_of_range _ h1 h2⟩
      · intro hlt
        exact absurd hf (not_le.mpr hlt)
    · have hb : update_rel_button u msec i =
          ({ i with time := int32 (i.time + msec) }, []) := by
        simp only [update_rel_button, hf, if_false]
      rw [hb]
      refine ⟨rfl, rfl, fun h1 h2 => int32_of_range _ h1 h2, by simp, ?_, ?_⟩
      · intro hge
        exact absurd hge hf
      · intro _
        exact ⟨rfl, rfl⟩

/-- Witness of C25: the timer of `X1` (mapped to `REL_X`, repeat interval 10)
is `(X1, 0, 0)`; one call of `update` with `msec = 25` makes it
`(X1, 25, 10)`. -/
theorem update_step_invariant_witness :
    (update x1_mouse_held 25).1.rel_axis[0]? = some ⟨XBOX_AXIS_X1, 25, 10⟩ :=
  ((update_step_invariant x1_mouse_held 25).2.1 0 ⟨XBOX_AXIS_X1, 0, 0⟩ (by decide)).1.trans
    (by decide)

/-! ## The neutral message -/

theorem send_Xbox360Msg_calls_neutral (cfg : uInputCfg) :
    (send_Xbox360Msg_calls cfg Xbox360Msg.neutral).all Dispatch.is_neutral = true := by
  unfold send_Xbox360Msg_calls
  cases cfg.dpad_only <;> cases cfg.trigger_as_button <;> cases cfg.trigger_as_zaxis <;>
    cases cfg.dpad_as_button <;> decide

theorem send_XboxMsg_calls_neutral (cfg : uInputCfg) :
    (send_XboxMsg_calls cfg XboxMsg.neutral).all Dispatch.is_neutral = true := by
  unfold send_XboxMsg_calls
  cases cfg.trigger_as_button <;> cases cfg.trigger_as_zaxis <;>
    cases cfg.dpad_as_button <;> decide

theorem send_Xbox360GuitarMsg_calls_neutral :
    (send_Xbox360GuitarMsg_calls Xbox360GuitarMsg.neutral).all Dispatch.is_neutral = true := by
  decide

/-- A run of neutral calls on an engine whose stored values are all neutral
makes no device call and changes nothing. -/
theorem run_neutral (u : uInput) (ds : List Dispatch)
    (ha : ∀ a, u.axis_state a = 0) (hb : ∀ b, u.button_state b = false)
    (hn : ds.all Dispatch.is_neutral = true) : run u ds = (u, []) := by
  apply run_of_settled
  intro d hd
  have h := List.all_eq_true.mp hn d hd
  cases d with
  | button c v =>
    simp only [Dispatch.is_neutral, Bool.not_eq_true'] at h
    simp only [Dispatch.settled, hb c, h]
  | axis c v =>
    simp only [Dispatch.is_neutral, decide_eq_true_eq] at h
    simp only [Dispatch.settled, ha c, h]

/-- C26: for every configuration, every gamepad type and every message
variant, the neutral message (nothing pressed, every reading 0) sent to the
freshly constructed engine makes no device call and leaves the engine as it
is. -/
theorem neutral_on_fresh (type : GamepadType) (config : uInputCfg) (variant : GamepadType) :
    (∀ a, (new type config).1.axis_state a = 0)
    ∧ (∀ b, (new type config).1.button_state b = false)
    ∧ send (new type config).1
        { type := variant, xbox := XboxMsg.neutral, xbox360 := Xbox360Msg.neutral,
          guitar := Xbox360GuitarMsg.neutral }
      = ((new type config).1, []) := by
  have ha : ∀ a, (new type config).1.axis_state a = 0 := fun _ => rfl
  have hb : ∀ b, (new type config).1.button_state b = false := fun _ => rfl
  refine ⟨ha, hb, ?_⟩
  unfold send
  cases variant
  · exact run_neutral _ _ ha hb (send_XboxMsg_calls_neutral _)
  · exact run_neutral _ _ ha hb (send_XboxMsg_calls_neutral _)
  · exact run_neutral _ _ ha hb (send_Xbox360Msg_calls_neutral _)
  · exact run_neutral _ _ ha hb (send_Xbox360Msg_calls_neutral _)
  · exact run_neutral _ _ ha hb send_Xbox360GuitarMsg_calls_neutral

/-! ## The default configuration -/

theorem assign_all_foldl_other {ι α : Type} [DecidableEq ι] (l : List (ι × Option α))
    (acc : Option (ι → α)) (m : ι → α) (id : ι)
    (h : l.foldl
      (fun m p =>
        match m, p.2 with
        | some m, some e => some (Function.update m p.1 e)
        | _, _ => none) acc = some m)
    (hid : id ∉ l.map Prod.fst) :
    ∃ m0, acc = some m0 ∧ m id = m0 id := by
  induction l generalizing acc with
  | nil => exact ⟨m, h, rfl⟩
  | cons p ps ih =>
    simp only [List.map_cons, List.mem_cons, not_or] at hid
    simp only [List.foldl_cons] at h
    obtain ⟨m1, h1, h2⟩ := ih _ h hid.2
    cases acc with
    | none => simp at h1
    | some m0 =>
      cases hp : p.2 with
      | none => simp [hp] at h1
      | some e =>
        simp only [hp, Option.some.injEq] at h1
        refine ⟨m0, rfl, ?_⟩
        rw [h2, ← h1, Function.update_noteq hid.1]

/-- A slot that no assignment of the list addresses keeps the fill value. -/
theorem assign_all_other {ι α : Type} [DecidableEq ι] (fill : α) (l : List (ι × Option α))
    (m : ι → α) (id : ι) (h : assign_all (some fill) l = some m)
    (hid : id ∉ l.map Prod.fst) : m id = fill := by
  obtain ⟨m0, h0, h1⟩ := assign_all_foldl_other l _ m id h hid
  simp only [Option.map_some', Option.some.injEq] at h0
  rw [h1, ← h0]

/-- C27: with the configuration built by `uInputCfg::uInputCfg`, in any
engine state, `need_keyboard_device` and `need_mouse_device` return `false`.
Every button descriptor of that configuration is a key with a code that is
at least 256 (256, `BTN_0`, being the least) and outside `0x110 .. 0x117`;
every axis descriptor is an absolute axis; and a slot that the constructor
does not assign after filling the arrays with `create(-1, -1)` holds the
unset descriptor (type -1, code -1). -/
theorem default_needs_no_extra_device (u : uInput) :
    need_keyboard_device { u with cfg := uInputCfg.default } = false
    ∧ need_mouse_device { u with cfg := uInputCfg.default } = false
    ∧ uInputCfg.new = some uInputCfg.default
    ∧ (∀ b, (uInputCfg.default.btn_map b).type = EV_KEY
        ∧ 256 ≤ (uInputCfg.default.btn_map b).code
        ∧ ¬ (0x110 ≤ (uInputCfg.default.btn_map b).code
              ∧ (uInputCfg.default.btn_map b).code ≤ 0x117))
    ∧ (uInputCfg.default.btn_map XBOX_BTN_GREEN).code = 256
    ∧ (∀ a, (uInputCfg.default.axis_map a).type = EV_ABS)
    ∧ (∀ (l : List (XboxButton × Option ButtonEvent)) (m : XboxButton → ButtonEvent)
        (b : XboxButton), assign_all (ButtonEvent.create (-1) (-1)) l = some m →
        b ∉ l.map Prod.fst → (m b).type = -1 ∧ (m b).code = -1)
    ∧ (∀ (l : List (XboxAxis × Option AxisEvent)) (m : XboxAxis → AxisEvent)
        (a : XboxAxis), assign_all (AxisEvent.create (-1) (-1)) l = some m →
        a ∉ l.map Prod.fst → (m a).type = -1 ∧ (m a).code = -1) := by
  have hk : need_keyboard_device fresh = false := by decide
  have hm : need_mouse_device fresh = false := by decide
  refine ⟨hk, hm, (Option.some_get _).symm, ?_, by decide, ?_, ?_, ?_⟩
  · intro b
    cases b <;> decide
  · intro a
    cases a <;> decide
  · intro l m b h hb
    have := assign_all_other _ l m b h hb
    rw [this]
    exact ⟨rfl, rfl⟩
  · intro l m a h ha
    have := assign_all_other _ l m a h ha
    rw [this]
    exact ⟨rfl, rfl⟩

/-- Witness of C27: after the fill and the single assignment of the slot `A`,
the slot `B` of the button map still holds the unset descriptor. -/
theorem default_needs_no_extra_device_witness :
    ∀ m : XboxButton → ButtonEvent,
      assign_all (ButtonEvent.create (-1) (-1))
          [(XBOX_BTN_A, ButtonEvent.create EV_KEY BTN_A)] = some m →
      (m XBOX_BTN_B).type = -1 ∧ (m XBOX_BTN_B).code = -1 :=
  fun m h => (default_needs_no_extra_device fresh).2.2.2.2.2.2.1
    [(XBOX_BTN_A, ButtonEvent.create EV_KEY BTN_A)] m XBOX_BTN_B h (by decide)

end uInput

/-! ## Parsing of textual descriptors -/

theorem split_colon_head (s : List Char) :
    ∃ t ts, split_colon s = t :: ts ∧ List.IsPrefix t s := by
  induction s with
  | nil => exact ⟨[], [], rfl, ⟨[], rfl⟩⟩
  | cons c cs ih =>
    obtain ⟨t, ts, h, hp⟩ := ih
    by_cases hc : c = ':'
    · exact ⟨[], split_colon cs, by simp [split_colon, hc], ⟨c :: cs, rfl⟩⟩
    · refine ⟨c :: t, ts, by simp [split_colon, hc, h], ?_⟩
      obtain ⟨r, hr⟩ := hp
      exact ⟨r, by simp [hr]⟩

theorem tokenize_head (str : List Char) (hne : str ≠ []) :
    ∃ tok rest, tokenize str = tok :: rest ∧ List.IsPrefix tok str := by
  simp only [tokenize, hne, if_false]
  exact split_colon_head str

theorem split_colon_of_no_colon (t : List Char) (h : ':' ∉ t) : split_colon t = [t] := by
  induction t with
  | nil => rfl
  | cons c cs ih =>
    have hc : c ≠ ':' := fun e => h (by simp [e])
    have hcs : ':' ∉ cs := fun e => h (List.mem_cons_of_mem c e)
    simp [split_colon, hc, ih hcs]

theorem split_colon_append (t rest : List Char) (h : ':' ∉ t) :
    split_colon (t ++ ':' :: rest) = t :: split_colon rest := by
  induction t with
  | nil => simp [split_colon]
  | cons c cs ih =>
    have hc : c ≠ ':' := fun e => h (by simp [e])
    have hcs : ':' ∉ cs := fun e => h (List.mem_cons_of_mem c e)
    simp [split_colon, hc, ih hcs]

theorem split_colon_join (toks : List (List Char)) (hne : toks ≠ [])
    (h : ∀ t ∈ toks, ':' ∉ t) : split_colon (join_colon toks) = toks := by
  induction toks with
  | nil => exact absurd rfl hne
  | cons t ts ih =>
    cases ts with
    | nil => exact split_colon_of_no_colon t (h t (List.mem_cons_self t []))
    | cons t1 ts1 =>
      simp only [join_colon]
      rw [split_colon_append t _ (h t (List.mem_cons_self t _))]
      rw [ih (by simp) (fun x hx => h x (List.mem_cons_of_mem t hx))]

theorem join_colon_ne_nil (sym : List Char) (params : List (List Char)) (hne : sym ≠ []) :
    join_colon (sym :: params) ≠ [] := by
  cases params with
  | nil => exact hne
  | cons p ps => simp [join_colon]

theorem tokenize_join (sym : List Char) (params : List (List Char)) (hne : sym ≠ [])
    (h : ∀ t ∈ sym :: params, ':' ∉ t) :
    tokenize (join_colon (sym :: params)) = sym :: params := by
  simp only [tokenize, join_colon_ne_nil sym params hne, if_false]
  exact split_colon_join _ (by simp) h

theorem button_create_type (type code : Int) (ev : ButtonEvent)
    (h : ButtonEvent.create type code = some ev) : ev.type = type ∧ ev.code = code := by
  unfold ButtonEvent.create at h
  split at h
  · cases h; exact ⟨rfl, rfl⟩
  · split at h
    · cases h
    · split at h
      · cases h; exact ⟨rfl, rfl⟩
      · split at h
        · cases h; exact ⟨rfl, rfl⟩
        · cases h

theorem axis_create_type (type code : Int) (ev : AxisEvent)
    (h : AxisEvent.create type code = some ev) : ev.type = type ∧ ev.code = code := by
  unfold AxisEvent.create at h
  split at h
  · cases h; exact ⟨rfl, rfl⟩
  · split at h
    · cases h; exact ⟨rfl, rfl⟩
    · split at h
      · cases h; exact ⟨rfl, rfl⟩
      · split at h
        · cases h; exact ⟨rfl, rfl⟩
        · cases h

/-- Tokens that `ButtonEvent::from_string` does not consume are skipped. -/
theorem button_from_string_loop_skip (str2event : List Char → Option (Int × Int))
    (lexical_cast : List Char → Option Int) (str : List Char) (rest : List (List Char))
    (j : Nat) (ev : ButtonEvent) (hj : j ≠ 0) (h : ev.type ≠ EV_REL ∨ 3 ≤ j) :
    ButtonEvent.from_string_loop str2event lexical_cast str j ev rest = Except.ok ev := by
  induction rest generalizing j with
  | nil => rfl
  | cons i rest ih =>
    have hnext := ih (j + 1) (by omega) (by rcases h with h | h; exact Or.inl h; right; omega)
    rcases h with h | h
    · simp only [ButtonEvent.from_string_loop, hj, h, if_false, hnext]
    · have h1 : j ≠ 1 := by omega
      have h2 : j ≠ 2 := by omega
      by_cases ht : ev.type = EV_REL
      · simp only [ButtonEvent.from_string_loop, hj, ht, h1, h2, if_false, if_true, hnext]
      · simp only [ButtonEvent.from_string_loop, hj, ht, if_false, hnext]

/-- Tokens that `AxisEvent::from_string` does not consume are skipped. -/
theorem axis_from_string_loop_skip (str2event : List Char → Option (Int × Int))
    (lexical_cast : List Char → Option Int) (str : List Char) (rest : List (List Char))
    (j : Nat) (ev : AxisEvent) (hj : j ≠ 0)
    (h : (ev.type ≠ EV_REL ∧ ev.type ≠ EV_KEY) ∨ 3 ≤ j) :
    AxisEvent.from_string_loop str2event lexical_cast str j ev rest = Except.ok ev := by
  induction rest generalizing j with
  | nil => rfl
  | cons i rest ih =>
    have hnext := ih (j + 1) (by omega) (by rcases h with h | h; exact Or.inl h; right; omega)
    by_cases ha : ev.type = EV_ABS
    · simp only [AxisEvent.from_string_loop, hj, ha, if_false, if_true, hnext]
    · rcases h with h | h
      · simp only [AxisEvent.from_string_loop, hj, ha, h.1, h.2, if_false, hnext]
      · have h1 : j ≠ 1 := by omega
        have h2 : j ≠ 2 := by omega
        by_cases hr : ev.type = EV_REL
        · simp only [AxisEvent.from_string_loop, hj, ha, hr, h1, h2, if_false, if_true, hnext,
            ite_self]
        · by_cases hk : ev.type = EV_KEY
          · simp only [AxisEvent.from_string_loop, hj, ha, hr, hk, h1, h2, if_false, if_true,
              hnext, ite_self]
          · simp only [AxisEvent.from_string_loop, hj, ha, hr, hk, if_false, hnext]

/-- C15: a non-empty string has a first token, a prefix of the string; if
`str2event` does not resolve it, `ButtonEvent::from_string` and
`AxisEvent::from_string` return no descriptor: they throw a `runtime_error`
whose message quotes the whole string and so contains the token, whatever
the other tokens are. -/
theorem from_string_unresolved (str2event : List Char → Option (Int × Int))
    (lexical_cast : List Char → Option Int) (evb : ButtonEvent) (eva : AxisEvent)
    (str : List Char) (hne : str ≠ []) :
    ∃ tok rest, tokenize str = tok :: rest ∧ List.IsPrefix tok str
      ∧ (str2event tok = none →
          ButtonEvent.from_string str2event lexical_cast evb str =
              Except.error (ParseError.runtime_error
                ("Couldn't convert '".toList ++ str ++ "' to ButtonEvent".toList))
          ∧ AxisEvent.from_string str2event lexical_cast eva str =
              Except.error (ParseError.runtime_error
                ("Couldn't convert '".toList ++ str ++ "' to AxisEvent".toList))
          ∧ List.IsInfix tok ("Couldn't convert '".toList ++ str ++ "' to ButtonEvent".toList)
          ∧ List.IsInfix tok ("Couldn't convert '".toList ++ str ++ "' to AxisEvent".toList)) := by
  obtain ⟨tok, rest, ht, hp⟩ := tokenize_head str hne
  refine ⟨tok, rest, ht, hp, ?_⟩
  intro hun
  obtain ⟨r, hr⟩ := hp
  refine ⟨?_, ?_, ?_, ?_⟩
  · simp only [ButtonEvent.from_string, ht, ButtonEvent.from_string_loop, if_true, hun]
  · simp only [AxisEvent.from_string, ht, AxisEvent.from_string_loop, if_true, hun]
  · exact ⟨"Couldn't convert '".toList, r ++ "' to ButtonEvent".toList, by simp [← hr]⟩
  · exact ⟨"Couldn't convert '".toList, r ++ "' to AxisEvent".toList, by simp [← hr]⟩

/-- Witness of C15: the sample symbol table does not know `FOO`, so
`FOO:1:2` is rejected with a message that quotes it. -/
theorem from_string_unresolved_witness :
    ButtonEvent.from_string str2event_sample lexical_cast_sample
        { type := 0, code := 0, rel_repeat := 0, rel_value := 0 } "FOO:1:2".toList =
      Except.error (ParseError.runtime_error "Couldn't convert 'FOO:1:2' to ButtonEvent".toList) := by
  obtain ⟨tok, rest, ht, _, h⟩ := from_string_unresolved str2event_sample lexical_cast_sample
    { type := 0, code := 0, rel_repeat := 0, rel_value := 0 }
    { type := 0, code := 0, rel_repeat := 0, rel_value := 0, key_secondary_code := 0,
      key_threshold := 0 }
    "FOO:1:2".toList (by decide)
  have ht2 : tok = "FOO".toList := by
    have : tokenize "FOO:1:2".toList = ["FOO".toList, "1".toList, "2".toList] := by decide
    rw [this] at ht
    exact (List.cons.inj ht).1.symm
  exact (h (by rw [ht2]; decide)).1

/-- C16: let the spec be the tokens `SYM`, `SYM:p1`, `SYM:p1:p2` or more,
joined with `:`, where `SYM` is not empty, no token contains `:` and `SYM`
resolves to `(type, code)`, and let `create(type, code)` return a descriptor.
Then `from_string('SYM')` returns that descriptor.  For a relative motion
(button and axis) `p1` read as an integer replaces the step and `p2` the
repeat interval; for an axis mapped to keys the code of the key symbol `p1`
replaces the secondary code and `p2` the threshold; a parameter that is not
present keeps its default.  For a digital button and for an absolute axis
every parameter is ignored, and so is every token after the third. -/
theorem from_string_positional (str2event : List Char → Option (Int × Int))
    (lexical_cast : List Char → Option Int) (evb : ButtonEvent) (eva : AxisEvent)
    (sym : List Char) (params : List (List Char)) (type code : Int)
    (hne : sym ≠ []) (hcolon : ∀ t ∈ sym :: params, ':' ∉ t)
    (hres : str2event sym = some (type, code)) :
    (∀ cb, ButtonEvent.create type code = some cb →
        (params = [] →
          ButtonEvent.from_string str2event lexical_cast evb (join_colon (sym :: params))
            = Except.ok cb)
        ∧ (type = EV_KEY →
          ButtonEvent.from_string str2event lexical_cast evb (join_colon (sym :: params))
            = Except.ok cb)
        ∧ (type = EV_REL → ∀ p1 n1, params = [p1] → lexical_cast p1 = some n1 →
          ButtonEvent.from_string str2event lexical_cast evb (join_colon (sym :: params))
            = Except.ok { cb with rel_value := n1 })
        ∧ (type = EV_REL → ∀ p1 p2 n1 n2 extra, params = p1 :: p2 :: extra →
          lexical_cast p1 = some n1 → lexical_cast p2 = some n2 →
          ButtonEvent.from_string str2event lexical_cast evb (join_colon (sym :: params))
            = Except.ok { cb with rel_value := n1, rel_repeat := n2 }))
    ∧ (∀ ca, AxisEvent.create type code = some ca →
        (params = [] →
          AxisEvent.from_string str2event lexical_cast eva (join_colon (sym :: params))
            = Except.ok ca)
        ∧ (type = EV_ABS →
          AxisEvent.from_string str2event lexical_cast eva (join_colon (sym :: params))
            = Except.ok ca)
        ∧ (type = EV_REL → ∀ p1 n1, params = [p1] → lexical_cast p1 = some n1 →
          AxisEvent.from_string str2event lexical_cast eva (join_colon (sym :: params))
            = Except.ok { ca with rel_value := n1 })
        ∧ (type = EV_REL → ∀ p1 p2 n1 n2 extra, params = p1 :: p2 :: extra →
          lexical_cast p1 = some n1 → lexical_cast p2 = some n2 →
          AxisEvent.from_string str2event lexical_cast eva (join_colon (sym :: params))
            = Except.ok { ca with rel_value := n1, rel_repeat := n2 })
        ∧ (type = EV_KEY → ∀ p1 c2, params = [p1] → str2event p1 = some (EV_KEY, c2) →
          AxisEvent.from_string str2event lexical_cast eva (join_colon (sym :: params))
            = Except.ok { ca with key_secondary_code := c2 })
        ∧ (type = EV_KEY → ∀ p1 p2 c2 n2 extra, params = p1 :: p2 :: extra →
          str2event p1 = some (EV_KEY, c2) → lexical_cast p2 = some n2 →
          AxisEvent.from_string str2event lexical_cast eva (join_colon (sym :: params))
            = Except.ok { ca with key_secondary_code := c2, key_threshold := n2 })) := by
  have htok := tokenize_join sym params hne hcolon
  have k1 : ¬ (EV_KEY = EV_REL) := by decide
  have k2 : ¬ (EV_KEY = EV_ABS) := by decide
  have k3 : ¬ (EV_REL = EV_ABS) := by decide
  have k4 : ¬ (EV_ABS = EV_REL) := by decide
  have k5 : ¬ (EV_ABS = EV_KEY) := by decide
  constructor
  · intro cb hcb
    have hty := (button_create_type type code cb hcb).1
    have hstart : ButtonEvent.from_string str2event lexical_cast evb (join_colon (sym :: params))
        = ButtonEvent.from_string_loop str2event lexical_cast (join_colon (sym :: params))
            1 cb params := by
      simp only [ButtonEvent.from_string, htok, ButtonEvent.from_string_loop, if_true, hres, hcb]
    rw [hstart]
    refine ⟨?_, ?_, ?_, ?_⟩
    · intro hp
      rw [hp]
      rfl
    · intro ht
      exact button_from_string_loop_skip _ _ _ params 1 cb (by decide)
        (Or.inl (by rw [hty, ht]; exact k1))
    · intro ht p1 n1 hp h1
      have hty1 : cb.type = EV_REL := by rw [hty, ht]
      rw [hp]
      simp only [ButtonEvent.from_string_loop, hty1, h1, if_true, one_ne_zero, if_false]
    · intro ht p1 p2 n1 n2 extra hp h1 h2
      have hty1 : cb.type = EV_REL := by rw [hty, ht]
      have e21 : ¬ ((1 : Nat) + 1 = 0) := by decide
      have e22 : ¬ ((1 : Nat) + 1 = 1) := by decide
      rw [hp]
      simp only [ButtonEvent.from_string_loop, hty1, h1, h2, if_true, one_ne_zero, if_false,
        e21, e22]
      exact button_from_string_loop_skip _ _ _ extra (1 + 1 + 1) _ (by decide)
        (Or.inr (by decide))
  · intro ca hca
    have hty := (axis_create_type type code ca hca).1
    have hstart : AxisEvent.from_string str2event lexical_cast eva (join_colon (sym :: params))
        = AxisEvent.from_string_loop str2event lexical_cast (join_colon (sym :: params))
            1 ca params := by
      simp only [AxisEvent.from_string, htok, AxisEvent.from_string_loop, if_true, hres, hca]
    rw [hstart]
    have e21 : ¬ ((1 : Nat) + 1 = 0) := by decide
    have e22 : ¬ ((1 : Nat) + 1 = 1) := by decide
    refine ⟨?_, ?_, ?_, ?_, ?_, ?_⟩
    · intro hp
      rw [hp]
      rfl
    · intro ht
      exact axis_from_string_loop_skip _ _ _ params 1 ca (by decide)
        (Or.inl ⟨by rw [hty, ht]; exact k4, by rw [hty, ht]; exact k5⟩)
    · intro ht p1 n1 hp h1
      have hty1 : ca.type = EV_REL := by rw [hty, ht]
      rw [hp]
      simp only [AxisEvent.from_string_loop, hty1, h1, if_true, one_ne_zero, if_false, k3]
    · intro ht p1 p2 n1 n2 extra hp h1 h2
      have hty1 : ca.type = EV_REL := by rw [hty, ht]
      rw [hp]
      simp only [AxisEvent.from_string_loop, hty1, h1, h2, if_true, one_ne_zero, if_false,
        e21, e22, k3]
      exact axis_from_string_loop_skip _ _ _ extra (1 + 1 + 1) _ (by decide)
        (Or.inr (by decide))
    · intro ht p1 c2 hp h1
      have hty1 : ca.type = EV_KEY := by rw [hty, ht]
      rw [hp]
      simp only [AxisEvent.from_string_loop, hty1, h1, if_true, one_ne_zero, if_false, k1, k2]
    · intro ht p1 p2 c2 n2 extra hp h1 h2
      have hty1 : ca.type = EV_KEY := by rw [hty, ht]
      rw [hp]
      simp only [AxisEvent.from_string_loop, hty1, h1, h2, if_true, one_ne_zero, if_false,
        e21, e22, k1, k2]
      exact axis_from_string_loop_skip _ _ _ extra (1 + 1 + 1) _ (by decide)
        (Or.inr (by decide))

/-- Witness of C16: with the sample symbol table, `REL_X:7:25` parsed as an
axis descriptor is the relative motion `REL_X` with the step 7 and the repeat
interval 25. -/
theorem from_string_positional_witness :
    AxisEvent.from_string str2event_sample lexical_cast_sample
        { type := 0, code := 0, rel_repeat := 0, rel_value := 0, key_secondary_code := 0,
          key_threshold := 0 }
        (join_colon ["REL_X".toList, "7".toList, "25".toList]) =
      Except.ok { type := EV_REL, code := REL_X, rel_repeat := 25, rel_value := 7,
                  key_secondary_code := 0, key_threshold := 0 } :=
  ((from_string_positional str2event_sample lexical_cast_sample
      { type := 0, code := 0, rel_repeat := 0, rel_value := 0 }
      { type := 0, code := 0, rel_repeat := 0, rel_value := 0, key_secondary_code := 0,
        key_threshold := 0 }
      "REL_X".toList ["7".toList, "25".toList] EV_REL REL_X (by decide) (by decide) (by decide)).2
    { type := EV_REL, code := REL_X, rel_repeat := 10, rel_value := 5,
      key_secondary_code := 0, key_threshold := 0 } (by decide)).2.2.2.1 rfl
    "7".toList "25".toList 7 25 [] rfl (by decide) (by decide)

end Xboxdrv
